import Mathlib

/-!
Verification of the `overture-valhalla-writer` C layer: fixed-layout record
types (`OSMWay`, `OSMNode`, `OSMWayNode` from `c_code/valhalla.h`) and their
array lifecycle and bulk file I/O (`c/osmway.c`, `c/osmdata.c`).

The embedding is byte-exact: a file is a `List Nat` of bytes (each `< 256`),
each record is laid out little-endian with LSB-first bit-packing, matching the
producing platform assumed by the C code (x86-64, GCC/Clang bit-field order).
Machine integers are `Nat` with explicit `% 2 ^ w` truncation at the points
the C code narrows a value.
-/

set_option maxHeartbeats 1600000
set_option maxRecDepth 8000
set_option synthInstance.maxSize 2000
set_option synthInstance.maxHeartbeats 1000000
set_option linter.unreachableTactic false
set_option linter.unnecessarySeqFocus false
set_option linter.unusedTactic false
set_option linter.unusedVariables false

/-- Little-endian encoding of `n % 2 ^ (8 * k)` into `k` bytes, the memory
image of a `k`-byte unsigned integer field. -/
def toLE : Nat → Nat → List Nat
  | 0, _ => []
  | k + 1, n => n % 256 :: toLE k (n / 256)

/-- Read a `k`-byte little-endian unsigned integer from the front of a byte
list, returning the value and the remaining bytes. -/
def readLE : Nat → List Nat → Nat × List Nat
  | 0, bs => (0, bs)
  | _ + 1, [] => (0, [])
  | k + 1, b :: bs =>
      let r := readLE k bs
      (b + 256 * r.1, r.2)

theorem toLE_length (k n : Nat) : (toLE k n).length = k := by
  induction k generalizing n with
  | zero => rfl
  | succ k ih => simp [toLE, ih]

theorem readLE_toLE_append (k n : Nat) (rest : List Nat) :
    readLE k (toLE k n ++ rest) = (n % 2 ^ (8 * k), rest) := by
  induction k generalizing n with
  | zero => simp [toLE, readLE, Nat.mod_one]
  | succ k ih =>
      have hstep : toLE (k + 1) n ++ rest = n % 256 :: (toLE k (n / 256) ++ rest) :=
        rfl
      rw [hstep]
      show (n % 256 + 256 * (readLE k (toLE k (n / 256) ++ rest)).1,
        (readLE k (toLE k (n / 256) ++ rest)).2) = _
      rw [ih]
      have hmul : 2 ^ (8 * (k + 1)) = 256 * 2 ^ (8 * k) := by
        rw [Nat.mul_add, Nat.pow_add, Nat.mul_comm]
      rw [hmul, Nat.mod_mul]

theorem readLE4 (n : Nat) (rest : List Nat) :
    readLE 4 (toLE 4 n ++ rest) = (n % 2 ^ 32, rest) :=
  readLE_toLE_append 4 n rest

/-- Concatenated little-endian encodings of a list of (byte width, value)
fields: the memory image of consecutive struct storage units. -/
def encodeFields : List (Nat × Nat) → List Nat
  | [] => []
  | p :: ps => toLE p.1 p.2 ++ encodeFields ps

/-- Read consecutive little-endian storage units of the given byte widths
from the front of a byte list. -/
def readWords : List Nat → List Nat → List Nat
  | [], _ => []
  | k :: ks, bs => (readLE k bs).1 :: readWords ks (readLE k bs).2

theorem encodeFields_length (ps : List (Nat × Nat)) :
    (encodeFields ps).length = (ps.map Prod.fst).sum := by
  induction ps with
  | nil => rfl
  | cons p ps ih => simp [encodeFields, toLE_length, ih]

theorem readWords_encodeFields (ps : List (Nat × Nat)) (rest : List Nat) :
    readWords (ps.map Prod.fst) (encodeFields ps ++ rest) =
      ps.map fun p => p.2 % 2 ^ (8 * p.1) := by
  induction ps with
  | nil => rfl
  | cons p ps ih =>
      simp only [List.map_cons, encodeFields, List.append_assoc, readWords,
        readLE_toLE_append, ih]

/-- The `OSMNode` struct from `c_code/valhalla.h`: id, three packed words of
string-table indices and flags, auxiliary indices and fixed-point
coordinates. All fields are `Nat` images of the C bit-fields. -/
structure OSMNode where
  osmid_ : Nat
  name_index_ : Nat
  ref_index_ : Nat
  exit_to_index_ : Nat
  named_intersection_ : Nat
  country_iso_index_ : Nat
  state_iso_index_ : Nat
  traffic_signal_ : Nat
  forward_signal_ : Nat
  backward_signal_ : Nat
  stop_sign_ : Nat
  forward_stop_ : Nat
  backward_stop_ : Nat
  yield_sign_ : Nat
  forward_yield_ : Nat
  backward_yield_ : Nat
  minor_ : Nat
  direction_ : Nat
  spare_ : Nat
  access_ : Nat
  type_ : Nat
  intersection_ : Nat
  non_link_edge_ : Nat
  link_edge_ : Nat
  shortlink_ : Nat
  non_ferry_edge_ : Nat
  ferry_edge_ : Nat
  flat_loop_ : Nat
  urban_ : Nat
  tagged_access_ : Nat
  private_access_ : Nat
  cash_only_toll_ : Nat
  spare1_ : Nat
  bss_info_ : Nat
  linguistic_info_index_ : Nat
  lng7_ : Nat
  lat7_ : Nat

/-- Well-formedness of an `OSMNode` value: every field fits the declared bit
width of the corresponding C struct field. Any value of the C struct
satisfies this. -/
abbrev WFNode (r : OSMNode) : Prop :=
  r.osmid_ < 2 ^ 64 ∧ r.name_index_ < 2 ^ 21 ∧ r.ref_index_ < 2 ^ 21 ∧ 
  r.exit_to_index_ < 2 ^ 21 ∧ r.named_intersection_ < 2 ∧ r.country_iso_index_ < 2 ^ 21 ∧ 
  r.state_iso_index_ < 2 ^ 21 ∧ r.traffic_signal_ < 2 ∧ r.forward_signal_ < 2 ∧ 
  r.backward_signal_ < 2 ∧ r.stop_sign_ < 2 ∧ r.forward_stop_ < 2 ∧ r.backward_stop_ < 2 ∧ 
  r.yield_sign_ < 2 ∧ r.forward_yield_ < 2 ∧ r.backward_yield_ < 2 ∧ r.minor_ < 2 ∧ 
  r.direction_ < 2 ∧ r.spare_ < 2 ^ 11 ∧ r.access_ < 2 ^ 12 ∧ r.type_ < 2 ^ 4 ∧ 
  r.intersection_ < 2 ∧ r.non_link_edge_ < 2 ∧ r.link_edge_ < 2 ∧ r.shortlink_ < 2 ∧ 
  r.non_ferry_edge_ < 2 ∧ r.ferry_edge_ < 2 ∧ r.flat_loop_ < 2 ∧ r.urban_ < 2 ∧ 
  r.tagged_access_ < 2 ∧ r.private_access_ < 2 ∧ r.cash_only_toll_ < 2 ∧ r.spare1_ < 2 ^ 5 ∧ 
  r.bss_info_ < 2 ^ 32 ∧ r.linguistic_info_index_ < 2 ^ 32 ∧ r.lng7_ < 2 ^ 32 ∧ 
  r.lat7_ < 2 ^ 32

/-- The all-zero `OSMNode`, the image of a record zeroed by `memset`. -/
def nodeZero : OSMNode :=
  ⟨0, 0, 0, 0, 0, 0, 0, 0, 0, 0, 0, 0, 0, 0, 0, 0, 0, 0, 0, 0, 0, 0, 0, 0, 0, 0, 0, 0, 0, 0, 
   0, 0, 0, 0, 0, 0, 0⟩

/-- `sizeof(struct OSMNode)` on the assumed platform: 44 content bytes plus
4 bytes of tail padding (alignment 8). -/
def sizeofOSMNode : Nat := 48

/-- First packed 64-bit unit of `OSMNode` (`name_index_ : 21` up to
`named_intersection_ : 1`), LSB first. -/
def nodeWord1 (r : OSMNode) : Nat :=
  
    r.name_index_ + 2 ^ 21 * (r.ref_index_ + 2 ^ 21 * (r.exit_to_index_ + 2 ^ 21 * (r.named_intersection_)))

/-- Second packed 64-bit unit of `OSMNode` (`country_iso_index_ : 21` up to
`spare_ : 11`), LSB first. -/
def nodeWord2 (r : OSMNode) : Nat :=
  
    r.country_iso_index_ + 2 ^ 21 * (r.state_iso_index_ + 2 ^ 21 * (r.traffic_signal_ + 2 * (r.forward_signal_ + 2 * (r.backward_signal_ + 2 * (r.stop_sign_ + 2 * (r.forward_stop_ + 2 * (r.backward_stop_ + 2 * (r.yield_sign_ + 2 * (r.forward_yield_ + 2 * (r.backward_yield_ + 2 * (r.minor_ + 2 * (r.direction_ + 2 * (r.spare_)))))))))))))

/-- Third packed 32-bit unit of `OSMNode` (`access_ : 12` up to
`spare1_ : 5`), LSB first. -/
def nodeWord3 (r : OSMNode) : Nat :=
  
    r.access_ + 2 ^ 12 * (r.type_ + 2 ^ 4 * (r.intersection_ + 2 * (r.non_link_edge_ + 2 * (r.link_edge_ + 2 * (r.shortlink_ + 2 * (r.non_ferry_edge_ + 2 * (r.ferry_edge_ + 2 * (r.flat_loop_ + 2 * (r.urban_ + 2 * (r.tagged_access_ + 2 * (r.private_access_ + 2 * (r.cash_only_toll_ + 2 * (r.spare1_)))))))))))))

/-- The storage units of an `OSMNode` in declaration order, each as
(byte width, value). -/
def osmnodeFields (r : OSMNode) : List (Nat × Nat) :=
  [(8, r.osmid_), (8, nodeWord1 r), (8, nodeWord2 r), (4, nodeWord3 r), (4, r.bss_info_), 
   (4, r.linguistic_info_index_), (4, r.lng7_), (4, r.lat7_)]

/-- The byte widths of the storage units of an `OSMNode`. -/
def osmnodeSizes : List Nat := [8, 8, 8, 4, 4, 4, 4, 4]

/-- The 48-byte memory image of an `OSMNode` value: storage units in
declaration order, little-endian, tail padding bytes zero. -/
def osmnodeBytes (r : OSMNode) : List Nat :=
  encodeFields (osmnodeFields r) ++ [0, 0, 0, 0]

/-- Rebuild an `OSMNode` from its eight storage-unit values, extracting the
packed bit-fields LSB first (C bit-field access on the read-back struct). -/
def osmnodeOfWords : List Nat → OSMNode
  | w0 :: w1 :: w2 :: w3 :: w4 :: w5 :: w6 :: w7 :: [] =>
    ⟨w0, w1 % 2 ^ 21, w1 / 2 ^ 21 % 2 ^ 21, w1 / 2 ^ 21 / 2 ^ 21 % 2 ^ 21, 
     w1 / 2 ^ 21 / 2 ^ 21 / 2 ^ 21, w2 % 2 ^ 21, w2 / 2 ^ 21 % 2 ^ 21, 
     w2 / 2 ^ 21 / 2 ^ 21 % 2, w2 / 2 ^ 21 / 2 ^ 21 / 2 % 2, w2 / 2 ^ 21 / 2 ^ 21 / 2 / 2 % 2, 
     w2 / 2 ^ 21 / 2 ^ 21 / 2 / 2 / 2 % 2, w2 / 2 ^ 21 / 2 ^ 21 / 2 / 2 / 2 / 2 % 2, 
     w2 / 2 ^ 21 / 2 ^ 21 / 2 / 2 / 2 / 2 / 2 % 2, 
     w2 / 2 ^ 21 / 2 ^ 21 / 2 / 2 / 2 / 2 / 2 / 2 % 2, 
     w2 / 2 ^ 21 / 2 ^ 21 / 2 / 2 / 2 / 2 / 2 / 2 / 2 % 2, 
     w2 / 2 ^ 21 / 2 ^ 21 / 2 / 2 / 2 / 2 / 2 / 2 / 2 / 2 % 2, 
     w2 / 2 ^ 21 / 2 ^ 21 / 2 / 2 / 2 / 2 / 2 / 2 / 2 / 2 / 2 % 2, 
     w2 / 2 ^ 21 / 2 ^ 21 / 2 / 2 / 2 / 2 / 2 / 2 / 2 / 2 / 2 / 2 % 2, 
     w2 / 2 ^ 21 / 2 ^ 21 / 2 / 2 / 2 / 2 / 2 / 2 / 2 / 2 / 2 / 2 / 2, w3 % 2 ^ 12, 
     w3 / 2 ^ 12 % 2 ^ 4, w3 / 2 ^ 12 / 2 ^ 4 % 2, w3 / 2 ^ 12 / 2 ^ 4 / 2 % 2, 
     w3 / 2 ^ 12 / 2 ^ 4 / 2 / 2 % 2, w3 / 2 ^ 12 / 2 ^ 4 / 2 / 2 / 2 % 2, 
     w3 / 2 ^ 12 / 2 ^ 4 / 2 / 2 / 2 / 2 % 2, w3 / 2 ^ 12 / 2 ^ 4 / 2 / 2 / 2 / 2 / 2 % 2, 
     w3 / 2 ^ 12 / 2 ^ 4 / 2 / 2 / 2 / 2 / 2 / 2 % 2, 
     w3 / 2 ^ 12 / 2 ^ 4 / 2 / 2 / 2 / 2 / 2 / 2 / 2 % 2, 
     w3 / 2 ^ 12 / 2 ^ 4 / 2 / 2 / 2 / 2 / 2 / 2 / 2 / 2 % 2, 
     w3 / 2 ^ 12 / 2 ^ 4 / 2 / 2 / 2 / 2 / 2 / 2 / 2 / 2 / 2 % 2, 
     w3 / 2 ^ 12 / 2 ^ 4 / 2 / 2 / 2 / 2 / 2 / 2 / 2 / 2 / 2 / 2 % 2, 
     w3 / 2 ^ 12 / 2 ^ 4 / 2 / 2 / 2 / 2 / 2 / 2 / 2 / 2 / 2 / 2 / 2, w4, w5, w6, w7⟩
  | _ => nodeZero

/-- Reinterpret the front of a byte list as one `OSMNode` (the effect of
`fread` into the struct), returning the remaining bytes. -/
def osmnodeDecode (bs : List Nat) : OSMNode × List Nat :=
  (osmnodeOfWords (readWords osmnodeSizes bs), bs.drop sizeofOSMNode)

theorem osmnodeBytes_length (r : OSMNode) :
    (osmnodeBytes r).length = sizeofOSMNode := by
  simp [osmnodeBytes, osmnodeFields, encodeFields, toLE_length, sizeofOSMNode]

theorem nodeWord1_lt (r : OSMNode)
    (b0 : r.name_index_ < 2 ^ 21) (b1 : r.ref_index_ < 2 ^ 21) 
    (b2 : r.exit_to_index_ < 2 ^ 21) (b3 : r.named_intersection_ < 2) :
    nodeWord1 r < 2 ^ 64 := by
  unfold nodeWord1; omega

theorem nodeWord1_x0 (r : OSMNode)
    (b0 : r.name_index_ < 2 ^ 21) :
    nodeWord1 r % 2 ^ 21 = r.name_index_ := by
  unfold nodeWord1; omega

theorem nodeWord1_x1 (r : OSMNode)
    (b0 : r.name_index_ < 2 ^ 21) (b1 : r.ref_index_ < 2 ^ 21) :
    nodeWord1 r / 2 ^ 21 % 2 ^ 21 = r.ref_index_ := by
  unfold nodeWord1; omega

theorem nodeWord1_x2 (r : OSMNode)
    (b0 : r.name_index_ < 2 ^ 21) (b1 : r.ref_index_ < 2 ^ 21) 
    (b2 : r.exit_to_index_ < 2 ^ 21) :
    nodeWord1 r / 2 ^ 21 / 2 ^ 21 % 2 ^ 21 = r.exit_to_index_ := by
  unfold nodeWord1; omega

theorem nodeWord1_x3 (r : OSMNode)
    (b0 : r.name_index_ < 2 ^ 21) (b1 : r.ref_index_ < 2 ^ 21) 
    (b2 : r.exit_to_index_ < 2 ^ 21) (b3 : r.named_intersection_ < 2) :
    nodeWord1 r / 2 ^ 21 / 2 ^ 21 / 2 ^ 21 = r.named_intersection_ := by
  unfold nodeWord1; omega

theorem nodeWord2_lt (r : OSMNode)
    (b0 : r.country_iso_index_ < 2 ^ 21) (b1 : r.state_iso_index_ < 2 ^ 21) 
    (b2 : r.traffic_signal_ < 2) (b3 : r.forward_signal_ < 2) (b4 : r.backward_signal_ < 2) 
    (b5 : r.stop_sign_ < 2) (b6 : r.forward_stop_ < 2) (b7 : r.backward_stop_ < 2) 
    (b8 : r.yield_sign_ < 2) (b9 : r.forward_yield_ < 2) (b10 : r.backward_yield_ < 2) 
    (b11 : r.minor_ < 2) (b12 : r.direction_ < 2) (b13 : r.spare_ < 2 ^ 11) :
    nodeWord2 r < 2 ^ 64 := by
  unfold nodeWord2; omega

theorem nodeWord2_x0 (r : OSMNode)
    (b0 : r.country_iso_index_ < 2 ^ 21) :
    nodeWord2 r % 2 ^ 21 = r.country_iso_index_ := by
  unfold nodeWord2; omega

theorem nodeWord2_x1 (r : OSMNode)
    (b0 : r.country_iso_index_ < 2 ^ 21) (b1 : r.state_iso_index_ < 2 ^ 21) :
    nodeWord2 r / 2 ^ 21 % 2 ^ 21 = r.state_iso_index_ := by
  unfold nodeWord2; omega

theorem nodeWord2_x2 (r : OSMNode)
    (b0 : r.country_iso_index_ < 2 ^ 21) (b1 : r.state_iso_index_ < 2 ^ 21) 
    (b2 : r.traffic_signal_ < 2) :
    nodeWord2 r / 2 ^ 21 / 2 ^ 21 % 2 = r.traffic_signal_ := by
  unfold nodeWord2; omega

theorem nodeWord2_x3 (r : OSMNode)
    (b0 : r.country_iso_index_ < 2 ^ 21) (b1 : r.state_iso_index_ < 2 ^ 21) 
    (b2 : r.traffic_signal_ < 2) (b3 : r.forward_signal_ < 2) :
    nodeWord2 r / 2 ^ 21 / 2 ^ 21 / 2 % 2 = r.forward_signal_ := by
  unfold nodeWord2; omega

theorem nodeWord2_x4 (r : OSMNode)
    (b0 : r.country_iso_index_ < 2 ^ 21) (b1 : r.state_iso_index_ < 2 ^ 21) 
    (b2 : r.traffic_signal_ < 2) (b3 : r.forward_signal_ < 2) (b4 : r.backward_signal_ < 2) :
    nodeWord2 r / 2 ^ 21 / 2 ^ 21 / 2 / 2 % 2 = r.backward_signal_ := by
  unfold nodeWord2; omega

theorem nodeWord2_x5 (r : OSMNode)
    (b0 : r.country_iso_index_ < 2 ^ 21) (b1 : r.state_iso_index_ < 2 ^ 21) 
    (b2 : r.traffic_signal_ < 2) (b3 : r.forward_signal_ < 2) (b4 : r.backward_signal_ < 2) 
    (b5 : r.stop_sign_ < 2) :
    nodeWord2 r / 2 ^ 21 / 2 ^ 21 / 2 / 2 / 2 % 2 = r.stop_sign_ := by
  unfold nodeWord2; omega

theorem nodeWord2_x6 (r : OSMNode)
    (b0 : r.country_iso_index_ < 2 ^ 21) (b1 : r.state_iso_index_ < 2 ^ 21) 
    (b2 : r.traffic_signal_ < 2) (b3 : r.forward_signal_ < 2) (b4 : r.backward_signal_ < 2) 
    (b5 : r.stop_sign_ < 2) (b6 : r.forward_stop_ < 2) :
    nodeWord2 r / 2 ^ 21 / 2 ^ 21 / 2 / 2 / 2 / 2 % 2 = r.forward_stop_ := by
  unfold nodeWord2; omega

theorem nodeWord2_x7 (r : OSMNode)
    (b0 : r.country_iso_index_ < 2 ^ 21) (b1 : r.state_iso_index_ < 2 ^ 21) 
    (b2 : r.traffic_signal_ < 2) (b3 : r.forward_signal_ < 2) (b4 : r.backward_signal_ < 2) 
    (b5 : r.stop_sign_ < 2) (b6 : r.forward_stop_ < 2) (b7 : r.backward_stop_ < 2) :
    nodeWord2 r / 2 ^ 21 / 2 ^ 21 / 2 / 2 / 2 / 2 / 2 % 2 = r.backward_stop_ := by
  unfold nodeWord2; omega

theorem nodeWord2_x8 (r : OSMNode)
    (b0 : r.country_iso_index_ < 2 ^ 21) (b1 : r.state_iso_index_ < 2 ^ 21) 
    (b2 : r.traffic_signal_ < 2) (b3 : r.forward_signal_ < 2) (b4 : r.backward_signal_ < 2) 
    (b5 : r.stop_sign_ < 2) (b6 : r.forward_stop_ < 2) (b7 : r.backward_stop_ < 2) 
    (b8 : r.yield_sign_ < 2) :
    nodeWord2 r / 2 ^ 21 / 2 ^ 21 / 2 / 2 / 2 / 2 / 2 / 2 % 2 = r.yield_sign_ := by
  unfold nodeWord2; omega

theorem nodeWord2_x9 (r : OSMNode)
    (b0 : r.country_iso_index_ < 2 ^ 21) (b1 : r.state_iso_index_ < 2 ^ 21) 
    (b2 : r.traffic_signal_ < 2) (b3 : r.forward_signal_ < 2) (b4 : r.backward_signal_ < 2) 
    (b5 : r.stop_sign_ < 2) (b6 : r.forward_stop_ < 2) (b7 : r.backward_stop_ < 2) 
    (b8 : r.yield_sign_ < 2) (b9 : r.forward_yield_ < 2) :
    nodeWord2 r / 2 ^ 21 / 2 ^ 21 / 2 / 2 / 2 / 2 / 2 / 2 / 2 % 2 = r.forward_yield_ := by
  unfold nodeWord2; omega

theorem nodeWord2_x10 (r : OSMNode)
    (b0 : r.country_iso_index_ < 2 ^ 21) (b1 : r.state_iso_index_ < 2 ^ 21) 
    (b2 : r.traffic_signal_ < 2) (b3 : r.forward_signal_ < 2) (b4 : r.backward_signal_ < 2) 
    (b5 : r.stop_sign_ < 2) (b6 : r.forward_stop_ < 2) (b7 : r.backward_stop_ < 2) 
    (b8 : r.yield_sign_ < 2) (b9 : r.forward_yield_ < 2) (b10 : r.backward_yield_ < 2) :
    nodeWord2 r / 2 ^ 21 / 2 ^ 21 / 2 / 2 / 2 / 2 / 2 / 2 / 2 / 2 % 2 = r.backward_yield_ := by
  unfold nodeWord2; omega

theorem nodeWord2_x11 (r : OSMNode)
    (b0 : r.country_iso_index_ < 2 ^ 21) (b1 : r.state_iso_index_ < 2 ^ 21) 
    (b2 : r.traffic_signal_ < 2) (b3 : r.forward_signal_ < 2) (b4 : r.backward_signal_ < 2) 
    (b5 : r.stop_sign_ < 2) (b6 : r.forward_stop_ < 2) (b7 : r.backward_stop_ < 2) 
    (b8 : r.yield_sign_ < 2) (b9 : r.forward_yield_ < 2) (b10 : r.backward_yield_ < 2) 
    (b11 : r.minor_ < 2) :
    nodeWord2 r / 2 ^ 21 / 2 ^ 21 / 2 / 2 / 2 / 2 / 2 / 2 / 2 / 2 / 2 % 2 = r.minor_ := by
  unfold nodeWord2; omega

theorem nodeWord2_x12 (r : OSMNode)
    (b0 : r.country_iso_index_ < 2 ^ 21) (b1 : r.state_iso_index_ < 2 ^ 21) 
    (b2 : r.traffic_signal_ < 2) (b3 : r.forward_signal_ < 2) (b4 : r.backward_signal_ < 2) 
    (b5 : r.stop_sign_ < 2) (b6 : r.forward_stop_ < 2) (b7 : r.backward_stop_ < 2) 
    (b8 : r.yield_sign_ < 2) (b9 : r.forward_yield_ < 2) (b10 : r.backward_yield_ < 2) 
    (b11 : r.minor_ < 2) (b12 : r.direction_ < 2) :
    nodeWord2 r / 2 ^ 21 / 2 ^ 21 / 2 / 2 / 2 / 2 / 2 / 2 / 2 / 2 / 2 / 2 % 2 = r.direction_ := by
  unfold nodeWord2; omega

theorem nodeWord2_x13 (r : OSMNode)
    (b0 : r.country_iso_index_ < 2 ^ 21) (b1 : r.state_iso_index_ < 2 ^ 21) 
    (b2 : r.traffic_signal_ < 2) (b3 : r.forward_signal_ < 2) (b4 : r.backward_signal_ < 2) 
    (b5 : r.stop_sign_ < 2) (b6 : r.forward_stop_ < 2) (b7 : r.backward_stop_ < 2) 
    (b8 : r.yield_sign_ < 2) (b9 : r.forward_yield_ < 2) (b10 : r.backward_yield_ < 2) 
    (b11 : r.minor_ < 2) (b12 : r.direction_ < 2) (b13 : r.spare_ < 2 ^ 11) :
    nodeWord2 r / 2 ^ 21 / 2 ^ 21 / 2 / 2 / 2 / 2 / 2 / 2 / 2 / 2 / 2 / 2 / 2 = r.spare_ := by
  unfold nodeWord2; omega

theorem nodeWord3_lt (r : OSMNode)
    (b0 : r.access_ < 2 ^ 12) (b1 : r.type_ < 2 ^ 4) (b2 : r.intersection_ < 2) 
    (b3 : r.non_link_edge_ < 2) (b4 : r.link_edge_ < 2) (b5 : r.shortlink_ < 2) 
    (b6 : r.non_ferry_edge_ < 2) (b7 : r.ferry_edge_ < 2) (b8 : r.flat_loop_ < 2) 
    (b9 : r.urban_ < 2) (b10 : r.tagged_access_ < 2) (b11 : r.private_access_ < 2) 
    (b12 : r.cash_only_toll_ < 2) (b13 : r.spare1_ < 2 ^ 5) :
    nodeWord3 r < 2 ^ 32 := by
  unfold nodeWord3; omega

theorem nodeWord3_x0 (r : OSMNode)
    (b0 : r.access_ < 2 ^ 12) :
    nodeWord3 r % 2 ^ 12 = r.access_ := by
  unfold nodeWord3; omega

theorem nodeWord3_x1 (r : OSMNode)
    (b0 : r.access_ < 2 ^ 12) (b1 : r.type_ < 2 ^ 4) :
    nodeWord3 r / 2 ^ 12 % 2 ^ 4 = r.type_ := by
  unfold nodeWord3; omega

theorem nodeWord3_x2 (r : OSMNode)
    (b0 : r.access_ < 2 ^ 12) (b1 : r.type_ < 2 ^ 4) (b2 : r.intersection_ < 2) :
    nodeWord3 r / 2 ^ 12 / 2 ^ 4 % 2 = r.intersection_ := by
  unfold nodeWord3; omega

theorem nodeWord3_x3 (r : OSMNode)
    (b0 : r.access_ < 2 ^ 12) (b1 : r.type_ < 2 ^ 4) (b2 : r.intersection_ < 2) 
    (b3 : r.non_link_edge_ < 2) :
    nodeWord3 r / 2 ^ 12 / 2 ^ 4 / 2 % 2 = r.non_link_edge_ := by
  unfold nodeWord3; omega

theorem nodeWord3_x4 (r : OSMNode)
    (b0 : r.access_ < 2 ^ 12) (b1 : r.type_ < 2 ^ 4) (b2 : r.intersection_ < 2) 
    (b3 : r.non_link_edge_ < 2) (b4 : r.link_edge_ < 2) :
    nodeWord3 r / 2 ^ 12 / 2 ^ 4 / 2 / 2 % 2 = r.link_edge_ := by
  unfold nodeWord3; omega

theorem nodeWord3_x5 (r : OSMNode)
    (b0 : r.access_ < 2 ^ 12) (b1 : r.type_ < 2 ^ 4) (b2 : r.intersection_ < 2) 
    (b3 : r.non_link_edge_ < 2) (b4 : r.link_edge_ < 2) (b5 : r.shortlink_ < 2) :
    nodeWord3 r / 2 ^ 12 / 2 ^ 4 / 2 / 2 / 2 % 2 = r.shortlink_ := by
  unfold nodeWord3; omega

theorem nodeWord3_x6 (r : OSMNode)
    (b0 : r.access_ < 2 ^ 12) (b1 : r.type_ < 2 ^ 4) (b2 : r.intersection_ < 2) 
    (b3 : r.non_link_edge_ < 2) (b4 : r.link_edge_ < 2) (b5 : r.shortlink_ < 2) 
    (b6 : r.non_ferry_edge_ < 2) :
    nodeWord3 r / 2 ^ 12 / 2 ^ 4 / 2 / 2 / 2 / 2 % 2 = r.non_ferry_edge_ := by
  unfold nodeWord3; omega

theorem nodeWord3_x7 (r : OSMNode)
    (b0 : r.access_ < 2 ^ 12) (b1 : r.type_ < 2 ^ 4) (b2 : r.intersection_ < 2) 
    (b3 : r.non_link_edge_ < 2) (b4 : r.link_edge_ < 2) (b5 : r.shortlink_ < 2) 
    (b6 : r.non_ferry_edge_ < 2) (b7 : r.ferry_edge_ < 2) :
    nodeWord3 r / 2 ^ 12 / 2 ^ 4 / 2 / 2 / 2 / 2 / 2 % 2 = r.ferry_edge_ := by
  unfold nodeWord3; omega

theorem nodeWord3_x8 (r : OSMNode)
    (b0 : r.access_ < 2 ^ 12) (b1 : r.type_ < 2 ^ 4) (b2 : r.intersection_ < 2) 
    (b3 : r.non_link_edge_ < 2) (b4 : r.link_edge_ < 2) (b5 : r.shortlink_ < 2) 
    (b6 : r.non_ferry_edge_ < 2) (b7 : r.ferry_edge_ < 2) (b8 : r.flat_loop_ < 2) :
    nodeWord3 r / 2 ^ 12 / 2 ^ 4 / 2 / 2 / 2 / 2 / 2 / 2 % 2 = r.flat_loop_ := by
  unfold nodeWord3; omega

theorem nodeWord3_x9 (r : OSMNode)
    (b0 : r.access_ < 2 ^ 12) (b1 : r.type_ < 2 ^ 4) (b2 : r.intersection_ < 2) 
    (b3 : r.non_link_edge_ < 2) (b4 : r.link_edge_ < 2) (b5 : r.shortlink_ < 2) 
    (b6 : r.non_ferry_edge_ < 2) (b7 : r.ferry_edge_ < 2) (b8 : r.flat_loop_ < 2) 
    (b9 : r.urban_ < 2) :
    nodeWord3 r / 2 ^ 12 / 2 ^ 4 / 2 / 2 / 2 / 2 / 2 / 2 / 2 % 2 = r.urban_ := by
  unfold nodeWord3; omega

theorem nodeWord3_x10 (r : OSMNode)
    (b0 : r.access_ < 2 ^ 12) (b1 : r.type_ < 2 ^ 4) (b2 : r.intersection_ < 2) 
    (b3 : r.non_link_edge_ < 2) (b4 : r.link_edge_ < 2) (b5 : r.shortlink_ < 2) 
    (b6 : r.non_ferry_edge_ < 2) (b7 : r.ferry_edge_ < 2) (b8 : r.flat_loop_ < 2) 
    (b9 : r.urban_ < 2) (b10 : r.tagged_access_ < 2) :
    nodeWord3 r / 2 ^ 12 / 2 ^ 4 / 2 / 2 / 2 / 2 / 2 / 2 / 2 / 2 % 2 = r.tagged_access_ := by
  unfold nodeWord3; omega

theorem nodeWord3_x11 (r : OSMNode)
    (b0 : r.access_ < 2 ^ 12) (b1 : r.type_ < 2 ^ 4) (b2 : r.intersection_ < 2) 
    (b3 : r.non_link_edge_ < 2) (b4 : r.link_edge_ < 2) (b5 : r.shortlink_ < 2) 
    (b6 : r.non_ferry_edge_ < 2) (b7 : r.ferry_edge_ < 2) (b8 : r.flat_loop_ < 2) 
    (b9 : r.urban_ < 2) (b10 : r.tagged_access_ < 2) (b11 : r.private_access_ < 2) :
    nodeWord3 r / 2 ^ 12 / 2 ^ 4 / 2 / 2 / 2 / 2 / 2 / 2 / 2 / 2 / 2 % 2 = r.private_access_ := by
  unfold nodeWord3; omega

theorem nodeWord3_x12 (r : OSMNode)
    (b0 : r.access_ < 2 ^ 12) (b1 : r.type_ < 2 ^ 4) (b2 : r.intersection_ < 2) 
    (b3 : r.non_link_edge_ < 2) (b4 : r.link_edge_ < 2) (b5 : r.shortlink_ < 2) 
    (b6 : r.non_ferry_edge_ < 2) (b7 : r.ferry_edge_ < 2) (b8 : r.flat_loop_ < 2) 
    (b9 : r.urban_ < 2) (b10 : r.tagged_access_ < 2) (b11 : r.private_access_ < 2) 
    (b12 : r.cash_only_toll_ < 2) :
    nodeWord3 r / 2 ^ 12 / 2 ^ 4 / 2 / 2 / 2 / 2 / 2 / 2 / 2 / 2 / 2 / 2 % 2 = r.cash_only_toll_ := by
  unfold nodeWord3; omega

theorem nodeWord3_x13 (r : OSMNode)
    (b0 : r.access_ < 2 ^ 12) (b1 : r.type_ < 2 ^ 4) (b2 : r.intersection_ < 2) 
    (b3 : r.non_link_edge_ < 2) (b4 : r.link_edge_ < 2) (b5 : r.shortlink_ < 2) 
    (b6 : r.non_ferry_edge_ < 2) (b7 : r.ferry_edge_ < 2) (b8 : r.flat_loop_ < 2) 
    (b9 : r.urban_ < 2) (b10 : r.tagged_access_ < 2) (b11 : r.private_access_ < 2) 
    (b12 : r.cash_only_toll_ < 2) (b13 : r.spare1_ < 2 ^ 5) :
    nodeWord3 r / 2 ^ 12 / 2 ^ 4 / 2 / 2 / 2 / 2 / 2 / 2 / 2 / 2 / 2 / 2 / 2 = r.spare1_ := by
  unfold nodeWord3; omega

theorem osmnodeDecode_bytes (r : OSMNode) (rest : List Nat) (h : WFNode r) :
    osmnodeDecode (osmnodeBytes r ++ rest) = (r, rest) := by
  have hn0 := h.1
  have hx0 := h.2
  have hn1 := hx0.1
  have hx1 := hx0.2
  have hn2 := hx1.1
  have hx2 := hx1.2
  have hn3 := hx2.1
  have hx3 := hx2.2
  have hn4 := hx3.1
  have hx4 := hx3.2
  have hn5 := hx4.1
  have hx5 := hx4.2
  have hn6 := hx5.1
  have hx6 := hx5.2
  have hn7 := hx6.1
  have hx7 := hx6.2
  have hn8 := hx7.1
  have hx8 := hx7.2
  have hn9 := hx8.1
  have hx9 := hx8.2
  have hn10 := hx9.1
  have hx10 := hx9.2
  have hn11 := hx10.1
  have hx11 := hx10.2
  have hn12 := hx11.1
  have hx12 := hx11.2
  have hn13 := hx12.1
  have hx13 := hx12.2
  have hn14 := hx13.1
  have hx14 := hx13.2
  have hn15 := hx14.1
  have hx15 := hx14.2
  have hn16 := hx15.1
  have hx16 := hx15.2
  have hn17 := hx16.1
  have hx17 := hx16.2
  have hn18 := hx17.1
  have hx18 := hx17.2
  have hn19 := hx18.1
  have hx19 := hx18.2
  have hn20 := hx19.1
  have hx20 := hx19.2
  have hn21 := hx20.1
  have hx21 := hx20.2
  have hn22 := hx21.1
  have hx22 := hx21.2
  have hn23 := hx22.1
  have hx23 := hx22.2
  have hn24 := hx23.1
  have hx24 := hx23.2
  have hn25 := hx24.1
  have hx25 := hx24.2
  have hn26 := hx25.1
  have hx26 := hx25.2
  have hn27 := hx26.1
  have hx27 := hx26.2
  have hn28 := hx27.1
  have hx28 := hx27.2
  have hn29 := hx28.1
  have hx29 := hx28.2
  have hn30 := hx29.1
  have hx30 := hx29.2
  have hn31 := hx30.1
  have hx31 := hx30.2
  have hn32 := hx31.1
  have hx32 := hx31.2
  have hn33 := hx32.1
  have hx33 := hx32.2
  have hn34 := hx33.1
  have hx34 := hx33.2
  have hn35 := hx34.1
  have hx35 := hx34.2
  have hn36 := hx35
  have hq1 := nodeWord1_lt r hn1 hn2 hn3 hn4
  have hq2 := nodeWord2_lt r hn5 hn6 hn7 hn8 hn9 hn10 hn11 hn12 hn13 hn14 hn15 hn16 hn17 hn18
  have hq3 := nodeWord3_lt r hn19 hn20 hn21 hn22 hn23 hn24 hn25 hn26 hn27 hn28 hn29 hn30 hn31 hn32
  have hwords : readWords osmnodeSizes (osmnodeBytes r ++ rest) =
      [r.osmid_ % 2 ^ 64, (nodeWord1 r) % 2 ^ 64, (nodeWord2 r) % 2 ^ 64, 
       (nodeWord3 r) % 2 ^ 32, r.bss_info_ % 2 ^ 32, r.linguistic_info_index_ % 2 ^ 32, 
       r.lng7_ % 2 ^ 32, r.lat7_ % 2 ^ 32] := by
    unfold osmnodeBytes
    rw [List.append_assoc,
      show osmnodeSizes = (osmnodeFields r).map Prod.fst from rfl,
      readWords_encodeFields]
    norm_num [osmnodeFields]
  have hdrop : (osmnodeBytes r ++ rest).drop sizeofOSMNode = rest := by
    rw [show sizeofOSMNode = (osmnodeBytes r).length from (osmnodeBytes_length r).symm,
      List.drop_left]
  unfold osmnodeDecode
  rw [hwords, hdrop]
  rw [Nat.mod_eq_of_lt hn0, Nat.mod_eq_of_lt hq1, Nat.mod_eq_of_lt hq2, Nat.mod_eq_of_lt hq3, 
    Nat.mod_eq_of_lt hn33, Nat.mod_eq_of_lt hn34, Nat.mod_eq_of_lt hn35, Nat.mod_eq_of_lt hn36]
  simp only [osmnodeOfWords]
  rw [nodeWord1_x0 r hn1, nodeWord1_x1 r hn1 hn2, nodeWord1_x2 r hn1 hn2 hn3, 
    nodeWord1_x3 r hn1 hn2 hn3 hn4, nodeWord2_x0 r hn5, nodeWord2_x1 r hn5 hn6, 
    nodeWord2_x2 r hn5 hn6 hn7, nodeWord2_x3 r hn5 hn6 hn7 hn8, 
    nodeWord2_x4 r hn5 hn6 hn7 hn8 hn9, nodeWord2_x5 r hn5 hn6 hn7 hn8 hn9 hn10, 
    nodeWord2_x6 r hn5 hn6 hn7 hn8 hn9 hn10 hn11, 
    nodeWord2_x7 r hn5 hn6 hn7 hn8 hn9 hn10 hn11 hn12, 
    nodeWord2_x8 r hn5 hn6 hn7 hn8 hn9 hn10 hn11 hn12 hn13, 
    nodeWord2_x9 r hn5 hn6 hn7 hn8 hn9 hn10 hn11 hn12 hn13 hn14, 
    nodeWord2_x10 r hn5 hn6 hn7 hn8 hn9 hn10 hn11 hn12 hn13 hn14 hn15, 
    nodeWord2_x11 r hn5 hn6 hn7 hn8 hn9 hn10 hn11 hn12 hn13 hn14 hn15 hn16, 
    nodeWord2_x12 r hn5 hn6 hn7 hn8 hn9 hn10 hn11 hn12 hn13 hn14 hn15 hn16 hn17, 
    nodeWord2_x13 r hn5 hn6 hn7 hn8 hn9 hn10 hn11 hn12 hn13 hn14 hn15 hn16 hn17 hn18, 
    nodeWord3_x0 r hn19, nodeWord3_x1 r hn19 hn20, nodeWord3_x2 r hn19 hn20 hn21, 
    nodeWord3_x3 r hn19 hn20 hn21 hn22, nodeWord3_x4 r hn19 hn20 hn21 hn22 hn23, 
    nodeWord3_x5 r hn19 hn20 hn21 hn22 hn23 hn24, 
    nodeWord3_x6 r hn19 hn20 hn21 hn22 hn23 hn24 hn25, 
    nodeWord3_x7 r hn19 hn20 hn21 hn22 hn23 hn24 hn25 hn26, 
    nodeWord3_x8 r hn19 hn20 hn21 hn22 hn23 hn24 hn25 hn26 hn27, 
    nodeWord3_x9 r hn19 hn20 hn21 hn22 hn23 hn24 hn25 hn26 hn27 hn28, 
    nodeWord3_x10 r hn19 hn20 hn21 hn22 hn23 hn24 hn25 hn26 hn27 hn28 hn29, 
    nodeWord3_x11 r hn19 hn20 hn21 hn22 hn23 hn24 hn25 hn26 hn27 hn28 hn29 hn30, 
    nodeWord3_x12 r hn19 hn20 hn21 hn22 hn23 hn24 hn25 hn26 hn27 hn28 hn29 hn30 hn31, 
    nodeWord3_x13 r hn19 hn20 hn21 hn22 hn23 hn24 hn25 hn26 hn27 hn28 hn29 hn30 hn31 hn32]

/-- The `OSMWay` struct from `c_code/valhalla.h`: id, 71 32-bit string-table
indices and the ferry duration, four packed attribute words, a 16-bit node
count, and eight single-byte speed/layer fields. All fields are `Nat`
images of the C fields (`layer_` as its unsigned byte image). -/
structure OSMWay where
  osmwayid_ : Nat
  ref_index_ : Nat
  ref_lang_index_ : Nat
  ref_left_index_ : Nat
  ref_left_lang_index_ : Nat
  ref_right_index_ : Nat
  ref_right_lang_index_ : Nat
  int_ref_index_ : Nat
  int_ref_lang_index_ : Nat
  int_ref_left_index_ : Nat
  int_ref_left_lang_index_ : Nat
  int_ref_right_index_ : Nat
  int_ref_right_lang_index_ : Nat
  name_index_ : Nat
  name_lang_index_ : Nat
  name_left_index_ : Nat
  name_left_lang_index_ : Nat
  name_right_index_ : Nat
  name_right_lang_index_ : Nat
  name_forward_index_ : Nat
  name_forward_lang_index_ : Nat
  name_backward_index_ : Nat
  name_backward_lang_index_ : Nat
  alt_name_index_ : Nat
  alt_name_lang_index_ : Nat
  alt_name_left_index_ : Nat
  alt_name_left_lang_index_ : Nat
  alt_name_right_index_ : Nat
  alt_name_right_lang_index_ : Nat
  official_name_index_ : Nat
  official_name_lang_index_ : Nat
  official_name_left_index_ : Nat
  official_name_left_lang_index_ : Nat
  official_name_right_index_ : Nat
  official_name_right_lang_index_ : Nat
  tunnel_name_index_ : Nat
  tunnel_name_lang_index_ : Nat
  tunnel_name_left_index_ : Nat
  tunnel_name_left_lang_index_ : Nat
  tunnel_name_right_index_ : Nat
  tunnel_name_right_lang_index_ : Nat
  fwd_turn_lanes_index_ : Nat
  bwd_turn_lanes_index_ : Nat
  fwd_jct_base_index_ : Nat
  bwd_jct_base_index_ : Nat
  fwd_jct_overlay_index_ : Nat
  bwd_jct_overlay_index_ : Nat
  fwd_signboard_base_index_ : Nat
  bwd_signboard_base_index_ : Nat
  destination_index_ : Nat
  destination_lang_index_ : Nat
  destination_forward_index_ : Nat
  destination_backward_index_ : Nat
  destination_forward_lang_index_ : Nat
  destination_backward_lang_index_ : Nat
  destination_ref_index_ : Nat
  destination_ref_lang_index_ : Nat
  destination_ref_to_index_ : Nat
  destination_ref_to_lang_index_ : Nat
  destination_int_ref_index_ : Nat
  destination_int_ref_to_index_ : Nat
  destination_street_index_ : Nat
  destination_street_lang_index_ : Nat
  destination_street_to_index_ : Nat
  destination_street_to_lang_index_ : Nat
  junction_name_index_ : Nat
  junction_name_lang_index_ : Nat
  junction_ref_index_ : Nat
  junction_ref_lang_index_ : Nat
  level_index_ : Nat
  level_ref_index_ : Nat
  duration_ : Nat
  destination_only_ : Nat
  no_thru_traffic_ : Nat
  oneway_ : Nat
  oneway_reverse_ : Nat
  roundabout_ : Nat
  ferry_ : Nat
  rail_ : Nat
  surface_ : Nat
  tunnel_ : Nat
  toll_ : Nat
  bridge_ : Nat
  seasonal_ : Nat
  drive_on_right_ : Nat
  bike_network_ : Nat
  exit_ : Nat
  tagged_speed_ : Nat
  forward_tagged_speed_ : Nat
  backward_tagged_speed_ : Nat
  tagged_lanes_ : Nat
  forward_tagged_lanes_ : Nat
  backward_tagged_lanes_ : Nat
  truck_route_ : Nat
  sidewalk_right_ : Nat
  sidewalk_left_ : Nat
  sac_scale_ : Nat
  road_class_ : Nat
  link_ : Nat
  use_ : Nat
  lanes_ : Nat
  forward_lanes_ : Nat
  backward_lanes_ : Nat
  turn_channel_ : Nat
  wheelchair_ : Nat
  wheelchair_tag_ : Nat
  has_user_tags_ : Nat
  has_pronunciation_tags_ : Nat
  internal_ : Nat
  hov_type_ : Nat
  indoor_ : Nat
  pedestrian_forward_ : Nat
  pedestrian_backward_ : Nat
  auto_forward_ : Nat
  bus_forward_ : Nat
  taxi_forward_ : Nat
  truck_forward_ : Nat
  motorcycle_forward_ : Nat
  emergency_forward_ : Nat
  hov_forward_ : Nat
  moped_forward_ : Nat
  auto_backward_ : Nat
  bus_backward_ : Nat
  taxi_backward_ : Nat
  truck_backward_ : Nat
  motorcycle_backward_ : Nat
  emergency_backward_ : Nat
  hov_backward_ : Nat
  moped_backward_ : Nat
  cycle_lane_right_ : Nat
  cycle_lane_left_ : Nat
  cycle_lane_right_opposite_ : Nat
  cycle_lane_left_opposite_ : Nat
  shoulder_right_ : Nat
  shoulder_left_ : Nat
  dismount_ : Nat
  use_sidepath_ : Nat
  bike_forward_ : Nat
  bike_backward_ : Nat
  lit_ : Nat
  destination_only_hgv_ : Nat
  spare2_ : Nat
  nodecount_ : Nat
  speed_limit_ : Nat
  speed_ : Nat
  backward_speed_ : Nat
  forward_speed_ : Nat
  truck_speed_ : Nat
  truck_speed_forward_ : Nat
  truck_speed_backward_ : Nat
  layer_ : Nat

/-- Well-formedness of an `OSMWay` value: every field fits the declared bit
width of the corresponding C struct field. -/
abbrev WFWay (r : OSMWay) : Prop :=
  r.osmwayid_ < 2 ^ 64 ∧ r.ref_index_ < 2 ^ 32 ∧ r.ref_lang_index_ < 2 ^ 32 ∧ 
  r.ref_left_index_ < 2 ^ 32 ∧ r.ref_left_lang_index_ < 2 ^ 32 ∧ r.ref_right_index_ < 2 ^ 32 ∧ 
  r.ref_right_lang_index_ < 2 ^ 32 ∧ r.int_ref_index_ < 2 ^ 32 ∧ 
  r.int_ref_lang_index_ < 2 ^ 32 ∧ r.int_ref_left_index_ < 2 ^ 32 ∧ 
  r.int_ref_left_lang_index_ < 2 ^ 32 ∧ r.int_ref_right_index_ < 2 ^ 32 ∧ 
  r.int_ref_right_lang_index_ < 2 ^ 32 ∧ r.name_index_ < 2 ^ 32 ∧ 
  r.name_lang_index_ < 2 ^ 32 ∧ r.name_left_index_ < 2 ^ 32 ∧ 
  r.name_left_lang_index_ < 2 ^ 32 ∧ r.name_right_index_ < 2 ^ 32 ∧ 
  r.name_right_lang_index_ < 2 ^ 32 ∧ r.name_forward_index_ < 2 ^ 32 ∧ 
  r.name_forward_lang_index_ < 2 ^ 32 ∧ r.name_backward_index_ < 2 ^ 32 ∧ 
  r.name_backward_lang_index_ < 2 ^ 32 ∧ r.alt_name_index_ < 2 ^ 32 ∧ 
  r.alt_name_lang_index_ < 2 ^ 32 ∧ r.alt_name_left_index_ < 2 ^ 32 ∧ 
  r.alt_name_left_lang_index_ < 2 ^ 32 ∧ r.alt_name_right_index_ < 2 ^ 32 ∧ 
  r.alt_name_right_lang_index_ < 2 ^ 32 ∧ r.official_name_index_ < 2 ^ 32 ∧ 
  r.official_name_lang_index_ < 2 ^ 32 ∧ r.official_name_left_index_ < 2 ^ 32 ∧ 
  r.official_name_left_lang_index_ < 2 ^ 32 ∧ r.official_name_right_index_ < 2 ^ 32 ∧ 
  r.official_name_right_lang_index_ < 2 ^ 32 ∧ r.tunnel_name_index_ < 2 ^ 32 ∧ 
  r.tunnel_name_lang_index_ < 2 ^ 32 ∧ r.tunnel_name_left_index_ < 2 ^ 32 ∧ 
  r.tunnel_name_left_lang_index_ < 2 ^ 32 ∧ r.tunnel_name_right_index_ < 2 ^ 32 ∧ 
  r.tunnel_name_right_lang_index_ < 2 ^ 32 ∧ r.fwd_turn_lanes_index_ < 2 ^ 32 ∧ 
  r.bwd_turn_lanes_index_ < 2 ^ 32 ∧ r.fwd_jct_base_index_ < 2 ^ 32 ∧ 
  r.bwd_jct_base_index_ < 2 ^ 32 ∧ r.fwd_jct_overlay_index_ < 2 ^ 32 ∧ 
  r.bwd_jct_overlay_index_ < 2 ^ 32 ∧ r.fwd_signboard_base_index_ < 2 ^ 32 ∧ 
  r.bwd_signboard_base_index_ < 2 ^ 32 ∧ r.destination_index_ < 2 ^ 32 ∧ 
  r.destination_lang_index_ < 2 ^ 32 ∧ r.destination_forward_index_ < 2 ^ 32 ∧ 
  r.destination_backward_index_ < 2 ^ 32 ∧ r.destination_forward_lang_index_ < 2 ^ 32 ∧ 
  r.destination_backward_lang_index_ < 2 ^ 32 ∧ r.destination_ref_index_ < 2 ^ 32 ∧ 
  r.destination_ref_lang_index_ < 2 ^ 32 ∧ r.destination_ref_to_index_ < 2 ^ 32 ∧ 
  r.destination_ref_to_lang_index_ < 2 ^ 32 ∧ r.destination_int_ref_index_ < 2 ^ 32 ∧ 
  r.destination_int_ref_to_index_ < 2 ^ 32 ∧ r.destination_street_index_ < 2 ^ 32 ∧ 
  r.destination_street_lang_index_ < 2 ^ 32 ∧ r.destination_street_to_index_ < 2 ^ 32 ∧ 
  r.destination_street_to_lang_index_ < 2 ^ 32 ∧ r.junction_name_index_ < 2 ^ 32 ∧ 
  r.junction_name_lang_index_ < 2 ^ 32 ∧ r.junction_ref_index_ < 2 ^ 32 ∧ 
  r.junction_ref_lang_index_ < 2 ^ 32 ∧ r.level_index_ < 2 ^ 32 ∧ 
  r.level_ref_index_ < 2 ^ 32 ∧ r.duration_ < 2 ^ 32 ∧ r.destination_only_ < 2 ∧ 
  r.no_thru_traffic_ < 2 ∧ r.oneway_ < 2 ∧ r.oneway_reverse_ < 2 ∧ r.roundabout_ < 2 ∧ 
  r.ferry_ < 2 ∧ r.rail_ < 2 ∧ r.surface_ < 2 ^ 3 ∧ r.tunnel_ < 2 ∧ r.toll_ < 2 ∧ 
  r.bridge_ < 2 ∧ r.seasonal_ < 2 ∧ r.drive_on_right_ < 2 ∧ r.bike_network_ < 2 ^ 4 ∧ 
  r.exit_ < 2 ∧ r.tagged_speed_ < 2 ∧ r.forward_tagged_speed_ < 2 ∧ 
  r.backward_tagged_speed_ < 2 ∧ r.tagged_lanes_ < 2 ∧ r.forward_tagged_lanes_ < 2 ∧ 
  r.backward_tagged_lanes_ < 2 ∧ r.truck_route_ < 2 ∧ r.sidewalk_right_ < 2 ∧ 
  r.sidewalk_left_ < 2 ∧ r.sac_scale_ < 2 ^ 3 ∧ r.road_class_ < 2 ^ 3 ∧ r.link_ < 2 ∧ 
  r.use_ < 2 ^ 6 ∧ r.lanes_ < 2 ^ 4 ∧ r.forward_lanes_ < 2 ^ 4 ∧ r.backward_lanes_ < 2 ^ 4 ∧ 
  r.turn_channel_ < 2 ∧ r.wheelchair_ < 2 ∧ r.wheelchair_tag_ < 2 ∧ r.has_user_tags_ < 2 ∧ 
  r.has_pronunciation_tags_ < 2 ∧ r.internal_ < 2 ∧ r.hov_type_ < 2 ∧ r.indoor_ < 2 ∧ 
  r.pedestrian_forward_ < 2 ∧ r.pedestrian_backward_ < 2 ∧ r.auto_forward_ < 2 ∧ 
  r.bus_forward_ < 2 ∧ r.taxi_forward_ < 2 ∧ r.truck_forward_ < 2 ∧ 
  r.motorcycle_forward_ < 2 ∧ r.emergency_forward_ < 2 ∧ r.hov_forward_ < 2 ∧ 
  r.moped_forward_ < 2 ∧ r.auto_backward_ < 2 ∧ r.bus_backward_ < 2 ∧ r.taxi_backward_ < 2 ∧ 
  r.truck_backward_ < 2 ∧ r.motorcycle_backward_ < 2 ∧ r.emergency_backward_ < 2 ∧ 
  r.hov_backward_ < 2 ∧ r.moped_backward_ < 2 ∧ r.cycle_lane_right_ < 2 ^ 2 ∧ 
  r.cycle_lane_left_ < 2 ^ 2 ∧ r.cycle_lane_right_opposite_ < 2 ∧ 
  r.cycle_lane_left_opposite_ < 2 ∧ r.shoulder_right_ < 2 ∧ r.shoulder_left_ < 2 ∧ 
  r.dismount_ < 2 ∧ r.use_sidepath_ < 2 ∧ r.bike_forward_ < 2 ∧ r.bike_backward_ < 2 ∧ 
  r.lit_ < 2 ∧ r.destination_only_hgv_ < 2 ∧ r.spare2_ < 2 ^ 2 ∧ r.nodecount_ < 2 ^ 16 ∧ 
  r.speed_limit_ < 2 ^ 8 ∧ r.speed_ < 2 ^ 8 ∧ r.backward_speed_ < 2 ^ 8 ∧ 
  r.forward_speed_ < 2 ^ 8 ∧ r.truck_speed_ < 2 ^ 8 ∧ r.truck_speed_forward_ < 2 ^ 8 ∧ 
  r.truck_speed_backward_ < 2 ^ 8 ∧ r.layer_ < 2 ^ 8

/-- The all-zero `OSMWay`, the image of a record zeroed by `memset`. -/
def wayZero : OSMWay :=
  ⟨0, 0, 0, 0, 0, 0, 0, 0, 0, 0, 0, 0, 0, 0, 0, 0, 0, 0, 0, 0, 0, 0, 0, 0, 0, 0, 0, 0, 0, 0, 
   0, 0, 0, 0, 0, 0, 0, 0, 0, 0, 0, 0, 0, 0, 0, 0, 0, 0, 0, 0, 0, 0, 0, 0, 0, 0, 0, 0, 0, 0, 
   0, 0, 0, 0, 0, 0, 0, 0, 0, 0, 0, 0, 0, 0, 0, 0, 0, 0, 0, 0, 0, 0, 0, 0, 0, 0, 0, 0, 0, 0, 
   0, 0, 0, 0, 0, 0, 0, 0, 0, 0, 0, 0, 0, 0, 0, 0, 0, 0, 0, 0, 0, 0, 0, 0, 0, 0, 0, 0, 0, 0, 
   0, 0, 0, 0, 0, 0, 0, 0, 0, 0, 0, 0, 0, 0, 0, 0, 0, 0, 0, 0, 0, 0, 0, 0, 0, 0, 0, 0, 0, 0, 0⟩

/-- `sizeof(struct OSMWay)` on the assumed platform: 314 content bytes plus
6 bytes of tail padding (alignment 8). -/
def sizeofOSMWay : Nat := 320

/-- First packed 32-bit attribute word of `OSMWay` (`destination_only_ : 1`
up to `sac_scale_ : 3`), LSB first. -/
def wayAttrWord (r : OSMWay) : Nat :=
  
    r.destination_only_ + 2 * (r.no_thru_traffic_ + 2 * (r.oneway_ + 2 * (r.oneway_reverse_ + 2 * (r.roundabout_ + 2 * (r.ferry_ + 2 * (r.rail_ + 2 * (r.surface_ + 2 ^ 3 * (r.tunnel_ + 2 * (r.toll_ + 2 * (r.bridge_ + 2 * (r.seasonal_ + 2 * (r.drive_on_right_ + 2 * (r.bike_network_ + 2 ^ 4 * (r.exit_ + 2 * (r.tagged_speed_ + 2 * (r.forward_tagged_speed_ + 2 * (r.backward_tagged_speed_ + 2 * (r.tagged_lanes_ + 2 * (r.forward_tagged_lanes_ + 2 * (r.backward_tagged_lanes_ + 2 * (r.truck_route_ + 2 * (r.sidewalk_right_ + 2 * (r.sidewalk_left_ + 2 * (r.sac_scale_))))))))))))))))))))))))

/-- Packed 32-bit classification word of `OSMWay` (`road_class_ : 3` up to
`pedestrian_backward_ : 1`), LSB first. -/
def wayClassWord (r : OSMWay) : Nat :=
  
    r.road_class_ + 2 ^ 3 * (r.link_ + 2 * (r.use_ + 2 ^ 6 * (r.lanes_ + 2 ^ 4 * (r.forward_lanes_ + 2 ^ 4 * (r.backward_lanes_ + 2 ^ 4 * (r.turn_channel_ + 2 * (r.wheelchair_ + 2 * (r.wheelchair_tag_ + 2 * (r.has_user_tags_ + 2 * (r.has_pronunciation_tags_ + 2 * (r.internal_ + 2 * (r.hov_type_ + 2 * (r.indoor_ + 2 * (r.pedestrian_forward_ + 2 * (r.pedestrian_backward_)))))))))))))))

/-- Packed 16-bit access word of `OSMWay` (8 travel modes by 2 directions),
LSB first. -/
def wayAccessWord (r : OSMWay) : Nat :=
  
    r.auto_forward_ + 2 * (r.bus_forward_ + 2 * (r.taxi_forward_ + 2 * (r.truck_forward_ + 2 * (r.motorcycle_forward_ + 2 * (r.emergency_forward_ + 2 * (r.hov_forward_ + 2 * (r.moped_forward_ + 2 * (r.auto_backward_ + 2 * (r.bus_backward_ + 2 * (r.taxi_backward_ + 2 * (r.truck_backward_ + 2 * (r.motorcycle_backward_ + 2 * (r.emergency_backward_ + 2 * (r.hov_backward_ + 2 * (r.moped_backward_)))))))))))))))

/-- Packed 16-bit biking-attributes word of `OSMWay` (`cycle_lane_right_ : 2`
up to `spare2_ : 2`), LSB first. -/
def wayBikeWord (r : OSMWay) : Nat :=
  
    r.cycle_lane_right_ + 2 ^ 2 * (r.cycle_lane_left_ + 2 ^ 2 * (r.cycle_lane_right_opposite_ + 2 * (r.cycle_lane_left_opposite_ + 2 * (r.shoulder_right_ + 2 * (r.shoulder_left_ + 2 * (r.dismount_ + 2 * (r.use_sidepath_ + 2 * (r.bike_forward_ + 2 * (r.bike_backward_ + 2 * (r.lit_ + 2 * (r.destination_only_hgv_ + 2 * (r.spare2_))))))))))))

/-- The storage units of an `OSMWay` in declaration order, each as
(byte width, value). -/
def osmwayFields (r : OSMWay) : List (Nat × Nat) :=
  [(8, r.osmwayid_), (4, r.ref_index_), (4, r.ref_lang_index_), (4, r.ref_left_index_), 
   (4, r.ref_left_lang_index_), (4, r.ref_right_index_), (4, r.ref_right_lang_index_), 
   (4, r.int_ref_index_), (4, r.int_ref_lang_index_), (4, r.int_ref_left_index_), 
   (4, r.int_ref_left_lang_index_), (4, r.int_ref_right_index_), 
   (4, r.int_ref_right_lang_index_), (4, r.name_index_), (4, r.name_lang_index_), 
   (4, r.name_left_index_), (4, r.name_left_lang_index_), (4, r.name_right_index_), 
   (4, r.name_right_lang_index_), (4, r.name_forward_index_), (4, r.name_forward_lang_index_), 
   (4, r.name_backward_index_), (4, r.name_backward_lang_index_), (4, r.alt_name_index_), 
   (4, r.alt_name_lang_index_), (4, r.alt_name_left_index_), (4, r.alt_name_left_lang_index_), 
   (4, r.alt_name_right_index_), (4, r.alt_name_right_lang_index_), 
   (4, r.official_name_index_), (4, r.official_name_lang_index_), 
   (4, r.official_name_left_index_), (4, r.official_name_left_lang_index_), 
   (4, r.official_name_right_index_), (4, r.official_name_right_lang_index_), 
   (4, r.tunnel_name_index_), (4, r.tunnel_name_lang_index_), (4, r.tunnel_name_left_index_), 
   (4, r.tunnel_name_left_lang_index_), (4, r.tunnel_name_right_index_), 
   (4, r.tunnel_name_right_lang_index_), (4, r.fwd_turn_lanes_index_), 
   (4, r.bwd_turn_lanes_index_), (4, r.fwd_jct_base_index_), (4, r.bwd_jct_base_index_), 
   (4, r.fwd_jct_overlay_index_), (4, r.bwd_jct_overlay_index_), 
   (4, r.fwd_signboard_base_index_), (4, r.bwd_signboard_base_index_), 
   (4, r.destination_index_), (4, r.destination_lang_index_), 
   (4, r.destination_forward_index_), (4, r.destination_backward_index_), 
   (4, r.destination_forward_lang_index_), (4, r.destination_backward_lang_index_), 
   (4, r.destination_ref_index_), (4, r.destination_ref_lang_index_), 
   (4, r.destination_ref_to_index_), (4, r.destination_ref_to_lang_index_), 
   (4, r.destination_int_ref_index_), (4, r.destination_int_ref_to_index_), 
   (4, r.destination_street_index_), (4, r.destination_street_lang_index_), 
   (4, r.destination_street_to_index_), (4, r.destination_street_to_lang_index_), 
   (4, r.junction_name_index_), (4, r.junction_name_lang_index_), (4, r.junction_ref_index_), 
   (4, r.junction_ref_lang_index_), (4, r.level_index_), (4, r.level_ref_index_), 
   (4, r.duration_), (4, wayAttrWord r), (4, wayClassWord r), (2, wayAccessWord r), 
   (2, wayBikeWord r), (2, r.nodecount_), (1, r.speed_limit_), (1, r.speed_), 
   (1, r.backward_speed_), (1, r.forward_speed_), (1, r.truck_speed_), 
   (1, r.truck_speed_forward_), (1, r.truck_speed_backward_), (1, r.layer_)]

/-- The byte widths of the storage units of an `OSMWay`. -/
def osmwaySizes : List Nat :=
  [8, 4, 4, 4, 4, 4, 4, 4, 4, 4, 4, 4, 4, 4, 4, 4, 4, 4, 4, 4, 4, 4, 4, 4, 4, 4, 4, 4, 4, 4, 
   4, 4, 4, 4, 4, 4, 4, 4, 4, 4, 4, 4, 4, 4, 4, 4, 4, 4, 4, 4, 4, 4, 4, 4, 4, 4, 4, 4, 4, 4, 
   4, 4, 4, 4, 4, 4, 4, 4, 4, 4, 4, 4, 4, 4, 2, 2, 2, 1, 1, 1, 1, 1, 1, 1, 1]

/-- The 320-byte memory image of an `OSMWay` value: storage units in
declaration order, little-endian, tail padding bytes zero. -/
def osmwayBytes (r : OSMWay) : List Nat :=
  encodeFields (osmwayFields r) ++ [0, 0, 0, 0, 0, 0]

/-- Rebuild an `OSMWay` from its 85 storage-unit values, extracting the
packed bit-fields LSB first (C bit-field access on the read-back struct). -/
def osmwayOfWords : List Nat → OSMWay
  | w0 :: w1 :: w2 :: w3 :: w4 :: w5 :: w6 :: w7 :: w8 :: w9 :: w10 :: w11 :: w12 :: w13 :: 
    w14 :: w15 :: w16 :: w17 :: w18 :: w19 :: w20 :: w21 :: w22 :: w23 :: w24 :: w25 :: w26 :: 
    w27 :: w28 :: w29 :: w30 :: w31 :: w32 :: w33 :: w34 :: w35 :: w36 :: w37 :: w38 :: w39 :: 
    w40 :: w41 :: w42 :: w43 :: w44 :: w45 :: w46 :: w47 :: w48 :: w49 :: w50 :: w51 :: w52 :: 
    w53 :: w54 :: w55 :: w56 :: w57 :: w58 :: w59 :: w60 :: w61 :: w62 :: w63 :: w64 :: w65 :: 
    w66 :: w67 :: w68 :: w69 :: w70 :: w71 :: w72 :: w73 :: w74 :: w75 :: w76 :: w77 :: w78 :: 
    w79 :: w80 :: w81 :: w82 :: w83 :: w84 :: [] =>
    ⟨w0, w1, w2, w3, w4, w5, w6, w7, w8, w9, w10, w11, w12, w13, w14, w15, w16, w17, w18, w19, 
     w20, w21, w22, w23, w24, w25, w26, w27, w28, w29, w30, w31, w32, w33, w34, w35, w36, w37, 
     w38, w39, w40, w41, w42, w43, w44, w45, w46, w47, w48, w49, w50, w51, w52, w53, w54, w55, 
     w56, w57, w58, w59, w60, w61, w62, w63, w64, w65, w66, w67, w68, w69, w70, w71, w72 % 2, 
     w72 / 2 % 2, w72 / 2 / 2 % 2, w72 / 2 / 2 / 2 % 2, w72 / 2 / 2 / 2 / 2 % 2, 
     w72 / 2 / 2 / 2 / 2 / 2 % 2, w72 / 2 / 2 / 2 / 2 / 2 / 2 % 2, 
     w72 / 2 / 2 / 2 / 2 / 2 / 2 / 2 % 2 ^ 3, w72 / 2 / 2 / 2 / 2 / 2 / 2 / 2 / 2 ^ 3 % 2, 
     w72 / 2 / 2 / 2 / 2 / 2 / 2 / 2 / 2 ^ 3 / 2 % 2, 
     w72 / 2 / 2 / 2 / 2 / 2 / 2 / 2 / 2 ^ 3 / 2 / 2 % 2, 
     w72 / 2 / 2 / 2 / 2 / 2 / 2 / 2 / 2 ^ 3 / 2 / 2 / 2 % 2, 
     w72 / 2 / 2 / 2 / 2 / 2 / 2 / 2 / 2 ^ 3 / 2 / 2 / 2 / 2 % 2, 
     w72 / 2 / 2 / 2 / 2 / 2 / 2 / 2 / 2 ^ 3 / 2 / 2 / 2 / 2 / 2 % 2 ^ 4, 
     w72 / 2 / 2 / 2 / 2 / 2 / 2 / 2 / 2 ^ 3 / 2 / 2 / 2 / 2 / 2 / 2 ^ 4 % 2, 
     w72 / 2 / 2 / 2 / 2 / 2 / 2 / 2 / 2 ^ 3 / 2 / 2 / 2 / 2 / 2 / 2 ^ 4 / 2 % 2, 
     w72 / 2 / 2 / 2 / 2 / 2 / 2 / 2 / 2 ^ 3 / 2 / 2 / 2 / 2 / 2 / 2 ^ 4 / 2 / 2 % 2, 
     w72 / 2 / 2 / 2 / 2 / 2 / 2 / 2 / 2 ^ 3 / 2 / 2 / 2 / 2 / 2 / 2 ^ 4 / 2 / 2 / 2 % 2, 
     w72 / 2 / 2 / 2 / 2 / 2 / 2 / 2 / 2 ^ 3 / 2 / 2 / 2 / 2 / 2 / 2 ^ 4 / 2 / 2 / 2 / 2 % 2, 
     w72 / 2 / 2 / 2 / 2 / 2 / 2 / 2 / 2 ^ 3 / 2 / 2 / 2 / 2 / 2 / 2 ^ 4 / 2 / 2 / 2 / 2 / 2 % 2, 
     w72 / 2 / 2 / 2 / 2 / 2 / 2 / 2 / 2 ^ 3 / 2 / 2 / 2 / 2 / 2 / 2 ^ 4 / 2 / 2 / 2 / 2 / 2 / 2 % 2, 
     w72 / 2 / 2 / 2 / 2 / 2 / 2 / 2 / 2 ^ 3 / 2 / 2 / 2 / 2 / 2 / 2 ^ 4 / 2 / 2 / 2 / 2 / 2 / 2 / 2 % 2, 
     w72 / 2 / 2 / 2 / 2 / 2 / 2 / 2 / 2 ^ 3 / 2 / 2 / 2 / 2 / 2 / 2 ^ 4 / 2 / 2 / 2 / 2 / 2 / 2 / 2 / 2 % 2, 
     w72 / 2 / 2 / 2 / 2 / 2 / 2 / 2 / 2 ^ 3 / 2 / 2 / 2 / 2 / 2 / 2 ^ 4 / 2 / 2 / 2 / 2 / 2 / 2 / 2 / 2 / 2 % 2, 
     w72 / 2 / 2 / 2 / 2 / 2 / 2 / 2 / 2 ^ 3 / 2 / 2 / 2 / 2 / 2 / 2 ^ 4 / 2 / 2 / 2 / 2 / 2 / 2 / 2 / 2 / 2 / 2, 
     w73 % 2 ^ 3, w73 / 2 ^ 3 % 2, w73 / 2 ^ 3 / 2 % 2 ^ 6, w73 / 2 ^ 3 / 2 / 2 ^ 6 % 2 ^ 4, 
     w73 / 2 ^ 3 / 2 / 2 ^ 6 / 2 ^ 4 % 2 ^ 4, w73 / 2 ^ 3 / 2 / 2 ^ 6 / 2 ^ 4 / 2 ^ 4 % 2 ^ 4, 
     w73 / 2 ^ 3 / 2 / 2 ^ 6 / 2 ^ 4 / 2 ^ 4 / 2 ^ 4 % 2, 
     w73 / 2 ^ 3 / 2 / 2 ^ 6 / 2 ^ 4 / 2 ^ 4 / 2 ^ 4 / 2 % 2, 
     w73 / 2 ^ 3 / 2 / 2 ^ 6 / 2 ^ 4 / 2 ^ 4 / 2 ^ 4 / 2 / 2 % 2, 
     w73 / 2 ^ 3 / 2 / 2 ^ 6 / 2 ^ 4 / 2 ^ 4 / 2 ^ 4 / 2 / 2 / 2 % 2, 
     w73 / 2 ^ 3 / 2 / 2 ^ 6 / 2 ^ 4 / 2 ^ 4 / 2 ^ 4 / 2 / 2 / 2 / 2 % 2, 
     w73 / 2 ^ 3 / 2 / 2 ^ 6 / 2 ^ 4 / 2 ^ 4 / 2 ^ 4 / 2 / 2 / 2 / 2 / 2 % 2, 
     w73 / 2 ^ 3 / 2 / 2 ^ 6 / 2 ^ 4 / 2 ^ 4 / 2 ^ 4 / 2 / 2 / 2 / 2 / 2 / 2 % 2, 
     w73 / 2 ^ 3 / 2 / 2 ^ 6 / 2 ^ 4 / 2 ^ 4 / 2 ^ 4 / 2 / 2 / 2 / 2 / 2 / 2 / 2 % 2, 
     w73 / 2 ^ 3 / 2 / 2 ^ 6 / 2 ^ 4 / 2 ^ 4 / 2 ^ 4 / 2 / 2 / 2 / 2 / 2 / 2 / 2 / 2 % 2, 
     w73 / 2 ^ 3 / 2 / 2 ^ 6 / 2 ^ 4 / 2 ^ 4 / 2 ^ 4 / 2 / 2 / 2 / 2 / 2 / 2 / 2 / 2 / 2, 
     w74 % 2, w74 / 2 % 2, w74 / 2 / 2 % 2, w74 / 2 / 2 / 2 % 2, w74 / 2 / 2 / 2 / 2 % 2, 
     w74 / 2 / 2 / 2 / 2 / 2 % 2, w74 / 2 / 2 / 2 / 2 / 2 / 2 % 2, 
     w74 / 2 / 2 / 2 / 2 / 2 / 2 / 2 % 2, w74 / 2 / 2 / 2 / 2 / 2 / 2 / 2 / 2 % 2, 
     w74 / 2 / 2 / 2 / 2 / 2 / 2 / 2 / 2 / 2 % 2, 
     w74 / 2 / 2 / 2 / 2 / 2 / 2 / 2 / 2 / 2 / 2 % 2, 
     w74 / 2 / 2 / 2 / 2 / 2 / 2 / 2 / 2 / 2 / 2 / 2 % 2, 
     w74 / 2 / 2 / 2 / 2 / 2 / 2 / 2 / 2 / 2 / 2 / 2 / 2 % 2, 
     w74 / 2 / 2 / 2 / 2 / 2 / 2 / 2 / 2 / 2 / 2 / 2 / 2 / 2 % 2, 
     w74 / 2 / 2 / 2 / 2 / 2 / 2 / 2 / 2 / 2 / 2 / 2 / 2 / 2 / 2 % 2, 
     w74 / 2 / 2 / 2 / 2 / 2 / 2 / 2 / 2 / 2 / 2 / 2 / 2 / 2 / 2 / 2, w75 % 2 ^ 2, 
     w75 / 2 ^ 2 % 2 ^ 2, w75 / 2 ^ 2 / 2 ^ 2 % 2, w75 / 2 ^ 2 / 2 ^ 2 / 2 % 2, 
     w75 / 2 ^ 2 / 2 ^ 2 / 2 / 2 % 2, w75 / 2 ^ 2 / 2 ^ 2 / 2 / 2 / 2 % 2, 
     w75 / 2 ^ 2 / 2 ^ 2 / 2 / 2 / 2 / 2 % 2, w75 / 2 ^ 2 / 2 ^ 2 / 2 / 2 / 2 / 2 / 2 % 2, 
     w75 / 2 ^ 2 / 2 ^ 2 / 2 / 2 / 2 / 2 / 2 / 2 % 2, 
     w75 / 2 ^ 2 / 2 ^ 2 / 2 / 2 / 2 / 2 / 2 / 2 / 2 % 2, 
     w75 / 2 ^ 2 / 2 ^ 2 / 2 / 2 / 2 / 2 / 2 / 2 / 2 / 2 % 2, 
     w75 / 2 ^ 2 / 2 ^ 2 / 2 / 2 / 2 / 2 / 2 / 2 / 2 / 2 / 2 % 2, 
     w75 / 2 ^ 2 / 2 ^ 2 / 2 / 2 / 2 / 2 / 2 / 2 / 2 / 2 / 2 / 2, w76, w77, w78, w79, w80, 
     w81, w82, w83, w84⟩
  | _ => wayZero

/-- Reinterpret the front of a byte list as one `OSMWay` (the effect of
`fread` into the struct), returning the remaining bytes. -/
def osmwayDecode (bs : List Nat) : OSMWay × List Nat :=
  (osmwayOfWords (readWords osmwaySizes bs), bs.drop sizeofOSMWay)

theorem osmwayBytes_length (r : OSMWay) :
    (osmwayBytes r).length = sizeofOSMWay := by
  simp [osmwayBytes, osmwayFields, encodeFields, toLE_length, sizeofOSMWay]

theorem wayAttrWord_lt (r : OSMWay)
    (b0 : r.destination_only_ < 2) (b1 : r.no_thru_traffic_ < 2) (b2 : r.oneway_ < 2) 
    (b3 : r.oneway_reverse_ < 2) (b4 : r.roundabout_ < 2) (b5 : r.ferry_ < 2) 
    (b6 : r.rail_ < 2) (b7 : r.surface_ < 2 ^ 3) (b8 : r.tunnel_ < 2) (b9 : r.toll_ < 2) 
    (b10 : r.bridge_ < 2) (b11 : r.seasonal_ < 2) (b12 : r.drive_on_right_ < 2) 
    (b13 : r.bike_network_ < 2 ^ 4) (b14 : r.exit_ < 2) (b15 : r.tagged_speed_ < 2) 
    (b16 : r.forward_tagged_speed_ < 2) (b17 : r.backward_tagged_speed_ < 2) 
    (b18 : r.tagged_lanes_ < 2) (b19 : r.forward_tagged_lanes_ < 2) 
    (b20 : r.backward_tagged_lanes_ < 2) (b21 : r.truck_route_ < 2) 
    (b22 : r.sidewalk_right_ < 2) (b23 : r.sidewalk_left_ < 2) (b24 : r.sac_scale_ < 2 ^ 3) :
    wayAttrWord r < 2 ^ 32 := by
  unfold wayAttrWord; omega

theorem wayAttrWord_x0 (r : OSMWay)
    (b0 : r.destination_only_ < 2) :
    wayAttrWord r % 2 = r.destination_only_ := by
  unfold wayAttrWord; omega

theorem wayAttrWord_x1 (r : OSMWay)
    (b0 : r.destination_only_ < 2) (b1 : r.no_thru_traffic_ < 2) :
    wayAttrWord r / 2 % 2 = r.no_thru_traffic_ := by
  unfold wayAttrWord; omega

theorem wayAttrWord_x2 (r : OSMWay)
    (b0 : r.destination_only_ < 2) (b1 : r.no_thru_traffic_ < 2) (b2 : r.oneway_ < 2) :
    wayAttrWord r / 2 / 2 % 2 = r.oneway_ := by
  unfold wayAttrWord; omega

theorem wayAttrWord_x3 (r : OSMWay)
    (b0 : r.destination_only_ < 2) (b1 : r.no_thru_traffic_ < 2) (b2 : r.oneway_ < 2) 
    (b3 : r.oneway_reverse_ < 2) :
    wayAttrWord r / 2 / 2 / 2 % 2 = r.oneway_reverse_ := by
  unfold wayAttrWord; omega

theorem wayAttrWord_x4 (r : OSMWay)
    (b0 : r.destination_only_ < 2) (b1 : r.no_thru_traffic_ < 2) (b2 : r.oneway_ < 2) 
    (b3 : r.oneway_reverse_ < 2) (b4 : r.roundabout_ < 2) :
    wayAttrWord r / 2 / 2 / 2 / 2 % 2 = r.roundabout_ := by
  unfold wayAttrWord; omega

theorem wayAttrWord_x5 (r : OSMWay)
    (b0 : r.destination_only_ < 2) (b1 : r.no_thru_traffic_ < 2) (b2 : r.oneway_ < 2) 
    (b3 : r.oneway_reverse_ < 2) (b4 : r.roundabout_ < 2) (b5 : r.ferry_ < 2) :
    wayAttrWord r / 2 / 2 / 2 / 2 / 2 % 2 = r.ferry_ := by
  unfold wayAttrWord; omega

theorem wayAttrWord_x6 (r : OSMWay)
    (b0 : r.destination_only_ < 2) (b1 : r.no_thru_traffic_ < 2) (b2 : r.oneway_ < 2) 
    (b3 : r.oneway_reverse_ < 2) (b4 : r.roundabout_ < 2) (b5 : r.ferry_ < 2) 
    (b6 : r.rail_ < 2) :
    wayAttrWord r / 2 / 2 / 2 / 2 / 2 / 2 % 2 = r.rail_ := by
  unfold wayAttrWord; omega

theorem wayAttrWord_x7 (r : OSMWay)
    (b0 : r.destination_only_ < 2) (b1 : r.no_thru_traffic_ < 2) (b2 : r.oneway_ < 2) 
    (b3 : r.oneway_reverse_ < 2) (b4 : r.roundabout_ < 2) (b5 : r.ferry_ < 2) 
    (b6 : r.rail_ < 2) (b7 : r.surface_ < 2 ^ 3) :
    wayAttrWord r / 2 / 2 / 2 / 2 / 2 / 2 / 2 % 2 ^ 3 = r.surface_ := by
  unfold wayAttrWord; omega

theorem wayAttrWord_x8 (r : OSMWay)
    (b0 : r.destination_only_ < 2) (b1 : r.no_thru_traffic_ < 2) (b2 : r.oneway_ < 2) 
    (b3 : r.oneway_reverse_ < 2) (b4 : r.roundabout_ < 2) (b5 : r.ferry_ < 2) 
    (b6 : r.rail_ < 2) (b7 : r.surface_ < 2 ^ 3) (b8 : r.tunnel_ < 2) :
    wayAttrWord r / 2 / 2 / 2 / 2 / 2 / 2 / 2 / 2 ^ 3 % 2 = r.tunnel_ := by
  unfold wayAttrWord; omega

theorem wayAttrWord_x9 (r : OSMWay)
    (b0 : r.destination_only_ < 2) (b1 : r.no_thru_traffic_ < 2) (b2 : r.oneway_ < 2) 
    (b3 : r.oneway_reverse_ < 2) (b4 : r.roundabout_ < 2) (b5 : r.ferry_ < 2) 
    (b6 : r.rail_ < 2) (b7 : r.surface_ < 2 ^ 3) (b8 : r.tunnel_ < 2) (b9 : r.toll_ < 2) :
    wayAttrWord r / 2 / 2 / 2 / 2 / 2 / 2 / 2 / 2 ^ 3 / 2 % 2 = r.toll_ := by
  unfold wayAttrWord; omega

theorem wayAttrWord_x10 (r : OSMWay)
    (b0 : r.destination_only_ < 2) (b1 : r.no_thru_traffic_ < 2) (b2 : r.oneway_ < 2) 
    (b3 : r.oneway_reverse_ < 2) (b4 : r.roundabout_ < 2) (b5 : r.ferry_ < 2) 
    (b6 : r.rail_ < 2) (b7 : r.surface_ < 2 ^ 3) (b8 : r.tunnel_ < 2) (b9 : r.toll_ < 2) 
    (b10 : r.bridge_ < 2) :
    wayAttrWord r / 2 / 2 / 2 / 2 / 2 / 2 / 2 / 2 ^ 3 / 2 / 2 % 2 = r.bridge_ := by
  unfold wayAttrWord; omega

theorem wayAttrWord_x11 (r : OSMWay)
    (b0 : r.destination_only_ < 2) (b1 : r.no_thru_traffic_ < 2) (b2 : r.oneway_ < 2) 
    (b3 : r.oneway_reverse_ < 2) (b4 : r.roundabout_ < 2) (b5 : r.ferry_ < 2) 
    (b6 : r.rail_ < 2) (b7 : r.surface_ < 2 ^ 3) (b8 : r.tunnel_ < 2) (b9 : r.toll_ < 2) 
    (b10 : r.bridge_ < 2) (b11 : r.seasonal_ < 2) :
    wayAttrWord r / 2 / 2 / 2 / 2 / 2 / 2 / 2 / 2 ^ 3 / 2 / 2 / 2 % 2 = r.seasonal_ := by
  unfold wayAttrWord; omega

theorem wayAttrWord_x12 (r : OSMWay)
    (b0 : r.destination_only_ < 2) (b1 : r.no_thru_traffic_ < 2) (b2 : r.oneway_ < 2) 
    (b3 : r.oneway_reverse_ < 2) (b4 : r.roundabout_ < 2) (b5 : r.ferry_ < 2) 
    (b6 : r.rail_ < 2) (b7 : r.surface_ < 2 ^ 3) (b8 : r.tunnel_ < 2) (b9 : r.toll_ < 2) 
    (b10 : r.bridge_ < 2) (b11 : r.seasonal_ < 2) (b12 : r.drive_on_right_ < 2) :
    wayAttrWord r / 2 / 2 / 2 / 2 / 2 / 2 / 2 / 2 ^ 3 / 2 / 2 / 2 / 2 % 2 = r.drive_on_right_ := by
  unfold wayAttrWord; omega

theorem wayAttrWord_x13 (r : OSMWay)
    (b0 : r.destination_only_ < 2) (b1 : r.no_thru_traffic_ < 2) (b2 : r.oneway_ < 2) 
    (b3 : r.oneway_reverse_ < 2) (b4 : r.roundabout_ < 2) (b5 : r.ferry_ < 2) 
    (b6 : r.rail_ < 2) (b7 : r.surface_ < 2 ^ 3) (b8 : r.tunnel_ < 2) (b9 : r.toll_ < 2) 
    (b10 : r.bridge_ < 2) (b11 : r.seasonal_ < 2) (b12 : r.drive_on_right_ < 2) 
    (b13 : r.bike_network_ < 2 ^ 4) :
    wayAttrWord r / 2 / 2 / 2 / 2 / 2 / 2 / 2 / 2 ^ 3 / 2 / 2 / 2 / 2 / 2 % 2 ^ 4 = r.bike_network_ := by
  unfold wayAttrWord; omega

theorem wayAttrWord_x14 (r : OSMWay)
    (b0 : r.destination_only_ < 2) (b1 : r.no_thru_traffic_ < 2) (b2 : r.oneway_ < 2) 
    (b3 : r.oneway_reverse_ < 2) (b4 : r.roundabout_ < 2) (b5 : r.ferry_ < 2) 
    (b6 : r.rail_ < 2) (b7 : r.surface_ < 2 ^ 3) (b8 : r.tunnel_ < 2) (b9 : r.toll_ < 2) 
    (b10 : r.bridge_ < 2) (b11 : r.seasonal_ < 2) (b12 : r.drive_on_right_ < 2) 
    (b13 : r.bike_network_ < 2 ^ 4) (b14 : r.exit_ < 2) :
    wayAttrWord r / 2 / 2 / 2 / 2 / 2 / 2 / 2 / 2 ^ 3 / 2 / 2 / 2 / 2 / 2 / 2 ^ 4 % 2 = r.exit_ := by
  unfold wayAttrWord; omega

theorem wayAttrWord_x15 (r : OSMWay)
    (b0 : r.destination_only_ < 2) (b1 : r.no_thru_traffic_ < 2) (b2 : r.oneway_ < 2) 
    (b3 : r.oneway_reverse_ < 2) (b4 : r.roundabout_ < 2) (b5 : r.ferry_ < 2) 
    (b6 : r.rail_ < 2) (b7 : r.surface_ < 2 ^ 3) (b8 : r.tunnel_ < 2) (b9 : r.toll_ < 2) 
    (b10 : r.bridge_ < 2) (b11 : r.seasonal_ < 2) (b12 : r.drive_on_right_ < 2) 
    (b13 : r.bike_network_ < 2 ^ 4) (b14 : r.exit_ < 2) (b15 : r.tagged_speed_ < 2) :
    wayAttrWord r / 2 / 2 / 2 / 2 / 2 / 2 / 2 / 2 ^ 3 / 2 / 2 / 2 / 2 / 2 / 2 ^ 4 / 2 % 2 = r.tagged_speed_ := by
  unfold wayAttrWord; omega

theorem wayAttrWord_x16 (r : OSMWay)
    (b0 : r.destination_only_ < 2) (b1 : r.no_thru_traffic_ < 2) (b2 : r.oneway_ < 2) 
    (b3 : r.oneway_reverse_ < 2) (b4 : r.roundabout_ < 2) (b5 : r.ferry_ < 2) 
    (b6 : r.rail_ < 2) (b7 : r.surface_ < 2 ^ 3) (b8 : r.tunnel_ < 2) (b9 : r.toll_ < 2) 
    (b10 : r.bridge_ < 2) (b11 : r.seasonal_ < 2) (b12 : r.drive_on_right_ < 2) 
    (b13 : r.bike_network_ < 2 ^ 4) (b14 : r.exit_ < 2) (b15 : r.tagged_speed_ < 2) 
    (b16 : r.forward_tagged_speed_ < 2) :
    wayAttrWord r / 2 / 2 / 2 / 2 / 2 / 2 / 2 / 2 ^ 3 / 2 / 2 / 2 / 2 / 2 / 2 ^ 4 / 2 / 2 % 2 = r.forward_tagged_speed_ := by
  unfold wayAttrWord; omega

theorem wayAttrWord_x17 (r : OSMWay)
    (b0 : r.destination_only_ < 2) (b1 : r.no_thru_traffic_ < 2) (b2 : r.oneway_ < 2) 
    (b3 : r.oneway_reverse_ < 2) (b4 : r.roundabout_ < 2) (b5 : r.ferry_ < 2) 
    (b6 : r.rail_ < 2) (b7 : r.surface_ < 2 ^ 3) (b8 : r.tunnel_ < 2) (b9 : r.toll_ < 2) 
    (b10 : r.bridge_ < 2) (b11 : r.seasonal_ < 2) (b12 : r.drive_on_right_ < 2) 
    (b13 : r.bike_network_ < 2 ^ 4) (b14 : r.exit_ < 2) (b15 : r.tagged_speed_ < 2) 
    (b16 : r.forward_tagged_speed_ < 2) (b17 : r.backward_tagged_speed_ < 2) :
    wayAttrWord r / 2 / 2 / 2 / 2 / 2 / 2 / 2 / 2 ^ 3 / 2 / 2 / 2 / 2 / 2 / 2 ^ 4 / 2 / 2 / 2 % 2 = r.backward_tagged_speed_ := by
  unfold wayAttrWord; omega

theorem wayAttrWord_x18 (r : OSMWay)
    (b0 : r.destination_only_ < 2) (b1 : r.no_thru_traffic_ < 2) (b2 : r.oneway_ < 2) 
    (b3 : r.oneway_reverse_ < 2) (b4 : r.roundabout_ < 2) (b5 : r.ferry_ < 2) 
    (b6 : r.rail_ < 2) (b7 : r.surface_ < 2 ^ 3) (b8 : r.tunnel_ < 2) (b9 : r.toll_ < 2) 
    (b10 : r.bridge_ < 2) (b11 : r.seasonal_ < 2) (b12 : r.drive_on_right_ < 2) 
    (b13 : r.bike_network_ < 2 ^ 4) (b14 : r.exit_ < 2) (b15 : r.tagged_speed_ < 2) 
    (b16 : r.forward_tagged_speed_ < 2) (b17 : r.backward_tagged_speed_ < 2) 
    (b18 : r.tagged_lanes_ < 2) :
    wayAttrWord r / 2 / 2 / 2 / 2 / 2 / 2 / 2 / 2 ^ 3 / 2 / 2 / 2 / 2 / 2 / 2 ^ 4 / 2 / 2 / 2 / 2 % 2 = r.tagged_lanes_ := by
  unfold wayAttrWord; omega

theorem wayAttrWord_x19 (r : OSMWay)
    (b0 : r.destination_only_ < 2) (b1 : r.no_thru_traffic_ < 2) (b2 : r.oneway_ < 2) 
    (b3 : r.oneway_reverse_ < 2) (b4 : r.roundabout_ < 2) (b5 : r.ferry_ < 2) 
    (b6 : r.rail_ < 2) (b7 : r.surface_ < 2 ^ 3) (b8 : r.tunnel_ < 2) (b9 : r.toll_ < 2) 
    (b10 : r.bridge_ < 2) (b11 : r.seasonal_ < 2) (b12 : r.drive_on_right_ < 2) 
    (b13 : r.bike_network_ < 2 ^ 4) (b14 : r.exit_ < 2) (b15 : r.tagged_speed_ < 2) 
    (b16 : r.forward_tagged_speed_ < 2) (b17 : r.backward_tagged_speed_ < 2) 
    (b18 : r.tagged_lanes_ < 2) (b19 : r.forward_tagged_lanes_ < 2) :
    wayAttrWord r / 2 / 2 / 2 / 2 / 2 / 2 / 2 / 2 ^ 3 / 2 / 2 / 2 / 2 / 2 / 2 ^ 4 / 2 / 2 / 2 / 2 / 2 % 2 = r.forward_tagged_lanes_ := by
  unfold wayAttrWord; omega

theorem wayAttrWord_x20 (r : OSMWay)
    (b0 : r.destination_only_ < 2) (b1 : r.no_thru_traffic_ < 2) (b2 : r.oneway_ < 2) 
    (b3 : r.oneway_reverse_ < 2) (b4 : r.roundabout_ < 2) (b5 : r.ferry_ < 2) 
    (b6 : r.rail_ < 2) (b7 : r.surface_ < 2 ^ 3) (b8 : r.tunnel_ < 2) (b9 : r.toll_ < 2) 
    (b10 : r.bridge_ < 2) (b11 : r.seasonal_ < 2) (b12 : r.drive_on_right_ < 2) 
    (b13 : r.bike_network_ < 2 ^ 4) (b14 : r.exit_ < 2) (b15 : r.tagged_speed_ < 2) 
    (b16 : r.forward_tagged_speed_ < 2) (b17 : r.backward_tagged_speed_ < 2) 
    (b18 : r.tagged_lanes_ < 2) (b19 : r.forward_tagged_lanes_ < 2) 
    (b20 : r.backward_tagged_lanes_ < 2) :
    wayAttrWord r / 2 / 2 / 2 / 2 / 2 / 2 / 2 / 2 ^ 3 / 2 / 2 / 2 / 2 / 2 / 2 ^ 4 / 2 / 2 / 2 / 2 / 2 / 2 % 2 = r.backward_tagged_lanes_ := by
  unfold wayAttrWord; omega

theorem wayAttrWord_x21 (r : OSMWay)
    (b0 : r.destination_only_ < 2) (b1 : r.no_thru_traffic_ < 2) (b2 : r.oneway_ < 2) 
    (b3 : r.oneway_reverse_ < 2) (b4 : r.roundabout_ < 2) (b5 : r.ferry_ < 2) 
    (b6 : r.rail_ < 2) (b7 : r.surface_ < 2 ^ 3) (b8 : r.tunnel_ < 2) (b9 : r.toll_ < 2) 
    (b10 : r.bridge_ < 2) (b11 : r.seasonal_ < 2) (b12 : r.drive_on_right_ < 2) 
    (b13 : r.bike_network_ < 2 ^ 4) (b14 : r.exit_ < 2) (b15 : r.tagged_speed_ < 2) 
    (b16 : r.forward_tagged_speed_ < 2) (b17 : r.backward_tagged_speed_ < 2) 
    (b18 : r.tagged_lanes_ < 2) (b19 : r.forward_tagged_lanes_ < 2) 
    (b20 : r.backward_tagged_lanes_ < 2) (b21 : r.truck_route_ < 2) :
    wayAttrWord r / 2 / 2 / 2 / 2 / 2 / 2 / 2 / 2 ^ 3 / 2 / 2 / 2 / 2 / 2 / 2 ^ 4 / 2 / 2 / 2 / 2 / 2 / 2 / 2 % 2 = r.truck_route_ := by
  unfold wayAttrWord; omega

theorem wayAttrWord_x22 (r : OSMWay)
    (b0 : r.destination_only_ < 2) (b1 : r.no_thru_traffic_ < 2) (b2 : r.oneway_ < 2) 
    (b3 : r.oneway_reverse_ < 2) (b4 : r.roundabout_ < 2) (b5 : r.ferry_ < 2) 
    (b6 : r.rail_ < 2) (b7 : r.surface_ < 2 ^ 3) (b8 : r.tunnel_ < 2) (b9 : r.toll_ < 2) 
    (b10 : r.bridge_ < 2) (b11 : r.seasonal_ < 2) (b12 : r.drive_on_right_ < 2) 
    (b13 : r.bike_network_ < 2 ^ 4) (b14 : r.exit_ < 2) (b15 : r.tagged_speed_ < 2) 
    (b16 : r.forward_tagged_speed_ < 2) (b17 : r.backward_tagged_speed_ < 2) 
    (b18 : r.tagged_lanes_ < 2) (b19 : r.forward_tagged_lanes_ < 2) 
    (b20 : r.backward_tagged_lanes_ < 2) (b21 : r.truck_route_ < 2) 
    (b22 : r.sidewalk_right_ < 2) :
    wayAttrWord r / 2 / 2 / 2 / 2 / 2 / 2 / 2 / 2 ^ 3 / 2 / 2 / 2 / 2 / 2 / 2 ^ 4 / 2 / 2 / 2 / 2 / 2 / 2 / 2 / 2 % 2 = r.sidewalk_right_ := by
  unfold wayAttrWord; omega

theorem wayAttrWord_x23 (r : OSMWay)
    (b0 : r.destination_only_ < 2) (b1 : r.no_thru_traffic_ < 2) (b2 : r.oneway_ < 2) 
    (b3 : r.oneway_reverse_ < 2) (b4 : r.roundabout_ < 2) (b5 : r.ferry_ < 2) 
    (b6 : r.rail_ < 2) (b7 : r.surface_ < 2 ^ 3) (b8 : r.tunnel_ < 2) (b9 : r.toll_ < 2) 
    (b10 : r.bridge_ < 2) (b11 : r.seasonal_ < 2) (b12 : r.drive_on_right_ < 2) 
    (b13 : r.bike_network_ < 2 ^ 4) (b14 : r.exit_ < 2) (b15 : r.tagged_speed_ < 2) 
    (b16 : r.forward_tagged_speed_ < 2) (b17 : r.backward_tagged_speed_ < 2) 
    (b18 : r.tagged_lanes_ < 2) (b19 : r.forward_tagged_lanes_ < 2) 
    (b20 : r.backward_tagged_lanes_ < 2) (b21 : r.truck_route_ < 2) 
    (b22 : r.sidewalk_right_ < 2) (b23 : r.sidewalk_left_ < 2) :
    wayAttrWord r / 2 / 2 / 2 / 2 / 2 / 2 / 2 / 2 ^ 3 / 2 / 2 / 2 / 2 / 2 / 2 ^ 4 / 2 / 2 / 2 / 2 / 2 / 2 / 2 / 2 / 2 % 2 = r.sidewalk_left_ := by
  unfold wayAttrWord; omega

theorem wayAttrWord_x24 (r : OSMWay)
    (b0 : r.destination_only_ < 2) (b1 : r.no_thru_traffic_ < 2) (b2 : r.oneway_ < 2) 
    (b3 : r.oneway_reverse_ < 2) (b4 : r.roundabout_ < 2) (b5 : r.ferry_ < 2) 
    (b6 : r.rail_ < 2) (b7 : r.surface_ < 2 ^ 3) (b8 : r.tunnel_ < 2) (b9 : r.toll_ < 2) 
    (b10 : r.bridge_ < 2) (b11 : r.seasonal_ < 2) (b12 : r.drive_on_right_ < 2) 
    (b13 : r.bike_network_ < 2 ^ 4) (b14 : r.exit_ < 2) (b15 : r.tagged_speed_ < 2) 
    (b16 : r.forward_tagged_speed_ < 2) (b17 : r.backward_tagged_speed_ < 2) 
    (b18 : r.tagged_lanes_ < 2) (b19 : r.forward_tagged_lanes_ < 2) 
    (b20 : r.backward_tagged_lanes_ < 2) (b21 : r.truck_route_ < 2) 
    (b22 : r.sidewalk_right_ < 2) (b23 : r.sidewalk_left_ < 2) (b24 : r.sac_scale_ < 2 ^ 3) :
    wayAttrWord r / 2 / 2 / 2 / 2 / 2 / 2 / 2 / 2 ^ 3 / 2 / 2 / 2 / 2 / 2 / 2 ^ 4 / 2 / 2 / 2 / 2 / 2 / 2 / 2 / 2 / 2 / 2 = r.sac_scale_ := by
  unfold wayAttrWord; omega

theorem wayClassWord_lt (r : OSMWay)
    (b0 : r.road_class_ < 2 ^ 3) (b1 : r.link_ < 2) (b2 : r.use_ < 2 ^ 6) 
    (b3 : r.lanes_ < 2 ^ 4) (b4 : r.forward_lanes_ < 2 ^ 4) (b5 : r.backward_lanes_ < 2 ^ 4) 
    (b6 : r.turn_channel_ < 2) (b7 : r.wheelchair_ < 2) (b8 : r.wheelchair_tag_ < 2) 
    (b9 : r.has_user_tags_ < 2) (b10 : r.has_pronunciation_tags_ < 2) (b11 : r.internal_ < 2) 
    (b12 : r.hov_type_ < 2) (b13 : r.indoor_ < 2) (b14 : r.pedestrian_forward_ < 2) 
    (b15 : r.pedestrian_backward_ < 2) :
    wayClassWord r < 2 ^ 32 := by
  unfold wayClassWord; omega

theorem wayClassWord_x0 (r : OSMWay)
    (b0 : r.road_class_ < 2 ^ 3) :
    wayClassWord r % 2 ^ 3 = r.road_class_ := by
  unfold wayClassWord; omega

theorem wayClassWord_x1 (r : OSMWay)
    (b0 : r.road_class_ < 2 ^ 3) (b1 : r.link_ < 2) :
    wayClassWord r / 2 ^ 3 % 2 = r.link_ := by
  unfold wayClassWord; omega

theorem wayClassWord_x2 (r : OSMWay)
    (b0 : r.road_class_ < 2 ^ 3) (b1 : r.link_ < 2) (b2 : r.use_ < 2 ^ 6) :
    wayClassWord r / 2 ^ 3 / 2 % 2 ^ 6 = r.use_ := by
  unfold wayClassWord; omega

theorem wayClassWord_x3 (r : OSMWay)
    (b0 : r.road_class_ < 2 ^ 3) (b1 : r.link_ < 2) (b2 : r.use_ < 2 ^ 6) 
    (b3 : r.lanes_ < 2 ^ 4) :
    wayClassWord r / 2 ^ 3 / 2 / 2 ^ 6 % 2 ^ 4 = r.lanes_ := by
  unfold wayClassWord; omega

theorem wayClassWord_x4 (r : OSMWay)
    (b0 : r.road_class_ < 2 ^ 3) (b1 : r.link_ < 2) (b2 : r.use_ < 2 ^ 6) 
    (b3 : r.lanes_ < 2 ^ 4) (b4 : r.forward_lanes_ < 2 ^ 4) :
    wayClassWord r / 2 ^ 3 / 2 / 2 ^ 6 / 2 ^ 4 % 2 ^ 4 = r.forward_lanes_ := by
  unfold wayClassWord; omega

theorem wayClassWord_x5 (r : OSMWay)
    (b0 : r.road_class_ < 2 ^ 3) (b1 : r.link_ < 2) (b2 : r.use_ < 2 ^ 6) 
    (b3 : r.lanes_ < 2 ^ 4) (b4 : r.forward_lanes_ < 2 ^ 4) (b5 : r.backward_lanes_ < 2 ^ 4) :
    wayClassWord r / 2 ^ 3 / 2 / 2 ^ 6 / 2 ^ 4 / 2 ^ 4 % 2 ^ 4 = r.backward_lanes_ := by
  unfold wayClassWord; omega

theorem wayClassWord_x6 (r : OSMWay)
    (b0 : r.road_class_ < 2 ^ 3) (b1 : r.link_ < 2) (b2 : r.use_ < 2 ^ 6) 
    (b3 : r.lanes_ < 2 ^ 4) (b4 : r.forward_lanes_ < 2 ^ 4) (b5 : r.backward_lanes_ < 2 ^ 4) 
    (b6 : r.turn_channel_ < 2) :
    wayClassWord r / 2 ^ 3 / 2 / 2 ^ 6 / 2 ^ 4 / 2 ^ 4 / 2 ^ 4 % 2 = r.turn_channel_ := by
  unfold wayClassWord; omega

theorem wayClassWord_x7 (r : OSMWay)
    (b0 : r.road_class_ < 2 ^ 3) (b1 : r.link_ < 2) (b2 : r.use_ < 2 ^ 6) 
    (b3 : r.lanes_ < 2 ^ 4) (b4 : r.forward_lanes_ < 2 ^ 4) (b5 : r.backward_lanes_ < 2 ^ 4) 
    (b6 : r.turn_channel_ < 2) (b7 : r.wheelchair_ < 2) :
    wayClassWord r / 2 ^ 3 / 2 / 2 ^ 6 / 2 ^ 4 / 2 ^ 4 / 2 ^ 4 / 2 % 2 = r.wheelchair_ := by
  unfold wayClassWord; omega

theorem wayClassWord_x8 (r : OSMWay)
    (b0 : r.road_class_ < 2 ^ 3) (b1 : r.link_ < 2) (b2 : r.use_ < 2 ^ 6) 
    (b3 : r.lanes_ < 2 ^ 4) (b4 : r.forward_lanes_ < 2 ^ 4) (b5 : r.backward_lanes_ < 2 ^ 4) 
    (b6 : r.turn_channel_ < 2) (b7 : r.wheelchair_ < 2) (b8 : r.wheelchair_tag_ < 2) :
    wayClassWord r / 2 ^ 3 / 2 / 2 ^ 6 / 2 ^ 4 / 2 ^ 4 / 2 ^ 4 / 2 / 2 % 2 = r.wheelchair_tag_ := by
  unfold wayClassWord; omega

theorem wayClassWord_x9 (r : OSMWay)
    (b0 : r.road_class_ < 2 ^ 3) (b1 : r.link_ < 2) (b2 : r.use_ < 2 ^ 6) 
    (b3 : r.lanes_ < 2 ^ 4) (b4 : r.forward_lanes_ < 2 ^ 4) (b5 : r.backward_lanes_ < 2 ^ 4) 
    (b6 : r.turn_channel_ < 2) (b7 : r.wheelchair_ < 2) (b8 : r.wheelchair_tag_ < 2) 
    (b9 : r.has_user_tags_ < 2) :
    wayClassWord r / 2 ^ 3 / 2 / 2 ^ 6 / 2 ^ 4 / 2 ^ 4 / 2 ^ 4 / 2 / 2 / 2 % 2 = r.has_user_tags_ := by
  unfold wayClassWord; omega

theorem wayClassWord_x10 (r : OSMWay)
    (b0 : r.road_class_ < 2 ^ 3) (b1 : r.link_ < 2) (b2 : r.use_ < 2 ^ 6) 
    (b3 : r.lanes_ < 2 ^ 4) (b4 : r.forward_lanes_ < 2 ^ 4) (b5 : r.backward_lanes_ < 2 ^ 4) 
    (b6 : r.turn_channel_ < 2) (b7 : r.wheelchair_ < 2) (b8 : r.wheelchair_tag_ < 2) 
    (b9 : r.has_user_tags_ < 2) (b10 : r.has_pronunciation_tags_ < 2) :
    wayClassWord r / 2 ^ 3 / 2 / 2 ^ 6 / 2 ^ 4 / 2 ^ 4 / 2 ^ 4 / 2 / 2 / 2 / 2 % 2 = r.has_pronunciation_tags_ := by
  unfold wayClassWord; omega

theorem wayClassWord_x11 (r : OSMWay)
    (b0 : r.road_class_ < 2 ^ 3) (b1 : r.link_ < 2) (b2 : r.use_ < 2 ^ 6) 
    (b3 : r.lanes_ < 2 ^ 4) (b4 : r.forward_lanes_ < 2 ^ 4) (b5 : r.backward_lanes_ < 2 ^ 4) 
    (b6 : r.turn_channel_ < 2) (b7 : r.wheelchair_ < 2) (b8 : r.wheelchair_tag_ < 2) 
    (b9 : r.has_user_tags_ < 2) (b10 : r.has_pronunciation_tags_ < 2) (b11 : r.internal_ < 2) :
    wayClassWord r / 2 ^ 3 / 2 / 2 ^ 6 / 2 ^ 4 / 2 ^ 4 / 2 ^ 4 / 2 / 2 / 2 / 2 / 2 % 2 = r.internal_ := by
  unfold wayClassWord; omega

theorem wayClassWord_x12 (r : OSMWay)
    (b0 : r.road_class_ < 2 ^ 3) (b1 : r.link_ < 2) (b2 : r.use_ < 2 ^ 6) 
    (b3 : r.lanes_ < 2 ^ 4) (b4 : r.forward_lanes_ < 2 ^ 4) (b5 : r.backward_lanes_ < 2 ^ 4) 
    (b6 : r.turn_channel_ < 2) (b7 : r.wheelchair_ < 2) (b8 : r.wheelchair_tag_ < 2) 
    (b9 : r.has_user_tags_ < 2) (b10 : r.has_pronunciation_tags_ < 2) (b11 : r.internal_ < 2) 
    (b12 : r.hov_type_ < 2) :
    wayClassWord r / 2 ^ 3 / 2 / 2 ^ 6 / 2 ^ 4 / 2 ^ 4 / 2 ^ 4 / 2 / 2 / 2 / 2 / 2 / 2 % 2 = r.hov_type_ := by
  unfold wayClassWord; omega

theorem wayClassWord_x13 (r : OSMWay)
    (b0 : r.road_class_ < 2 ^ 3) (b1 : r.link_ < 2) (b2 : r.use_ < 2 ^ 6) 
    (b3 : r.lanes_ < 2 ^ 4) (b4 : r.forward_lanes_ < 2 ^ 4) (b5 : r.backward_lanes_ < 2 ^ 4) 
    (b6 : r.turn_channel_ < 2) (b7 : r.wheelchair_ < 2) (b8 : r.wheelchair_tag_ < 2) 
    (b9 : r.has_user_tags_ < 2) (b10 : r.has_pronunciation_tags_ < 2) (b11 : r.internal_ < 2) 
    (b12 : r.hov_type_ < 2) (b13 : r.indoor_ < 2) :
    wayClassWord r / 2 ^ 3 / 2 / 2 ^ 6 / 2 ^ 4 / 2 ^ 4 / 2 ^ 4 / 2 / 2 / 2 / 2 / 2 / 2 / 2 % 2 = r.indoor_ := by
  unfold wayClassWord; omega

theorem wayClassWord_x14 (r : OSMWay)
    (b0 : r.road_class_ < 2 ^ 3) (b1 : r.link_ < 2) (b2 : r.use_ < 2 ^ 6) 
    (b3 : r.lanes_ < 2 ^ 4) (b4 : r.forward_lanes_ < 2 ^ 4) (b5 : r.backward_lanes_ < 2 ^ 4) 
    (b6 : r.turn_channel_ < 2) (b7 : r.wheelchair_ < 2) (b8 : r.wheelchair_tag_ < 2) 
    (b9 : r.has_user_tags_ < 2) (b10 : r.has_pronunciation_tags_ < 2) (b11 : r.internal_ < 2) 
    (b12 : r.hov_type_ < 2) (b13 : r.indoor_ < 2) (b14 : r.pedestrian_forward_ < 2) :
    wayClassWord r / 2 ^ 3 / 2 / 2 ^ 6 / 2 ^ 4 / 2 ^ 4 / 2 ^ 4 / 2 / 2 / 2 / 2 / 2 / 2 / 2 / 2 % 2 = r.pedestrian_forward_ := by
  unfold wayClassWord; omega

theorem wayClassWord_x15 (r : OSMWay)
    (b0 : r.road_class_ < 2 ^ 3) (b1 : r.link_ < 2) (b2 : r.use_ < 2 ^ 6) 
    (b3 : r.lanes_ < 2 ^ 4) (b4 : r.forward_lanes_ < 2 ^ 4) (b5 : r.backward_lanes_ < 2 ^ 4) 
    (b6 : r.turn_channel_ < 2) (b7 : r.wheelchair_ < 2) (b8 : r.wheelchair_tag_ < 2) 
    (b9 : r.has_user_tags_ < 2) (b10 : r.has_pronunciation_tags_ < 2) (b11 : r.internal_ < 2) 
    (b12 : r.hov_type_ < 2) (b13 : r.indoor_ < 2) (b14 : r.pedestrian_forward_ < 2) 
    (b15 : r.pedestrian_backward_ < 2) :
    wayClassWord r / 2 ^ 3 / 2 / 2 ^ 6 / 2 ^ 4 / 2 ^ 4 / 2 ^ 4 / 2 / 2 / 2 / 2 / 2 / 2 / 2 / 2 / 2 = r.pedestrian_backward_ := by
  unfold wayClassWord; omega

theorem wayAccessWord_lt (r : OSMWay)
    (b0 : r.auto_forward_ < 2) (b1 : r.bus_forward_ < 2) (b2 : r.taxi_forward_ < 2) 
    (b3 : r.truck_forward_ < 2) (b4 : r.motorcycle_forward_ < 2) 
    (b5 : r.emergency_forward_ < 2) (b6 : r.hov_forward_ < 2) (b7 : r.moped_forward_ < 2) 
    (b8 : r.auto_backward_ < 2) (b9 : r.bus_backward_ < 2) (b10 : r.taxi_backward_ < 2) 
    (b11 : r.truck_backward_ < 2) (b12 : r.motorcycle_backward_ < 2) 
    (b13 : r.emergency_backward_ < 2) (b14 : r.hov_backward_ < 2) 
    (b15 : r.moped_backward_ < 2) :
    wayAccessWord r < 2 ^ 16 := by
  unfold wayAccessWord; omega

theorem wayAccessWord_x0 (r : OSMWay)
    (b0 : r.auto_forward_ < 2) :
    wayAccessWord r % 2 = r.auto_forward_ := by
  unfold wayAccessWord; omega

theorem wayAccessWord_x1 (r : OSMWay)
    (b0 : r.auto_forward_ < 2) (b1 : r.bus_forward_ < 2) :
    wayAccessWord r / 2 % 2 = r.bus_forward_ := by
  unfold wayAccessWord; omega

theorem wayAccessWord_x2 (r : OSMWay)
    (b0 : r.auto_forward_ < 2) (b1 : r.bus_forward_ < 2) (b2 : r.taxi_forward_ < 2) :
    wayAccessWord r / 2 / 2 % 2 = r.taxi_forward_ := by
  unfold wayAccessWord; omega

theorem wayAccessWord_x3 (r : OSMWay)
    (b0 : r.auto_forward_ < 2) (b1 : r.bus_forward_ < 2) (b2 : r.taxi_forward_ < 2) 
    (b3 : r.truck_forward_ < 2) :
    wayAccessWord r / 2 / 2 / 2 % 2 = r.truck_forward_ := by
  unfold wayAccessWord; omega

theorem wayAccessWord_x4 (r : OSMWay)
    (b0 : r.auto_forward_ < 2) (b1 : r.bus_forward_ < 2) (b2 : r.taxi_forward_ < 2) 
    (b3 : r.truck_forward_ < 2) (b4 : r.motorcycle_forward_ < 2) :
    wayAccessWord r / 2 / 2 / 2 / 2 % 2 = r.motorcycle_forward_ := by
  unfold wayAccessWord; omega

theorem wayAccessWord_x5 (r : OSMWay)
    (b0 : r.auto_forward_ < 2) (b1 : r.bus_forward_ < 2) (b2 : r.taxi_forward_ < 2) 
    (b3 : r.truck_forward_ < 2) (b4 : r.motorcycle_forward_ < 2) 
    (b5 : r.emergency_forward_ < 2) :
    wayAccessWord r / 2 / 2 / 2 / 2 / 2 % 2 = r.emergency_forward_ := by
  unfold wayAccessWord; omega

theorem wayAccessWord_x6 (r : OSMWay)
    (b0 : r.auto_forward_ < 2) (b1 : r.bus_forward_ < 2) (b2 : r.taxi_forward_ < 2) 
    (b3 : r.truck_forward_ < 2) (b4 : r.motorcycle_forward_ < 2) 
    (b5 : r.emergency_forward_ < 2) (b6 : r.hov_forward_ < 2) :
    wayAccessWord r / 2 / 2 / 2 / 2 / 2 / 2 % 2 = r.hov_forward_ := by
  unfold wayAccessWord; omega

theorem wayAccessWord_x7 (r : OSMWay)
    (b0 : r.auto_forward_ < 2) (b1 : r.bus_forward_ < 2) (b2 : r.taxi_forward_ < 2) 
    (b3 : r.truck_forward_ < 2) (b4 : r.motorcycle_forward_ < 2) 
    (b5 : r.emergency_forward_ < 2) (b6 : r.hov_forward_ < 2) (b7 : r.moped_forward_ < 2) :
    wayAccessWord r / 2 / 2 / 2 / 2 / 2 / 2 / 2 % 2 = r.moped_forward_ := by
  unfold wayAccessWord; omega

theorem wayAccessWord_x8 (r : OSMWay)
    (b0 : r.auto_forward_ < 2) (b1 : r.bus_forward_ < 2) (b2 : r.taxi_forward_ < 2) 
    (b3 : r.truck_forward_ < 2) (b4 : r.motorcycle_forward_ < 2) 
    (b5 : r.emergency_forward_ < 2) (b6 : r.hov_forward_ < 2) (b7 : r.moped_forward_ < 2) 
    (b8 : r.auto_backward_ < 2) :
    wayAccessWord r / 2 / 2 / 2 / 2 / 2 / 2 / 2 / 2 % 2 = r.auto_backward_ := by
  unfold wayAccessWord; omega

theorem wayAccessWord_x9 (r : OSMWay)
    (b0 : r.auto_forward_ < 2) (b1 : r.bus_forward_ < 2) (b2 : r.taxi_forward_ < 2) 
    (b3 : r.truck_forward_ < 2) (b4 : r.motorcycle_forward_ < 2) 
    (b5 : r.emergency_forward_ < 2) (b6 : r.hov_forward_ < 2) (b7 : r.moped_forward_ < 2) 
    (b8 : r.auto_backward_ < 2) (b9 : r.bus_backward_ < 2) :
    wayAccessWord r / 2 / 2 / 2 / 2 / 2 / 2 / 2 / 2 / 2 % 2 = r.bus_backward_ := by
  unfold wayAccessWord; omega

theorem wayAccessWord_x10 (r : OSMWay)
    (b0 : r.auto_forward_ < 2) (b1 : r.bus_forward_ < 2) (b2 : r.taxi_forward_ < 2) 
    (b3 : r.truck_forward_ < 2) (b4 : r.motorcycle_forward_ < 2) 
    (b5 : r.emergency_forward_ < 2) (b6 : r.hov_forward_ < 2) (b7 : r.moped_forward_ < 2) 
    (b8 : r.auto_backward_ < 2) (b9 : r.bus_backward_ < 2) (b10 : r.taxi_backward_ < 2) :
    wayAccessWord r / 2 / 2 / 2 / 2 / 2 / 2 / 2 / 2 / 2 / 2 % 2 = r.taxi_backward_ := by
  unfold wayAccessWord; omega

theorem wayAccessWord_x11 (r : OSMWay)
    (b0 : r.auto_forward_ < 2) (b1 : r.bus_forward_ < 2) (b2 : r.taxi_forward_ < 2) 
    (b3 : r.truck_forward_ < 2) (b4 : r.motorcycle_forward_ < 2) 
    (b5 : r.emergency_forward_ < 2) (b6 : r.hov_forward_ < 2) (b7 : r.moped_forward_ < 2) 
    (b8 : r.auto_backward_ < 2) (b9 : r.bus_backward_ < 2) (b10 : r.taxi_backward_ < 2) 
    (b11 : r.truck_backward_ < 2) :
    wayAccessWord r / 2 / 2 / 2 / 2 / 2 / 2 / 2 / 2 / 2 / 2 / 2 % 2 = r.truck_backward_ := by
  unfold wayAccessWord; omega

theorem wayAccessWord_x12 (r : OSMWay)
    (b0 : r.auto_forward_ < 2) (b1 : r.bus_forward_ < 2) (b2 : r.taxi_forward_ < 2) 
    (b3 : r.truck_forward_ < 2) (b4 : r.motorcycle_forward_ < 2) 
    (b5 : r.emergency_forward_ < 2) (b6 : r.hov_forward_ < 2) (b7 : r.moped_forward_ < 2) 
    (b8 : r.auto_backward_ < 2) (b9 : r.bus_backward_ < 2) (b10 : r.taxi_backward_ < 2) 
    (b11 : r.truck_backward_ < 2) (b12 : r.motorcycle_backward_ < 2) :
    wayAccessWord r / 2 / 2 / 2 / 2 / 2 / 2 / 2 / 2 / 2 / 2 / 2 / 2 % 2 = r.motorcycle_backward_ := by
  unfold wayAccessWord; omega

theorem wayAccessWord_x13 (r : OSMWay)
    (b0 : r.auto_forward_ < 2) (b1 : r.bus_forward_ < 2) (b2 : r.taxi_forward_ < 2) 
    (b3 : r.truck_forward_ < 2) (b4 : r.motorcycle_forward_ < 2) 
    (b5 : r.emergency_forward_ < 2) (b6 : r.hov_forward_ < 2) (b7 : r.moped_forward_ < 2) 
    (b8 : r.auto_backward_ < 2) (b9 : r.bus_backward_ < 2) (b10 : r.taxi_backward_ < 2) 
    (b11 : r.truck_backward_ < 2) (b12 : r.motorcycle_backward_ < 2) 
    (b13 : r.emergency_backward_ < 2) :
    wayAccessWord r / 2 / 2 / 2 / 2 / 2 / 2 / 2 / 2 / 2 / 2 / 2 / 2 / 2 % 2 = r.emergency_backward_ := by
  unfold wayAccessWord; omega

theorem wayAccessWord_x14 (r : OSMWay)
    (b0 : r.auto_forward_ < 2) (b1 : r.bus_forward_ < 2) (b2 : r.taxi_forward_ < 2) 
    (b3 : r.truck_forward_ < 2) (b4 : r.motorcycle_forward_ < 2) 
    (b5 : r.emergency_forward_ < 2) (b6 : r.hov_forward_ < 2) (b7 : r.moped_forward_ < 2) 
    (b8 : r.auto_backward_ < 2) (b9 : r.bus_backward_ < 2) (b10 : r.taxi_backward_ < 2) 
    (b11 : r.truck_backward_ < 2) (b12 : r.motorcycle_backward_ < 2) 
    (b13 : r.emergency_backward_ < 2) (b14 : r.hov_backward_ < 2) :
    wayAccessWord r / 2 / 2 / 2 / 2 / 2 / 2 / 2 / 2 / 2 / 2 / 2 / 2 / 2 / 2 % 2 = r.hov_backward_ := by
  unfold wayAccessWord; omega

theorem wayAccessWord_x15 (r : OSMWay)
    (b0 : r.auto_forward_ < 2) (b1 : r.bus_forward_ < 2) (b2 : r.taxi_forward_ < 2) 
    (b3 : r.truck_forward_ < 2) (b4 : r.motorcycle_forward_ < 2) 
    (b5 : r.emergency_forward_ < 2) (b6 : r.hov_forward_ < 2) (b7 : r.moped_forward_ < 2) 
    (b8 : r.auto_backward_ < 2) (b9 : r.bus_backward_ < 2) (b10 : r.taxi_backward_ < 2) 
    (b11 : r.truck_backward_ < 2) (b12 : r.motorcycle_backward_ < 2) 
    (b13 : r.emergency_backward_ < 2) (b14 : r.hov_backward_ < 2) 
    (b15 : r.moped_backward_ < 2) :
    wayAccessWord r / 2 / 2 / 2 / 2 / 2 / 2 / 2 / 2 / 2 / 2 / 2 / 2 / 2 / 2 / 2 = r.moped_backward_ := by
  unfold wayAccessWord; omega

theorem wayBikeWord_lt (r : OSMWay)
    (b0 : r.cycle_lane_right_ < 2 ^ 2) (b1 : r.cycle_lane_left_ < 2 ^ 2) 
    (b2 : r.cycle_lane_right_opposite_ < 2) (b3 : r.cycle_lane_left_opposite_ < 2) 
    (b4 : r.shoulder_right_ < 2) (b5 : r.shoulder_left_ < 2) (b6 : r.dismount_ < 2) 
    (b7 : r.use_sidepath_ < 2) (b8 : r.bike_forward_ < 2) (b9 : r.bike_backward_ < 2) 
    (b10 : r.lit_ < 2) (b11 : r.destination_only_hgv_ < 2) (b12 : r.spare2_ < 2 ^ 2) :
    wayBikeWord r < 2 ^ 16 := by
  unfold wayBikeWord; omega

theorem wayBikeWord_x0 (r : OSMWay)
    (b0 : r.cycle_lane_right_ < 2 ^ 2) :
    wayBikeWord r % 2 ^ 2 = r.cycle_lane_right_ := by
  unfold wayBikeWord; omega

theorem wayBikeWord_x1 (r : OSMWay)
    (b0 : r.cycle_lane_right_ < 2 ^ 2) (b1 : r.cycle_lane_left_ < 2 ^ 2) :
    wayBikeWord r / 2 ^ 2 % 2 ^ 2 = r.cycle_lane_left_ := by
  unfold wayBikeWord; omega

theorem wayBikeWord_x2 (r : OSMWay)
    (b0 : r.cycle_lane_right_ < 2 ^ 2) (b1 : r.cycle_lane_left_ < 2 ^ 2) 
    (b2 : r.cycle_lane_right_opposite_ < 2) :
    wayBikeWord r / 2 ^ 2 / 2 ^ 2 % 2 = r.cycle_lane_right_opposite_ := by
  unfold wayBikeWord; omega

theorem wayBikeWord_x3 (r : OSMWay)
    (b0 : r.cycle_lane_right_ < 2 ^ 2) (b1 : r.cycle_lane_left_ < 2 ^ 2) 
    (b2 : r.cycle_lane_right_opposite_ < 2) (b3 : r.cycle_lane_left_opposite_ < 2) :
    wayBikeWord r / 2 ^ 2 / 2 ^ 2 / 2 % 2 = r.cycle_lane_left_opposite_ := by
  unfold wayBikeWord; omega

theorem wayBikeWord_x4 (r : OSMWay)
    (b0 : r.cycle_lane_right_ < 2 ^ 2) (b1 : r.cycle_lane_left_ < 2 ^ 2) 
    (b2 : r.cycle_lane_right_opposite_ < 2) (b3 : r.cycle_lane_left_opposite_ < 2) 
    (b4 : r.shoulder_right_ < 2) :
    wayBikeWord r / 2 ^ 2 / 2 ^ 2 / 2 / 2 % 2 = r.shoulder_right_ := by
  unfold wayBikeWord; omega

theorem wayBikeWord_x5 (r : OSMWay)
    (b0 : r.cycle_lane_right_ < 2 ^ 2) (b1 : r.cycle_lane_left_ < 2 ^ 2) 
    (b2 : r.cycle_lane_right_opposite_ < 2) (b3 : r.cycle_lane_left_opposite_ < 2) 
    (b4 : r.shoulder_right_ < 2) (b5 : r.shoulder_left_ < 2) :
    wayBikeWord r / 2 ^ 2 / 2 ^ 2 / 2 / 2 / 2 % 2 = r.shoulder_left_ := by
  unfold wayBikeWord; omega

theorem wayBikeWord_x6 (r : OSMWay)
    (b0 : r.cycle_lane_right_ < 2 ^ 2) (b1 : r.cycle_lane_left_ < 2 ^ 2) 
    (b2 : r.cycle_lane_right_opposite_ < 2) (b3 : r.cycle_lane_left_opposite_ < 2) 
    (b4 : r.shoulder_right_ < 2) (b5 : r.shoulder_left_ < 2) (b6 : r.dismount_ < 2) :
    wayBikeWord r / 2 ^ 2 / 2 ^ 2 / 2 / 2 / 2 / 2 % 2 = r.dismount_ := by
  unfold wayBikeWord; omega

theorem wayBikeWord_x7 (r : OSMWay)
    (b0 : r.cycle_lane_right_ < 2 ^ 2) (b1 : r.cycle_lane_left_ < 2 ^ 2) 
    (b2 : r.cycle_lane_right_opposite_ < 2) (b3 : r.cycle_lane_left_opposite_ < 2) 
    (b4 : r.shoulder_right_ < 2) (b5 : r.shoulder_left_ < 2) (b6 : r.dismount_ < 2) 
    (b7 : r.use_sidepath_ < 2) :
    wayBikeWord r / 2 ^ 2 / 2 ^ 2 / 2 / 2 / 2 / 2 / 2 % 2 = r.use_sidepath_ := by
  unfold wayBikeWord; omega

theorem wayBikeWord_x8 (r : OSMWay)
    (b0 : r.cycle_lane_right_ < 2 ^ 2) (b1 : r.cycle_lane_left_ < 2 ^ 2) 
    (b2 : r.cycle_lane_right_opposite_ < 2) (b3 : r.cycle_lane_left_opposite_ < 2) 
    (b4 : r.shoulder_right_ < 2) (b5 : r.shoulder_left_ < 2) (b6 : r.dismount_ < 2) 
    (b7 : r.use_sidepath_ < 2) (b8 : r.bike_forward_ < 2) :
    wayBikeWord r / 2 ^ 2 / 2 ^ 2 / 2 / 2 / 2 / 2 / 2 / 2 % 2 = r.bike_forward_ := by
  unfold wayBikeWord; omega

theorem wayBikeWord_x9 (r : OSMWay)
    (b0 : r.cycle_lane_right_ < 2 ^ 2) (b1 : r.cycle_lane_left_ < 2 ^ 2) 
    (b2 : r.cycle_lane_right_opposite_ < 2) (b3 : r.cycle_lane_left_opposite_ < 2) 
    (b4 : r.shoulder_right_ < 2) (b5 : r.shoulder_left_ < 2) (b6 : r.dismount_ < 2) 
    (b7 : r.use_sidepath_ < 2) (b8 : r.bike_forward_ < 2) (b9 : r.bike_backward_ < 2) :
    wayBikeWord r / 2 ^ 2 / 2 ^ 2 / 2 / 2 / 2 / 2 / 2 / 2 / 2 % 2 = r.bike_backward_ := by
  unfold wayBikeWord; omega

theorem wayBikeWord_x10 (r : OSMWay)
    (b0 : r.cycle_lane_right_ < 2 ^ 2) (b1 : r.cycle_lane_left_ < 2 ^ 2) 
    (b2 : r.cycle_lane_right_opposite_ < 2) (b3 : r.cycle_lane_left_opposite_ < 2) 
    (b4 : r.shoulder_right_ < 2) (b5 : r.shoulder_left_ < 2) (b6 : r.dismount_ < 2) 
    (b7 : r.use_sidepath_ < 2) (b8 : r.bike_forward_ < 2) (b9 : r.bike_backward_ < 2) 
    (b10 : r.lit_ < 2) :
    wayBikeWord r / 2 ^ 2 / 2 ^ 2 / 2 / 2 / 2 / 2 / 2 / 2 / 2 / 2 % 2 = r.lit_ := by
  unfold wayBikeWord; omega

theorem wayBikeWord_x11 (r : OSMWay)
    (b0 : r.cycle_lane_right_ < 2 ^ 2) (b1 : r.cycle_lane_left_ < 2 ^ 2) 
    (b2 : r.cycle_lane_right_opposite_ < 2) (b3 : r.cycle_lane_left_opposite_ < 2) 
    (b4 : r.shoulder_right_ < 2) (b5 : r.shoulder_left_ < 2) (b6 : r.dismount_ < 2) 
    (b7 : r.use_sidepath_ < 2) (b8 : r.bike_forward_ < 2) (b9 : r.bike_backward_ < 2) 
    (b10 : r.lit_ < 2) (b11 : r.destination_only_hgv_ < 2) :
    wayBikeWord r / 2 ^ 2 / 2 ^ 2 / 2 / 2 / 2 / 2 / 2 / 2 / 2 / 2 / 2 % 2 = r.destination_only_hgv_ := by
  unfold wayBikeWord; omega

theorem wayBikeWord_x12 (r : OSMWay)
    (b0 : r.cycle_lane_right_ < 2 ^ 2) (b1 : r.cycle_lane_left_ < 2 ^ 2) 
    (b2 : r.cycle_lane_right_opposite_ < 2) (b3 : r.cycle_lane_left_opposite_ < 2) 
    (b4 : r.shoulder_right_ < 2) (b5 : r.shoulder_left_ < 2) (b6 : r.dismount_ < 2) 
    (b7 : r.use_sidepath_ < 2) (b8 : r.bike_forward_ < 2) (b9 : r.bike_backward_ < 2) 
    (b10 : r.lit_ < 2) (b11 : r.destination_only_hgv_ < 2) (b12 : r.spare2_ < 2 ^ 2) :
    wayBikeWord r / 2 ^ 2 / 2 ^ 2 / 2 / 2 / 2 / 2 / 2 / 2 / 2 / 2 / 2 / 2 = r.spare2_ := by
  unfold wayBikeWord; omega

theorem osmwayDecode_bytes (r : OSMWay) (rest : List Nat) (h : WFWay r) :
    osmwayDecode (osmwayBytes r ++ rest) = (r, rest) := by
  have hw0 := h.1
  have hx0 := h.2
  have hw1 := hx0.1
  have hx1 := hx0.2
  have hw2 := hx1.1
  have hx2 := hx1.2
  have hw3 := hx2.1
  have hx3 := hx2.2
  have hw4 := hx3.1
  have hx4 := hx3.2
  have hw5 := hx4.1
  have hx5 := hx4.2
  have hw6 := hx5.1
  have hx6 := hx5.2
  have hw7 := hx6.1
  have hx7 := hx6.2
  have hw8 := hx7.1
  have hx8 := hx7.2
  have hw9 := hx8.1
  have hx9 := hx8.2
  have hw10 := hx9.1
  have hx10 := hx9.2
  have hw11 := hx10.1
  have hx11 := hx10.2
  have hw12 := hx11.1
  have hx12 := hx11.2
  have hw13 := hx12.1
  have hx13 := hx12.2
  have hw14 := hx13.1
  have hx14 := hx13.2
  have hw15 := hx14.1
  have hx15 := hx14.2
  have hw16 := hx15.1
  have hx16 := hx15.2
  have hw17 := hx16.1
  have hx17 := hx16.2
  have hw18 := hx17.1
  have hx18 := hx17.2
  have hw19 := hx18.1
  have hx19 := hx18.2
  have hw20 := hx19.1
  have hx20 := hx19.2
  have hw21 := hx20.1
  have hx21 := hx20.2
  have hw22 := hx21.1
  have hx22 := hx21.2
  have hw23 := hx22.1
  have hx23 := hx22.2
  have hw24 := hx23.1
  have hx24 := hx23.2
  have hw25 := hx24.1
  have hx25 := hx24.2
  have hw26 := hx25.1
  have hx26 := hx25.2
  have hw27 := hx26.1
  have hx27 := hx26.2
  have hw28 := hx27.1
  have hx28 := hx27.2
  have hw29 := hx28.1
  have hx29 := hx28.2
  have hw30 := hx29.1
  have hx30 := hx29.2
  have hw31 := hx30.1
  have hx31 := hx30.2
  have hw32 := hx31.1
  have hx32 := hx31.2
  have hw33 := hx32.1
  have hx33 := hx32.2
  have hw34 := hx33.1
  have hx34 := hx33.2
  have hw35 := hx34.1
  have hx35 := hx34.2
  have hw36 := hx35.1
  have hx36 := hx35.2
  have hw37 := hx36.1
  have hx37 := hx36.2
  have hw38 := hx37.1
  have hx38 := hx37.2
  have hw39 := hx38.1
  have hx39 := hx38.2
  have hw40 := hx39.1
  have hx40 := hx39.2
  have hw41 := hx40.1
  have hx41 := hx40.2
  have hw42 := hx41.1
  have hx42 := hx41.2
  have hw43 := hx42.1
  have hx43 := hx42.2
  have hw44 := hx43.1
  have hx44 := hx43.2
  have hw45 := hx44.1
  have hx45 := hx44.2
  have hw46 := hx45.1
  have hx46 := hx45.2
  have hw47 := hx46.1
  have hx47 := hx46.2
  have hw48 := hx47.1
  have hx48 := hx47.2
  have hw49 := hx48.1
  have hx49 := hx48.2
  have hw50 := hx49.1
  have hx50 := hx49.2
  have hw51 := hx50.1
  have hx51 := hx50.2
  have hw52 := hx51.1
  have hx52 := hx51.2
  have hw53 := hx52.1
  have hx53 := hx52.2
  have hw54 := hx53.1
  have hx54 := hx53.2
  have hw55 := hx54.1
  have hx55 := hx54.2
  have hw56 := hx55.1
  have hx56 := hx55.2
  have hw57 := hx56.1
  have hx57 := hx56.2
  have hw58 := hx57.1
  have hx58 := hx57.2
  have hw59 := hx58.1
  have hx59 := hx58.2
  have hw60 := hx59.1
  have hx60 := hx59.2
  have hw61 := hx60.1
  have hx61 := hx60.2
  have hw62 := hx61.1
  have hx62 := hx61.2
  have hw63 := hx62.1
  have hx63 := hx62.2
  have hw64 := hx63.1
  have hx64 := hx63.2
  have hw65 := hx64.1
  have hx65 := hx64.2
  have hw66 := hx65.1
  have hx66 := hx65.2
  have hw67 := hx66.1
  have hx67 := hx66.2
  have hw68 := hx67.1
  have hx68 := hx67.2
  have hw69 := hx68.1
  have hx69 := hx68.2
  have hw70 := hx69.1
  have hx70 := hx69.2
  have hw71 := hx70.1
  have hx71 := hx70.2
  have hw72 := hx71.1
  have hx72 := hx71.2
  have hw73 := hx72.1
  have hx73 := hx72.2
  have hw74 := hx73.1
  have hx74 := hx73.2
  have hw75 := hx74.1
  have hx75 := hx74.2
  have hw76 := hx75.1
  have hx76 := hx75.2
  have hw77 := hx76.1
  have hx77 := hx76.2
  have hw78 := hx77.1
  have hx78 := hx77.2
  have hw79 := hx78.1
  have hx79 := hx78.2
  have hw80 := hx79.1
  have hx80 := hx79.2
  have hw81 := hx80.1
  have hx81 := hx80.2
  have hw82 := hx81.1
  have hx82 := hx81.2
  have hw83 := hx82.1
  have hx83 := hx82.2
  have hw84 := hx83.1
  have hx84 := hx83.2
  have hw85 := hx84.1
  have hx85 := hx84.2
  have hw86 := hx85.1
  have hx86 := hx85.2
  have hw87 := hx86.1
  have hx87 := hx86.2
  have hw88 := hx87.1
  have hx88 := hx87.2
  have hw89 := hx88.1
  have hx89 := hx88.2
  have hw90 := hx89.1
  have hx90 := hx89.2
  have hw91 := hx90.1
  have hx91 := hx90.2
  have hw92 := hx91.1
  have hx92 := hx91.2
  have hw93 := hx92.1
  have hx93 := hx92.2
  have hw94 := hx93.1
  have hx94 := hx93.2
  have hw95 := hx94.1
  have hx95 := hx94.2
  have hw96 := hx95.1
  have hx96 := hx95.2
  have hw97 := hx96.1
  have hx97 := hx96.2
  have hw98 := hx97.1
  have hx98 := hx97.2
  have hw99 := hx98.1
  have hx99 := hx98.2
  have hw100 := hx99.1
  have hx100 := hx99.2
  have hw101 := hx100.1
  have hx101 := hx100.2
  have hw102 := hx101.1
  have hx102 := hx101.2
  have hw103 := hx102.1
  have hx103 := hx102.2
  have hw104 := hx103.1
  have hx104 := hx103.2
  have hw105 := hx104.1
  have hx105 := hx104.2
  have hw106 := hx105.1
  have hx106 := hx105.2
  have hw107 := hx106.1
  have hx107 := hx106.2
  have hw108 := hx107.1
  have hx108 := hx107.2
  have hw109 := hx108.1
  have hx109 := hx108.2
  have hw110 := hx109.1
  have hx110 := hx109.2
  have hw111 := hx110.1
  have hx111 := hx110.2
  have hw112 := hx111.1
  have hx112 := hx111.2
  have hw113 := hx112.1
  have hx113 := hx112.2
  have hw114 := hx113.1
  have hx114 := hx113.2
  have hw115 := hx114.1
  have hx115 := hx114.2
  have hw116 := hx115.1
  have hx116 := hx115.2
  have hw117 := hx116.1
  have hx117 := hx116.2
  have hw118 := hx117.1
  have hx118 := hx117.2
  have hw119 := hx118.1
  have hx119 := hx118.2
  have hw120 := hx119.1
  have hx120 := hx119.2
  have hw121 := hx120.1
  have hx121 := hx120.2
  have hw122 := hx121.1
  have hx122 := hx121.2
  have hw123 := hx122.1
  have hx123 := hx122.2
  have hw124 := hx123.1
  have hx124 := hx123.2
  have hw125 := hx124.1
  have hx125 := hx124.2
  have hw126 := hx125.1
  have hx126 := hx125.2
  have hw127 := hx126.1
  have hx127 := hx126.2
  have hw128 := hx127.1
  have hx128 := hx127.2
  have hw129 := hx128.1
  have hx129 := hx128.2
  have hw130 := hx129.1
  have hx130 := hx129.2
  have hw131 := hx130.1
  have hx131 := hx130.2
  have hw132 := hx131.1
  have hx132 := hx131.2
  have hw133 := hx132.1
  have hx133 := hx132.2
  have hw134 := hx133.1
  have hx134 := hx133.2
  have hw135 := hx134.1
  have hx135 := hx134.2
  have hw136 := hx135.1
  have hx136 := hx135.2
  have hw137 := hx136.1
  have hx137 := hx136.2
  have hw138 := hx137.1
  have hx138 := hx137.2
  have hw139 := hx138.1
  have hx139 := hx138.2
  have hw140 := hx139.1
  have hx140 := hx139.2
  have hw141 := hx140.1
  have hx141 := hx140.2
  have hw142 := hx141.1
  have hx142 := hx141.2
  have hw143 := hx142.1
  have hx143 := hx142.2
  have hw144 := hx143.1
  have hx144 := hx143.2
  have hw145 := hx144.1
  have hx145 := hx144.2
  have hw146 := hx145.1
  have hx146 := hx145.2
  have hw147 := hx146.1
  have hx147 := hx146.2
  have hw148 := hx147.1
  have hx148 := hx147.2
  have hw149 := hx148.1
  have hx149 := hx148.2
  have hw150 := hx149
  have hqA := wayAttrWord_lt r hw72 hw73 hw74 hw75 hw76 hw77 hw78 hw79 hw80 hw81 hw82 hw83 hw84 hw85 hw86 hw87 hw88 hw89 hw90 hw91 hw92 hw93 hw94 hw95 hw96
  have hqC := wayClassWord_lt r hw97 hw98 hw99 hw100 hw101 hw102 hw103 hw104 hw105 hw106 hw107 hw108 hw109 hw110 hw111 hw112
  have hqAc := wayAccessWord_lt r hw113 hw114 hw115 hw116 hw117 hw118 hw119 hw120 hw121 hw122 hw123 hw124 hw125 hw126 hw127 hw128
  have hqB := wayBikeWord_lt r hw129 hw130 hw131 hw132 hw133 hw134 hw135 hw136 hw137 hw138 hw139 hw140 hw141
  have hwords : readWords osmwaySizes (osmwayBytes r ++ rest) =
      [r.osmwayid_ % 2 ^ 64, r.ref_index_ % 2 ^ 32, r.ref_lang_index_ % 2 ^ 32, 
       r.ref_left_index_ % 2 ^ 32, r.ref_left_lang_index_ % 2 ^ 32, 
       r.ref_right_index_ % 2 ^ 32, r.ref_right_lang_index_ % 2 ^ 32, 
       r.int_ref_index_ % 2 ^ 32, r.int_ref_lang_index_ % 2 ^ 32, 
       r.int_ref_left_index_ % 2 ^ 32, r.int_ref_left_lang_index_ % 2 ^ 32, 
       r.int_ref_right_index_ % 2 ^ 32, r.int_ref_right_lang_index_ % 2 ^ 32, 
       r.name_index_ % 2 ^ 32, r.name_lang_index_ % 2 ^ 32, r.name_left_index_ % 2 ^ 32, 
       r.name_left_lang_index_ % 2 ^ 32, r.name_right_index_ % 2 ^ 32, 
       r.name_right_lang_index_ % 2 ^ 32, r.name_forward_index_ % 2 ^ 32, 
       r.name_forward_lang_index_ % 2 ^ 32, r.name_backward_index_ % 2 ^ 32, 
       r.name_backward_lang_index_ % 2 ^ 32, r.alt_name_index_ % 2 ^ 32, 
       r.alt_name_lang_index_ % 2 ^ 32, r.alt_name_left_index_ % 2 ^ 32, 
       r.alt_name_left_lang_index_ % 2 ^ 32, r.alt_name_right_index_ % 2 ^ 32, 
       r.alt_name_right_lang_index_ % 2 ^ 32, r.official_name_index_ % 2 ^ 32, 
       r.official_name_lang_index_ % 2 ^ 32, r.official_name_left_index_ % 2 ^ 32, 
       r.official_name_left_lang_index_ % 2 ^ 32, r.official_name_right_index_ % 2 ^ 32, 
       r.official_name_right_lang_index_ % 2 ^ 32, r.tunnel_name_index_ % 2 ^ 32, 
       r.tunnel_name_lang_index_ % 2 ^ 32, r.tunnel_name_left_index_ % 2 ^ 32, 
       r.tunnel_name_left_lang_index_ % 2 ^ 32, r.tunnel_name_right_index_ % 2 ^ 32, 
       r.tunnel_name_right_lang_index_ % 2 ^ 32, r.fwd_turn_lanes_index_ % 2 ^ 32, 
       r.bwd_turn_lanes_index_ % 2 ^ 32, r.fwd_jct_base_index_ % 2 ^ 32, 
       r.bwd_jct_base_index_ % 2 ^ 32, r.fwd_jct_overlay_index_ % 2 ^ 32, 
       r.bwd_jct_overlay_index_ % 2 ^ 32, r.fwd_signboard_base_index_ % 2 ^ 32, 
       r.bwd_signboard_base_index_ % 2 ^ 32, r.destination_index_ % 2 ^ 32, 
       r.destination_lang_index_ % 2 ^ 32, r.destination_forward_index_ % 2 ^ 32, 
       r.destination_backward_index_ % 2 ^ 32, r.destination_forward_lang_index_ % 2 ^ 32, 
       r.destination_backward_lang_index_ % 2 ^ 32, r.destination_ref_index_ % 2 ^ 32, 
       r.destination_ref_lang_index_ % 2 ^ 32, r.destination_ref_to_index_ % 2 ^ 32, 
       r.destination_ref_to_lang_index_ % 2 ^ 32, r.destination_int_ref_index_ % 2 ^ 32, 
       r.destination_int_ref_to_index_ % 2 ^ 32, r.destination_street_index_ % 2 ^ 32, 
       r.destination_street_lang_index_ % 2 ^ 32, r.destination_street_to_index_ % 2 ^ 32, 
       r.destination_street_to_lang_index_ % 2 ^ 32, r.junction_name_index_ % 2 ^ 32, 
       r.junction_name_lang_index_ % 2 ^ 32, r.junction_ref_index_ % 2 ^ 32, 
       r.junction_ref_lang_index_ % 2 ^ 32, r.level_index_ % 2 ^ 32, 
       r.level_ref_index_ % 2 ^ 32, r.duration_ % 2 ^ 32, (wayAttrWord r) % 2 ^ 32, 
       (wayClassWord r) % 2 ^ 32, (wayAccessWord r) % 2 ^ 16, (wayBikeWord r) % 2 ^ 16, 
       r.nodecount_ % 2 ^ 16, r.speed_limit_ % 2 ^ 8, r.speed_ % 2 ^ 8, 
       r.backward_speed_ % 2 ^ 8, r.forward_speed_ % 2 ^ 8, r.truck_speed_ % 2 ^ 8, 
       r.truck_speed_forward_ % 2 ^ 8, r.truck_speed_backward_ % 2 ^ 8, r.layer_ % 2 ^ 8] := by
    unfold osmwayBytes
    rw [List.append_assoc,
      show osmwaySizes = (osmwayFields r).map Prod.fst from rfl,
      readWords_encodeFields]
    norm_num [osmwayFields]
  have hdrop : (osmwayBytes r ++ rest).drop sizeofOSMWay = rest := by
    rw [show sizeofOSMWay = (osmwayBytes r).length from (osmwayBytes_length r).symm,
      List.drop_left]
  unfold osmwayDecode
  rw [hwords, hdrop]
  rw [Nat.mod_eq_of_lt hw0, Nat.mod_eq_of_lt hw1, Nat.mod_eq_of_lt hw2, Nat.mod_eq_of_lt hw3, 
    Nat.mod_eq_of_lt hw4, Nat.mod_eq_of_lt hw5, Nat.mod_eq_of_lt hw6, Nat.mod_eq_of_lt hw7, 
    Nat.mod_eq_of_lt hw8, Nat.mod_eq_of_lt hw9, Nat.mod_eq_of_lt hw10, Nat.mod_eq_of_lt hw11, 
    Nat.mod_eq_of_lt hw12, Nat.mod_eq_of_lt hw13, Nat.mod_eq_of_lt hw14, 
    Nat.mod_eq_of_lt hw15, Nat.mod_eq_of_lt hw16, Nat.mod_eq_of_lt hw17, 
    Nat.mod_eq_of_lt hw18, Nat.mod_eq_of_lt hw19, Nat.mod_eq_of_lt hw20, 
    Nat.mod_eq_of_lt hw21, Nat.mod_eq_of_lt hw22, Nat.mod_eq_of_lt hw23, 
    Nat.mod_eq_of_lt hw24, Nat.mod_eq_of_lt hw25, Nat.mod_eq_of_lt hw26, 
    Nat.mod_eq_of_lt hw27, Nat.mod_eq_of_lt hw28, Nat.mod_eq_of_lt hw29, 
    Nat.mod_eq_of_lt hw30, Nat.mod_eq_of_lt hw31, Nat.mod_eq_of_lt hw32, 
    Nat.mod_eq_of_lt hw33, Nat.mod_eq_of_lt hw34, Nat.mod_eq_of_lt hw35, 
    Nat.mod_eq_of_lt hw36, Nat.mod_eq_of_lt hw37, Nat.mod_eq_of_lt hw38, 
    Nat.mod_eq_of_lt hw39, Nat.mod_eq_of_lt hw40, Nat.mod_eq_of_lt hw41, 
    Nat.mod_eq_of_lt hw42, Nat.mod_eq_of_lt hw43, Nat.mod_eq_of_lt hw44, 
    Nat.mod_eq_of_lt hw45, Nat.mod_eq_of_lt hw46, Nat.mod_eq_of_lt hw47, 
    Nat.mod_eq_of_lt hw48, Nat.mod_eq_of_lt hw49, Nat.mod_eq_of_lt hw50, 
    Nat.mod_eq_of_lt hw51, Nat.mod_eq_of_lt hw52, Nat.mod_eq_of_lt hw53, 
    Nat.mod_eq_of_lt hw54, Nat.mod_eq_of_lt hw55, Nat.mod_eq_of_lt hw56, 
    Nat.mod_eq_of_lt hw57, Nat.mod_eq_of_lt hw58, Nat.mod_eq_of_lt hw59, 
    Nat.mod_eq_of_lt hw60, Nat.mod_eq_of_lt hw61, Nat.mod_eq_of_lt hw62, 
    Nat.mod_eq_of_lt hw63, Nat.mod_eq_of_lt hw64, Nat.mod_eq_of_lt hw65, 
    Nat.mod_eq_of_lt hw66, Nat.mod_eq_of_lt hw67, Nat.mod_eq_of_lt hw68, 
    Nat.mod_eq_of_lt hw69, Nat.mod_eq_of_lt hw70, Nat.mod_eq_of_lt hw71, Nat.mod_eq_of_lt hqA, 
    Nat.mod_eq_of_lt hqC, Nat.mod_eq_of_lt hqAc, Nat.mod_eq_of_lt hqB, Nat.mod_eq_of_lt hw142, 
    Nat.mod_eq_of_lt hw143, Nat.mod_eq_of_lt hw144, Nat.mod_eq_of_lt hw145, 
    Nat.mod_eq_of_lt hw146, Nat.mod_eq_of_lt hw147, Nat.mod_eq_of_lt hw148, 
    Nat.mod_eq_of_lt hw149, Nat.mod_eq_of_lt hw150]
  simp only [osmwayOfWords]
  rw [wayAttrWord_x0 r hw72, wayAttrWord_x1 r hw72 hw73, wayAttrWord_x2 r hw72 hw73 hw74, 
    wayAttrWord_x3 r hw72 hw73 hw74 hw75, wayAttrWord_x4 r hw72 hw73 hw74 hw75 hw76, 
    wayAttrWord_x5 r hw72 hw73 hw74 hw75 hw76 hw77, 
    wayAttrWord_x6 r hw72 hw73 hw74 hw75 hw76 hw77 hw78, 
    wayAttrWord_x7 r hw72 hw73 hw74 hw75 hw76 hw77 hw78 hw79, 
    wayAttrWord_x8 r hw72 hw73 hw74 hw75 hw76 hw77 hw78 hw79 hw80, 
    wayAttrWord_x9 r hw72 hw73 hw74 hw75 hw76 hw77 hw78 hw79 hw80 hw81, 
    wayAttrWord_x10 r hw72 hw73 hw74 hw75 hw76 hw77 hw78 hw79 hw80 hw81 hw82, 
    wayAttrWord_x11 r hw72 hw73 hw74 hw75 hw76 hw77 hw78 hw79 hw80 hw81 hw82 hw83, 
    wayAttrWord_x12 r hw72 hw73 hw74 hw75 hw76 hw77 hw78 hw79 hw80 hw81 hw82 hw83 hw84, 
    wayAttrWord_x13 r hw72 hw73 hw74 hw75 hw76 hw77 hw78 hw79 hw80 hw81 hw82 hw83 hw84 hw85, 
    wayAttrWord_x14 r hw72 hw73 hw74 hw75 hw76 hw77 hw78 hw79 hw80 hw81 hw82 hw83 hw84 hw85 hw86, 
    wayAttrWord_x15 r hw72 hw73 hw74 hw75 hw76 hw77 hw78 hw79 hw80 hw81 hw82 hw83 hw84 hw85 hw86 hw87, 
    wayAttrWord_x16 r hw72 hw73 hw74 hw75 hw76 hw77 hw78 hw79 hw80 hw81 hw82 hw83 hw84 hw85 hw86 hw87 hw88, 
    wayAttrWord_x17 r hw72 hw73 hw74 hw75 hw76 hw77 hw78 hw79 hw80 hw81 hw82 hw83 hw84 hw85 hw86 hw87 hw88 hw89, 
    wayAttrWord_x18 r hw72 hw73 hw74 hw75 hw76 hw77 hw78 hw79 hw80 hw81 hw82 hw83 hw84 hw85 hw86 hw87 hw88 hw89 hw90, 
    wayAttrWord_x19 r hw72 hw73 hw74 hw75 hw76 hw77 hw78 hw79 hw80 hw81 hw82 hw83 hw84 hw85 hw86 hw87 hw88 hw89 hw90 hw91, 
    wayAttrWord_x20 r hw72 hw73 hw74 hw75 hw76 hw77 hw78 hw79 hw80 hw81 hw82 hw83 hw84 hw85 hw86 hw87 hw88 hw89 hw90 hw91 hw92, 
    wayAttrWord_x21 r hw72 hw73 hw74 hw75 hw76 hw77 hw78 hw79 hw80 hw81 hw82 hw83 hw84 hw85 hw86 hw87 hw88 hw89 hw90 hw91 hw92 hw93, 
    wayAttrWord_x22 r hw72 hw73 hw74 hw75 hw76 hw77 hw78 hw79 hw80 hw81 hw82 hw83 hw84 hw85 hw86 hw87 hw88 hw89 hw90 hw91 hw92 hw93 hw94, 
    wayAttrWord_x23 r hw72 hw73 hw74 hw75 hw76 hw77 hw78 hw79 hw80 hw81 hw82 hw83 hw84 hw85 hw86 hw87 hw88 hw89 hw90 hw91 hw92 hw93 hw94 hw95, 
    wayAttrWord_x24 r hw72 hw73 hw74 hw75 hw76 hw77 hw78 hw79 hw80 hw81 hw82 hw83 hw84 hw85 hw86 hw87 hw88 hw89 hw90 hw91 hw92 hw93 hw94 hw95 hw96, 
    wayClassWord_x0 r hw97, wayClassWord_x1 r hw97 hw98, wayClassWord_x2 r hw97 hw98 hw99, 
    wayClassWord_x3 r hw97 hw98 hw99 hw100, wayClassWord_x4 r hw97 hw98 hw99 hw100 hw101, 
    wayClassWord_x5 r hw97 hw98 hw99 hw100 hw101 hw102, 
    wayClassWord_x6 r hw97 hw98 hw99 hw100 hw101 hw102 hw103, 
    wayClassWord_x7 r hw97 hw98 hw99 hw100 hw101 hw102 hw103 hw104, 
    wayClassWord_x8 r hw97 hw98 hw99 hw100 hw101 hw102 hw103 hw104 hw105, 
    wayClassWord_x9 r hw97 hw98 hw99 hw100 hw101 hw102 hw103 hw104 hw105 hw106, 
    wayClassWord_x10 r hw97 hw98 hw99 hw100 hw101 hw102 hw103 hw104 hw105 hw106 hw107, 
    wayClassWord_x11 r hw97 hw98 hw99 hw100 hw101 hw102 hw103 hw104 hw105 hw106 hw107 hw108, 
    wayClassWord_x12 r hw97 hw98 hw99 hw100 hw101 hw102 hw103 hw104 hw105 hw106 hw107 hw108 hw109, 
    wayClassWord_x13 r hw97 hw98 hw99 hw100 hw101 hw102 hw103 hw104 hw105 hw106 hw107 hw108 hw109 hw110, 
    wayClassWord_x14 r hw97 hw98 hw99 hw100 hw101 hw102 hw103 hw104 hw105 hw106 hw107 hw108 hw109 hw110 hw111, 
    wayClassWord_x15 r hw97 hw98 hw99 hw100 hw101 hw102 hw103 hw104 hw105 hw106 hw107 hw108 hw109 hw110 hw111 hw112, 
    wayAccessWord_x0 r hw113, wayAccessWord_x1 r hw113 hw114, 
    wayAccessWord_x2 r hw113 hw114 hw115, wayAccessWord_x3 r hw113 hw114 hw115 hw116, 
    wayAccessWord_x4 r hw113 hw114 hw115 hw116 hw117, 
    wayAccessWord_x5 r hw113 hw114 hw115 hw116 hw117 hw118, 
    wayAccessWord_x6 r hw113 hw114 hw115 hw116 hw117 hw118 hw119, 
    wayAccessWord_x7 r hw113 hw114 hw115 hw116 hw117 hw118 hw119 hw120, 
    wayAccessWord_x8 r hw113 hw114 hw115 hw116 hw117 hw118 hw119 hw120 hw121, 
    wayAccessWord_x9 r hw113 hw114 hw115 hw116 hw117 hw118 hw119 hw120 hw121 hw122, 
    wayAccessWord_x10 r hw113 hw114 hw115 hw116 hw117 hw118 hw119 hw120 hw121 hw122 hw123, 
    wayAccessWord_x11 r hw113 hw114 hw115 hw116 hw117 hw118 hw119 hw120 hw121 hw122 hw123 hw124, 
    wayAccessWord_x12 r hw113 hw114 hw115 hw116 hw117 hw118 hw119 hw120 hw121 hw122 hw123 hw124 hw125, 
    wayAccessWord_x13 r hw113 hw114 hw115 hw116 hw117 hw118 hw119 hw120 hw121 hw122 hw123 hw124 hw125 hw126, 
    wayAccessWord_x14 r hw113 hw114 hw115 hw116 hw117 hw118 hw119 hw120 hw121 hw122 hw123 hw124 hw125 hw126 hw127, 
    wayAccessWord_x15 r hw113 hw114 hw115 hw116 hw117 hw118 hw119 hw120 hw121 hw122 hw123 hw124 hw125 hw126 hw127 hw128, 
    wayBikeWord_x0 r hw129, wayBikeWord_x1 r hw129 hw130, wayBikeWord_x2 r hw129 hw130 hw131, 
    wayBikeWord_x3 r hw129 hw130 hw131 hw132, wayBikeWord_x4 r hw129 hw130 hw131 hw132 hw133, 
    wayBikeWord_x5 r hw129 hw130 hw131 hw132 hw133 hw134, 
    wayBikeWord_x6 r hw129 hw130 hw131 hw132 hw133 hw134 hw135, 
    wayBikeWord_x7 r hw129 hw130 hw131 hw132 hw133 hw134 hw135 hw136, 
    wayBikeWord_x8 r hw129 hw130 hw131 hw132 hw133 hw134 hw135 hw136 hw137, 
    wayBikeWord_x9 r hw129 hw130 hw131 hw132 hw133 hw134 hw135 hw136 hw137 hw138, 
    wayBikeWord_x10 r hw129 hw130 hw131 hw132 hw133 hw134 hw135 hw136 hw137 hw138 hw139, 
    wayBikeWord_x11 r hw129 hw130 hw131 hw132 hw133 hw134 hw135 hw136 hw137 hw138 hw139 hw140, 
    wayBikeWord_x12 r hw129 hw130 hw131 hw132 hw133 hw134 hw135 hw136 hw137 hw138 hw139 hw140 hw141]

/-- The `OSMWayNode` struct from `c_code/valhalla.h`: one embedded `OSMNode`
plus two 32-bit indices binding the node to a position in a way's shape. -/
structure OSMWayNode where
  node : OSMNode
  way_index : Nat
  way_shape_node_index : Nat

/-- Well-formedness of an `OSMWayNode` value. -/
abbrev WFWayNode (r : OSMWayNode) : Prop :=
  WFNode r.node ∧ r.way_index < 2 ^ 32 ∧ r.way_shape_node_index < 2 ^ 32

/-- The all-zero `OSMWayNode`, the image of a record zeroed by `memset`. -/
def waynodeZero : OSMWayNode := ⟨nodeZero, 0, 0⟩

/-- `sizeof(struct OSMWayNode)`: the embedded node (48) plus two 32-bit
indices. -/
def sizeofOSMWayNode : Nat := 56

/-- The 56-byte memory image of an `OSMWayNode` value: the embedded node's
image followed by the two indices, little-endian. -/
def osmwaynodeBytes (r : OSMWayNode) : List Nat :=
  osmnodeBytes r.node ++ (toLE 4 r.way_index ++ toLE 4 r.way_shape_node_index)

/-- Reinterpret the front of a byte list as one `OSMWayNode` (the effect of
`fread` into the struct), returning the remaining bytes. -/
def osmwaynodeDecode (bs : List Nat) : OSMWayNode × List Nat :=
  (⟨(osmnodeDecode bs).1,
    (readLE 4 (osmnodeDecode bs).2).1,
    (readLE 4 (readLE 4 (osmnodeDecode bs).2).2).1⟩,
   (readLE 4 (readLE 4 (osmnodeDecode bs).2).2).2)

theorem osmwaynodeBytes_length (r : OSMWayNode) :
    (osmwaynodeBytes r).length = sizeofOSMWayNode := by
  simp [osmwaynodeBytes, osmnodeBytes_length, toLE_length, sizeofOSMNode,
    sizeofOSMWayNode]

theorem osmwaynodeDecode_bytes (r : OSMWayNode) (rest : List Nat)
    (h : WFWayNode r) :
    osmwaynodeDecode (osmwaynodeBytes r ++ rest) = (r, rest) := by
  obtain ⟨hnode, hv1, hv2⟩ := h
  simp only [osmwaynodeDecode, osmwaynodeBytes, List.append_assoc]
  rw [osmnodeDecode_bytes r.node _ hnode]
  simp only [readLE4]
  rw [Nat.mod_eq_of_lt hv1, Nat.mod_eq_of_lt hv2]
/-- Read `count` consecutive records from the front of a byte list with the
given single-record reader: the effect of `fread(buffer, sizeof(T), count,
inFile)` followed by typed access. -/
def decodeArray {α : Type} (dec : List Nat → α × List Nat) : Nat → List Nat → List α
  | 0, _ => []
  | n + 1, bs => (dec bs).1 :: decodeArray dec n (dec bs).2

theorem decodeArray_flatten {α : Type} (enc : α → List Nat)
    (dec : List Nat → α × List Nat) (P : α → Prop)
    (hdec : ∀ r rest, P r → dec (enc r ++ rest) = (r, rest)) :
    ∀ (l : List α) (rest : List Nat), (∀ r ∈ l, P r) →
      decodeArray dec l.length ((l.map enc).flatten ++ rest) = l := by
  intro l
  induction l with
  | nil => intro rest h; rfl
  | cons x xs ih =>
      intro rest h
      have hx : P x := h x (List.mem_cons_self x xs)
      simp only [List.map_cons, List.flatten_cons, List.length_cons,
        decodeArray, List.append_assoc]
      rw [hdec x ((xs.map enc).flatten ++ rest) hx]
      show x :: decodeArray dec xs.length ((xs.map enc).flatten ++ rest) = x :: xs
      rw [ih rest (fun r hr => h r (List.mem_cons_of_mem x hr))]

theorem flatten_map_length {α : Type} (enc : α → List Nat) (k : Nat)
    (hk : ∀ r, (enc r).length = k) :
    ∀ l : List α, ((l.map enc).flatten).length = l.length * k := by
  intro l
  induction l with
  | nil => simp
  | cons x xs ih =>
      simp only [List.map_cons, List.flatten_cons, List.length_append,
        List.length_cons, hk, ih, Nat.succ_mul]
      omega

theorem drop_append_block {α : Type} (l₂ : List α) (n : Nat) :
    ∀ l₁ : List α, (l₁ ++ l₂).drop (l₁.length + n) = l₂.drop n := by
  intro l₁
  induction l₁ with
  | nil => simp
  | cons b bs ih =>
      rw [List.cons_append, List.length_cons,
        show bs.length + 1 + n = (bs.length + n) + 1 from by omega,
        List.drop_succ_cons, ih]

theorem flatten_map_segment {α : Type} (enc : α → List Nat) (k : Nat)
    (hk : ∀ r, (enc r).length = k) (d : α) :
    ∀ (l : List α) (i : Nat), i < l.length →
      (((l.map enc).flatten).drop (i * k)).take k = enc (l.getD i d) := by
  intro l
  induction l with
  | nil => intro i h; exact absurd h (Nat.not_lt_zero i)
  | cons x xs ih =>
      intro i hi
      cases i with
      | zero =>
          simp only [List.map_cons, List.flatten_cons, Nat.zero_mul,
            List.drop_zero, List.getD_cons_zero]
          rw [← hk x, List.take_left]
      | succ i =>
          simp only [List.map_cons, List.flatten_cons, List.getD_cons_succ]
          rw [show (i + 1) * k = (enc x).length + i * k from by
                rw [hk x, Nat.succ_mul, Nat.add_comm],
            drop_append_block]
          exact ih i (by simp at hi; omega)

theorem getD_take {α : Type} (d : α) :
    ∀ (l : List α) (n i : Nat), i < n → (l.take n).getD i d = l.getD i d := by
  intro l
  induction l with
  | nil => intro n i h; rw [List.take_nil]
  | cons x xs ih =>
      intro n i h
      cases n with
      | zero => exact absurd h (Nat.not_lt_zero i)
      | succ n =>
          cases i with
          | zero => rw [List.take_succ_cons, List.getD_cons_zero, List.getD_cons_zero]
          | succ i =>
              rw [List.take_succ_cons, List.getD_cons_succ, List.getD_cons_succ]
              exact ih n i (by omega)

theorem get?_replicate_append {α : Type} (z : α) (t : List α) :
    ∀ n i : Nat, i < n → (List.replicate n z ++ t).get? i = some z := by
  intro n
  induction n with
  | zero => intro i h; exact absurd h (Nat.not_lt_zero i)
  | succ n ih =>
      intro i h
      cases i with
      | zero => rfl
      | succ i => exact ih i (by omega)

theorem get?_replicate {α : Type} (z : α) :
    ∀ n i : Nat, i < n → (List.replicate n z).get? i = some z := by
  intro n
  induction n with
  | zero => intro i h; exact absurd h (Nat.not_lt_zero i)
  | succ n ih =>
      intro i h
      cases i with
      | zero => rfl
      | succ i => exact ih i (by omega)

theorem getD_set_self {α : Type} (d : α) :
    ∀ (l : List α) (i : Nat) (v : α), i < l.length → (l.set i v).getD i d = v := by
  intro l
  induction l with
  | nil => intro i v h; exact absurd h (Nat.not_lt_zero i)
  | cons x xs ih =>
      intro i v h
      cases i with
      | zero => rfl
      | succ i => exact ih i v (by simp at h; omega)

/-! ## Array lifecycle and bulk file I/O

The operations of `c/osmway.c` and `c/osmdata.c`. An array is a `List` of
records; a file is the `List Nat` of its bytes. -/

/-- `osmway_new(count)`: `malloc` followed by `memset(0)` — a fresh
zero-initialized array of `count` records. -/
def osmway_new (count : Nat) : List OSMWay :=
  List.replicate count wayZero

/-- `osmway_clear(s, count)`: `memset(s, 0, sizeof(struct OSMWay) * count)` —
zero-fills the first `count` records in place (the caller guarantees `count`
does not exceed the array's length). -/
def osmway_clear (a : List OSMWay) (count : Nat) : List OSMWay :=
  List.replicate count wayZero ++ a.drop count

/-- `osmway_export(s, count, fileName)`: `fwrite` of `count` records as raw
contiguous bytes, no header or framing; returns the file's bytes together
with the function's return value, which is the constant `1` — the C code
performs no error checking (its own comment: "TODO: error checking"). -/
def osmway_export (a : List OSMWay) (count : Nat) : List Nat × Int :=
  (((a.take count).map osmwayBytes).flatten, 1)

/-- `osmway_import(fileName, buffer, count)`: recovers the count as
`ftell(inFile) / sizeof(struct OSMWay)` — truncating integer division, with
no check that the size divides evenly (the C comment: "TODO: make sure file
size is exactly a multiple of sizeof(struct OSMWay)") — then `fread`s that
many records. The argument is the opened file's byte contents. -/
def osmway_import (bs : List Nat) : List OSMWay × Nat :=
  (decodeArray osmwayDecode (bs.length / sizeofOSMWay) bs,
   bs.length / sizeofOSMWay)

/-- `osmwaynode_new(count)`: `malloc` followed by `memset(0)`. -/
def osmwaynode_new (count : Nat) : List OSMWayNode :=
  List.replicate count waynodeZero

/-- `osmwaynode_clear(s, count)`: `memset` of the first `count` records. -/
def osmwaynode_clear (a : List OSMWayNode) (count : Nat) : List OSMWayNode :=
  List.replicate count waynodeZero ++ a.drop count

/-- `osmwaynode_export(s, count, fileName)`: `fwrite` of `count` raw records;
returns the bytes and the constant `1` (no error checking). -/
def osmwaynode_export (a : List OSMWayNode) (count : Nat) : List Nat × Int :=
  (((a.take count).map osmwaynodeBytes).flatten, 1)

/-- `osmwaynode_import(fileName, buffer, count)`: count from file size by
truncating division, then `fread` of that many records. -/
def osmwaynode_import (bs : List Nat) : List OSMWayNode × Nat :=
  (decodeArray osmwaynodeDecode (bs.length / sizeofOSMWayNode) bs,
   bs.length / sizeofOSMWayNode)

/-- Modelled from the spec: `osmnode_export` — the `OSMNode` bulk export.
`osmnode.c` is referenced by the source (the comment "similar to
osmnode_import etc" in `osmway.c`) but is not part of this source tree; per
the spec's bulk-I/O description the export writes `count` records as raw
contiguous bytes with no framing and returns the reference implementation's
constant success. -/
def osmnode_export (a : List OSMNode) (count : Nat) : List Nat × Int :=
  (((a.take count).map osmnodeBytes).flatten, 1)

/-- Modelled from the spec: `osmnode_import` — the `OSMNode` bulk import
(its file is not part of this source tree): opens the file, derives the
count from the byte length divided by the record size, and reads the
records verbatim. -/
def osmnode_import (bs : List Nat) : List OSMNode × Nat :=
  (decodeArray osmnodeDecode (bs.length / sizeofOSMNode) bs,
   bs.length / sizeofOSMNode)

/-- `osmwaynode_set_node(s, index, value)`: `memcpy` of `value` over the
embedded `node` of slot `index`; the slot's two index fields and all other
slots are untouched. The C code performs no bounds check (out-of-range
`index` is undefined behavior; this model leaves the list unchanged). -/
def osmwaynode_set_node : List OSMWayNode → Nat → OSMNode → List OSMWayNode
  | [], _, _ => []
  | r :: tl, 0, v => { r with node := v } :: tl
  | r :: tl, i + 1, v => r :: osmwaynode_set_node tl i v

/-- `osmwaynode_get_node(s, index, value)`: `memcpy` of the embedded `node`
of slot `index` out to the caller (no bounds check in the C code). -/
def osmwaynode_get_node (a : List OSMWayNode) (index : Nat) : OSMNode :=
  (a.getD index waynodeZero).node

/-- The record written by `osmway_set_to_valhalla`: `memset(0)` of the slot,
then the id, name index and node count assignments — each truncated to the
field's width exactly as the C assignment of a `uint64_t` argument to the
narrower field does — and the fixed Valhalla default profile: surface 3
(kCompacted), drive-on-right 1, road class 7 (kServiceOther), use 25
(kFootway), has-user-tags 0, pedestrian forward and backward 1, speed 25. -/
def osmwayValhallaRecord (osmid name_index nodecount : Nat) : OSMWay :=
  { wayZero with
      osmwayid_ := osmid % 2 ^ 64
      name_index_ := name_index % 2 ^ 32
      nodecount_ := nodecount % 2 ^ 16
      surface_ := 3
      drive_on_right_ := 1
      road_class_ := 7
      use_ := 25
      has_user_tags_ := 0
      pedestrian_forward_ := 1
      pedestrian_backward_ := 1
      speed_ := 25 }

/-- `osmway_set_to_valhalla(s, index, osmid, name_index, nodecount)`:
overwrites slot `index` with the default-populated record (no bounds
check in the C code). -/
def osmway_set_to_valhalla (a : List OSMWay)
    (index osmid name_index nodecount : Nat) : List OSMWay :=
  a.set index (osmwayValhallaRecord osmid name_index nodecount)

theorem osmway_import_export (a : List OSMWay) (h : ∀ r ∈ a, WFWay r) :
    osmway_import (osmway_export a a.length).1 = (a, a.length) := by
  unfold osmway_import osmway_export
  rw [List.take_length,
    flatten_map_length osmwayBytes sizeofOSMWay osmwayBytes_length a,
    Nat.mul_div_cancel _ (by decide : 0 < sizeofOSMWay)]
  have hd := decodeArray_flatten osmwayBytes osmwayDecode WFWay
    osmwayDecode_bytes a [] h
  rw [List.append_nil] at hd
  rw [hd]

theorem osmnode_import_export (a : List OSMNode) (h : ∀ r ∈ a, WFNode r) :
    osmnode_import (osmnode_export a a.length).1 = (a, a.length) := by
  unfold osmnode_import osmnode_export
  rw [List.take_length,
    flatten_map_length osmnodeBytes sizeofOSMNode osmnodeBytes_length a,
    Nat.mul_div_cancel _ (by decide : 0 < sizeofOSMNode)]
  have hd := decodeArray_flatten osmnodeBytes osmnodeDecode WFNode
    osmnodeDecode_bytes a [] h
  rw [List.append_nil] at hd
  rw [hd]

theorem osmwaynode_import_export (a : List OSMWayNode)
    (h : ∀ r ∈ a, WFWayNode r) :
    osmwaynode_import (osmwaynode_export a a.length).1 = (a, a.length) := by
  unfold osmwaynode_import osmwaynode_export
  rw [List.take_length,
    flatten_map_length osmwaynodeBytes sizeofOSMWayNode osmwaynodeBytes_length a,
    Nat.mul_div_cancel _ (by decide : 0 < sizeofOSMWayNode)]
  have hd := decodeArray_flatten osmwaynodeBytes osmwaynodeDecode WFWayNode
    osmwaynodeDecode_bytes a [] h
  rw [List.append_nil] at hd
  rw [hd]
theorem set_node_length (a : List OSMWayNode) :
    ∀ (i : Nat) (n : OSMNode), (osmwaynode_set_node a i n).length = a.length := by
  induction a with
  | nil => intro i n; rfl
  | cons x xs ih =>
      intro i n
      cases i with
      | zero => rfl
      | succ i =>
          show (x :: osmwaynode_set_node xs i n).length = (x :: xs).length
          rw [List.length_cons, List.length_cons, ih i n]

theorem set_node_get?_other (a : List OSMWayNode) :
    ∀ (i j : Nat) (n : OSMNode), j ≠ i →
      (osmwaynode_set_node a i n).get? j = a.get? j := by
  induction a with
  | nil => intro i j n hne; rfl
  | cons x xs ih =>
      intro i j n hne
      cases i with
      | zero =>
          cases j with
          | zero => exact absurd rfl hne
          | succ j => rfl
      | succ i =>
          cases j with
          | zero => rfl
          | succ j =>
              show (x :: osmwaynode_set_node xs i n).get? (j + 1) = (x :: xs).get? (j + 1)
              rw [List.get?_cons_succ, List.get?_cons_succ]
              exact ih i j n (fun hh => hne (congrArg Nat.succ hh))

theorem set_node_same_indices (a : List OSMWayNode) :
    ∀ (i : Nat) (n : OSMNode), i < a.length →
      ((osmwaynode_set_node a i n).getD i waynodeZero).way_index =
        (a.getD i waynodeZero).way_index ∧
      ((osmwaynode_set_node a i n).getD i waynodeZero).way_shape_node_index =
        (a.getD i waynodeZero).way_shape_node_index := by
  induction a with
  | nil => intro i n h; exact absurd h (Nat.not_lt_zero i)
  | cons x xs ih =>
      intro i n h
      cases i with
      | zero => exact ⟨rfl, rfl⟩
      | succ i =>
          have h' : i < xs.length := by
            rw [List.length_cons] at h
            omega
          show ((x :: osmwaynode_set_node xs i n).getD (i + 1) waynodeZero).way_index = _ ∧
            ((x :: osmwaynode_set_node xs i n).getD (i + 1) waynodeZero).way_shape_node_index = _
          rw [List.getD_cons_succ, List.getD_cons_succ]
          exact ih i n h'

/-- C1: Round-trip — for every array `A` of `N` records, of any of the three
record types `OSMWay`, `OSMNode` and `OSMWayNode`, exporting `A` with count
`N` and importing the produced file yields an array byte-for-byte equal to
`A` together with a recovered count equal to `N`; the universal statement
covers in particular N = 0, N = 1 and N = 1000. -/
theorem roundtrip_export_import :
    (∀ a : List OSMWay, (∀ r ∈ a, WFWay r) →
      osmway_import (osmway_export a a.length).1 = (a, a.length)) ∧
    (∀ a : List OSMNode, (∀ r ∈ a, WFNode r) →
      osmnode_import (osmnode_export a a.length).1 = (a, a.length)) ∧
    (∀ a : List OSMWayNode, (∀ r ∈ a, WFWayNode r) →
      osmwaynode_import (osmwaynode_export a a.length).1 = (a, a.length)) :=
  ⟨osmway_import_export, osmnode_import_export, osmwaynode_import_export⟩

/-- Witness for C1 at concrete one-record arrays of each type. -/
theorem roundtrip_export_import_witness :
    osmway_import (osmway_export [wayZero] 1).1 = ([wayZero], 1) ∧
    osmnode_import (osmnode_export [nodeZero] 1).1 = ([nodeZero], 1) ∧
    osmwaynode_import (osmwaynode_export [waynodeZero] 1).1 = ([waynodeZero], 1) :=
  ⟨roundtrip_export_import.1 [wayZero] (by decide),
   roundtrip_export_import.2.1 [nodeZero] (by decide),
   roundtrip_export_import.2.2 [waynodeZero] (by decide)⟩

/-- C2 (code bug): the reference `osmway_import` always recovers
`fileSize / sizeof(struct OSMWay)` by truncating integer division and has no
error channel at all: a 321-byte file — whose length is not a multiple of
`sizeof(struct OSMWay) = 320` — yields the silently truncated count 1
instead of the corruption/truncation error the specification requires, and
an unopenable file cannot be reported either. -/
theorem import_count_truncates :
    (∀ bs : List Nat, (osmway_import bs).2 = bs.length / sizeofOSMWay) ∧
    (osmway_import (List.replicate 321 0)).2 = 1 ∧
    ¬ 321 % sizeofOSMWay = 0 :=
  ⟨fun _ => rfl, by decide, by decide⟩

/-- C3: export produces exactly `count × sizeof(record)` bytes: byte segment
`i` is precisely record `i`'s memory image, back-to-back, with no header,
footer, magic number, version tag or length prefix. -/
theorem export_exact_layout :
    (∀ (a : List OSMWay) (count : Nat), count ≤ a.length →
      (osmway_export a count).1.length = count * sizeofOSMWay ∧
      ∀ i, i < count →
        ((osmway_export a count).1.drop (i * sizeofOSMWay)).take sizeofOSMWay =
          osmwayBytes (a.getD i wayZero)) ∧
    (∀ (a : List OSMWayNode) (count : Nat), count ≤ a.length →
      (osmwaynode_export a count).1.length = count * sizeofOSMWayNode ∧
      ∀ i, i < count →
        ((osmwaynode_export a count).1.drop
            (i * sizeofOSMWayNode)).take sizeofOSMWayNode =
          osmwaynodeBytes (a.getD i waynodeZero)) := by
  constructor
  · intro a count hc
    constructor
    · show ((a.take count).map osmwayBytes).flatten.length = count * sizeofOSMWay
      rw [flatten_map_length osmwayBytes sizeofOSMWay osmwayBytes_length,
        List.length_take, Nat.min_eq_left hc]
    · intro i hi
      have hseg := flatten_map_segment osmwayBytes sizeofOSMWay
        osmwayBytes_length wayZero (a.take count) i
        (by rw [List.length_take]; omega)
      show (((a.take count).map osmwayBytes).flatten.drop
        (i * sizeofOSMWay)).take sizeofOSMWay = _
      rw [hseg, getD_take wayZero a count i hi]
  · intro a count hc
    constructor
    · show ((a.take count).map osmwaynodeBytes).flatten.length =
        count * sizeofOSMWayNode
      rw [flatten_map_length osmwaynodeBytes sizeofOSMWayNode
        osmwaynodeBytes_length, List.length_take, Nat.min_eq_left hc]
    · intro i hi
      have hseg := flatten_map_segment osmwaynodeBytes sizeofOSMWayNode
        osmwaynodeBytes_length waynodeZero (a.take count) i
        (by rw [List.length_take]; omega)
      show (((a.take count).map osmwaynodeBytes).flatten.drop
        (i * sizeofOSMWayNode)).take sizeofOSMWayNode = _
      rw [hseg, getD_take waynodeZero a count i hi]

/-- Witness for C3 at one-record arrays. -/
theorem export_exact_layout_witness :
    (osmway_export [wayZero] 1).1.length = 1 * sizeofOSMWay ∧
    ((osmway_export [wayZero] 1).1.drop (0 * sizeofOSMWay)).take sizeofOSMWay =
      osmwayBytes ([wayZero].getD 0 wayZero) ∧
    (osmwaynode_export [waynodeZero] 1).1.length = 1 * sizeofOSMWayNode ∧
    ((osmwaynode_export [waynodeZero] 1).1.drop
        (0 * sizeofOSMWayNode)).take sizeofOSMWayNode =
      osmwaynodeBytes ([waynodeZero].getD 0 waynodeZero) :=
  ⟨(export_exact_layout.1 [wayZero] 1 (by decide)).1,
   (export_exact_layout.1 [wayZero] 1 (by decide)).2 0 (by decide),
   (export_exact_layout.2 [waynodeZero] 1 (by decide)).1,
   (export_exact_layout.2 [waynodeZero] 1 (by decide)).2 0 (by decide)⟩

/-- C6: storing a node with `osmwaynode_set_node` at a valid index and
reading it back with `osmwaynode_get_node` at the same index returns a node
equal to the one stored. -/
theorem set_get_node (a : List OSMWayNode) (i : Nat) (n : OSMNode)
    (h : i < a.length) :
    osmwaynode_get_node (osmwaynode_set_node a i n) i = n := by
  induction a generalizing i with
  | nil => exact absurd h (Nat.not_lt_zero i)
  | cons x xs ih =>
      cases i with
      | zero => rfl
      | succ i =>
          have h' : i < xs.length := by
            rw [List.length_cons] at h
            omega
          show osmwaynode_get_node (x :: osmwaynode_set_node xs i n) (i + 1) = n
          show ((osmwaynode_set_node xs i n).getD i waynodeZero).node = n
          exact ih i h'

/-- Witness for C6 at a one-record array with a non-zero node. -/
theorem set_get_node_witness :
    osmwaynode_get_node
      (osmwaynode_set_node [waynodeZero] 0 { nodeZero with osmid_ := 5 }) 0 =
      { nodeZero with osmid_ := 5 } :=
  set_get_node [waynodeZero] 0 { nodeZero with osmid_ := 5 } (by decide)

/-- C8 (code bug): the reference export functions return the constant `1`
(success) for every input: there is no path that reports "cannot open
destination" or "partial write" distinctly — or at all. -/
theorem export_returns_one :
    (∀ (a : List OSMWay) (count : Nat), (osmway_export a count).2 = 1) ∧
    (∀ (b : List OSMWayNode) (count : Nat), (osmwaynode_export b count).2 = 1) :=
  ⟨fun _ _ => rfl, fun _ _ => rfl⟩

/-- C9: `osmwaynode_set_node` at a valid index `i` changes only the embedded
node of slot `i`: the array's length, the slot's `way_index` and
`way_shape_node_index`, and every slot `j ≠ i` are unchanged. -/
theorem set_node_frame (a : List OSMWayNode) (i : Nat) (n : OSMNode)
    (h : i < a.length) :
    (osmwaynode_set_node a i n).length = a.length ∧
    ((osmwaynode_set_node a i n).getD i waynodeZero).way_index =
      (a.getD i waynodeZero).way_index ∧
    ((osmwaynode_set_node a i n).getD i waynodeZero).way_shape_node_index =
      (a.getD i waynodeZero).way_shape_node_index ∧
    ∀ j, j ≠ i → (osmwaynode_set_node a i n).get? j = a.get? j :=
  ⟨set_node_length a i n, (set_node_same_indices a i n h).1,
   (set_node_same_indices a i n h).2,
   fun j hj => set_node_get?_other a i j n hj⟩

/-- Witness for C9: a two-record array, overwriting slot 0's node and
checking slot 1 and the slot-0 indices via the frame theorem. -/
theorem set_node_frame_witness :
    (osmwaynode_set_node [⟨nodeZero, 3, 4⟩, waynodeZero] 0
      { nodeZero with osmid_ := 9 }).length = 2 ∧
    ((osmwaynode_set_node [⟨nodeZero, 3, 4⟩, waynodeZero] 0
        { nodeZero with osmid_ := 9 }).getD 0 waynodeZero).way_index =
      ([(⟨nodeZero, 3, 4⟩ : OSMWayNode), waynodeZero].getD 0 waynodeZero).way_index ∧
    (osmwaynode_set_node [⟨nodeZero, 3, 4⟩, waynodeZero] 0
      { nodeZero with osmid_ := 9 }).get? 1 =
      [(⟨nodeZero, 3, 4⟩ : OSMWayNode), waynodeZero].get? 1 :=
  have hf := set_node_frame [⟨nodeZero, 3, 4⟩, waynodeZero] 0
    { nodeZero with osmid_ := 9 } (by decide)
  ⟨hf.1, hf.2.1, hf.2.2.2 1 (by decide)⟩

/-- C10: `osmway_set_to_valhalla` takes its name-table index and node count
as 64-bit arguments but stores them into a 32-bit and a 16-bit field: the
stored values are the arguments modulo `2 ^ 32` and `2 ^ 16`, so a node
count of 65536 is silently wrapped to 0, never rejected. -/
theorem set_to_valhalla_truncation :
    (∀ osmid name_index nodecount : Nat,
      (osmwayValhallaRecord osmid name_index nodecount).name_index_ =
        name_index % 2 ^ 32 ∧
      (osmwayValhallaRecord osmid name_index nodecount).nodecount_ =
        nodecount % 2 ^ 16) ∧
    (osmwayValhallaRecord 42 7 65536).nodecount_ = 0 :=
  ⟨fun _ _ _ => ⟨rfl, rfl⟩, by decide⟩
/-- C4 (amended): for every identity, name-table index and node count and
every valid index, `osmway_set_to_valhalla` writes a record whose id is the
identity (as the C function's 64-bit argument), whose name index is the
name-table index modulo `2 ^ 32` and whose node count is the node count
modulo `2 ^ 16` — hence equal to the inputs whenever they fit their fields,
as for identity 42, name index 7, node count 3 — whose surface is 3
(compacted), drive-on-right 1 (true), road class 7 (service/other), use 25
(footway), pedestrian-forward 1, pedestrian-backward 1, speed 25 and
has-user-tags 0 (false), and every other field equal to zero. -/
theorem set_to_valhalla_defaults (a : List OSMWay)
    (index osmid name_index nodecount : Nat) (h : index < a.length) :
    (osmway_set_to_valhalla a index osmid name_index nodecount).getD index wayZero =
      osmwayValhallaRecord osmid name_index nodecount ∧
    (osmwayValhallaRecord osmid name_index nodecount).osmwayid_ = osmid % 2 ^ 64 ∧ 
    (osmwayValhallaRecord osmid name_index nodecount).ref_index_ = 0 ∧ 
    (osmwayValhallaRecord osmid name_index nodecount).ref_lang_index_ = 0 ∧ 
    (osmwayValhallaRecord osmid name_index nodecount).ref_left_index_ = 0 ∧ 
    (osmwayValhallaRecord osmid name_index nodecount).ref_left_lang_index_ = 0 ∧ 
    (osmwayValhallaRecord osmid name_index nodecount).ref_right_index_ = 0 ∧ 
    (osmwayValhallaRecord osmid name_index nodecount).ref_right_lang_index_ = 0 ∧ 
    (osmwayValhallaRecord osmid name_index nodecount).int_ref_index_ = 0 ∧ 
    (osmwayValhallaRecord osmid name_index nodecount).int_ref_lang_index_ = 0 ∧ 
    (osmwayValhallaRecord osmid name_index nodecount).int_ref_left_index_ = 0 ∧ 
    (osmwayValhallaRecord osmid name_index nodecount).int_ref_left_lang_index_ = 0 ∧ 
    (osmwayValhallaRecord osmid name_index nodecount).int_ref_right_index_ = 0 ∧ 
    (osmwayValhallaRecord osmid name_index nodecount).int_ref_right_lang_index_ = 0 ∧ 
    (osmwayValhallaRecord osmid name_index nodecount).name_index_ = name_index % 2 ^ 32 ∧ 
    (osmwayValhallaRecord osmid name_index nodecount).name_lang_index_ = 0 ∧ 
    (osmwayValhallaRecord osmid name_index nodecount).name_left_index_ = 0 ∧ 
    (osmwayValhallaRecord osmid name_index nodecount).name_left_lang_index_ = 0 ∧ 
    (osmwayValhallaRecord osmid name_index nodecount).name_right_index_ = 0 ∧ 
    (osmwayValhallaRecord osmid name_index nodecount).name_right_lang_index_ = 0 ∧ 
    (osmwayValhallaRecord osmid name_index nodecount).name_forward_index_ = 0 ∧ 
    (osmwayValhallaRecord osmid name_index nodecount).name_forward_lang_index_ = 0 ∧ 
    (osmwayValhallaRecord osmid name_index nodecount).name_backward_index_ = 0 ∧ 
    (osmwayValhallaRecord osmid name_index nodecount).name_backward_lang_index_ = 0 ∧ 
    (osmwayValhallaRecord osmid name_index nodecount).alt_name_index_ = 0 ∧ 
    (osmwayValhallaRecord osmid name_index nodecount).alt_name_lang_index_ = 0 ∧ 
    (osmwayValhallaRecord osmid name_index nodecount).alt_name_left_index_ = 0 ∧ 
    (osmwayValhallaRecord osmid name_index nodecount).alt_name_left_lang_index_ = 0 ∧ 
    (osmwayValhallaRecord osmid name_index nodecount).alt_name_right_index_ = 0 ∧ 
    (osmwayValhallaRecord osmid name_index nodecount).alt_name_right_lang_index_ = 0 ∧ 
    (osmwayValhallaRecord osmid name_index nodecount).official_name_index_ = 0 ∧ 
    (osmwayValhallaRecord osmid name_index nodecount).official_name_lang_index_ = 0 ∧ 
    (osmwayValhallaRecord osmid name_index nodecount).official_name_left_index_ = 0 ∧ 
    (osmwayValhallaRecord osmid name_index nodecount).official_name_left_lang_index_ = 0 ∧ 
    (osmwayValhallaRecord osmid name_index nodecount).official_name_right_index_ = 0 ∧ 
    (osmwayValhallaRecord osmid name_index nodecount).official_name_right_lang_index_ = 0 ∧ 
    (osmwayValhallaRecord osmid name_index nodecount).tunnel_name_index_ = 0 ∧ 
    (osmwayValhallaRecord osmid name_index nodecount).tunnel_name_lang_index_ = 0 ∧ 
    (osmwayValhallaRecord osmid name_index nodecount).tunnel_name_left_index_ = 0 ∧ 
    (osmwayValhallaRecord osmid name_index nodecount).tunnel_name_left_lang_index_ = 0 ∧ 
    (osmwayValhallaRecord osmid name_index nodecount).tunnel_name_right_index_ = 0 ∧ 
    (osmwayValhallaRecord osmid name_index nodecount).tunnel_name_right_lang_index_ = 0 ∧ 
    (osmwayValhallaRecord osmid name_index nodecount).fwd_turn_lanes_index_ = 0 ∧ 
    (osmwayValhallaRecord osmid name_index nodecount).bwd_turn_lanes_index_ = 0 ∧ 
    (osmwayValhallaRecord osmid name_index nodecount).fwd_jct_base_index_ = 0 ∧ 
    (osmwayValhallaRecord osmid name_index nodecount).bwd_jct_base_index_ = 0 ∧ 
    (osmwayValhallaRecord osmid name_index nodecount).fwd_jct_overlay_index_ = 0 ∧ 
    (osmwayValhallaRecord osmid name_index nodecount).bwd_jct_overlay_index_ = 0 ∧ 
    (osmwayValhallaRecord osmid name_index nodecount).fwd_signboard_base_index_ = 0 ∧ 
    (osmwayValhallaRecord osmid name_index nodecount).bwd_signboard_base_index_ = 0 ∧ 
    (osmwayValhallaRecord osmid name_index nodecount).destination_index_ = 0 ∧ 
    (osmwayValhallaRecord osmid name_index nodecount).destination_lang_index_ = 0 ∧ 
    (osmwayValhallaRecord osmid name_index nodecount).destination_forward_index_ = 0 ∧ 
    (osmwayValhallaRecord osmid name_index nodecount).destination_backward_index_ = 0 ∧ 
    (osmwayValhallaRecord osmid name_index nodecount).destination_forward_lang_index_ = 0 ∧ 
    (osmwayValhallaRecord osmid name_index nodecount).destination_backward_lang_index_ = 0 ∧ 
    (osmwayValhallaRecord osmid name_index nodecount).destination_ref_index_ = 0 ∧ 
    (osmwayValhallaRecord osmid name_index nodecount).destination_ref_lang_index_ = 0 ∧ 
    (osmwayValhallaRecord osmid name_index nodecount).destination_ref_to_index_ = 0 ∧ 
    (osmwayValhallaRecord osmid name_index nodecount).destination_ref_to_lang_index_ = 0 ∧ 
    (osmwayValhallaRecord osmid name_index nodecount).destination_int_ref_index_ = 0 ∧ 
    (osmwayValhallaRecord osmid name_index nodecount).destination_int_ref_to_index_ = 0 ∧ 
    (osmwayValhallaRecord osmid name_index nodecount).destination_street_index_ = 0 ∧ 
    (osmwayValhallaRecord osmid name_index nodecount).destination_street_lang_index_ = 0 ∧ 
    (osmwayValhallaRecord osmid name_index nodecount).destination_street_to_index_ = 0 ∧ 
    (osmwayValhallaRecord osmid name_index nodecount).destination_street_to_lang_index_ = 0 ∧ 
    (osmwayValhallaRecord osmid name_index nodecount).junction_name_index_ = 0 ∧ 
    (osmwayValhallaRecord osmid name_index nodecount).junction_name_lang_index_ = 0 ∧ 
    (osmwayValhallaRecord osmid name_index nodecount).junction_ref_index_ = 0 ∧ 
    (osmwayValhallaRecord osmid name_index nodecount).junction_ref_lang_index_ = 0 ∧ 
    (osmwayValhallaRecord osmid name_index nodecount).level_index_ = 0 ∧ 
    (osmwayValhallaRecord osmid name_index nodecount).level_ref_index_ = 0 ∧ 
    (osmwayValhallaRecord osmid name_index nodecount).duration_ = 0 ∧ 
    (osmwayValhallaRecord osmid name_index nodecount).destination_only_ = 0 ∧ 
    (osmwayValhallaRecord osmid name_index nodecount).no_thru_traffic_ = 0 ∧ 
    (osmwayValhallaRecord osmid name_index nodecount).oneway_ = 0 ∧ 
    (osmwayValhallaRecord osmid name_index nodecount).oneway_reverse_ = 0 ∧ 
    (osmwayValhallaRecord osmid name_index nodecount).roundabout_ = 0 ∧ 
    (osmwayValhallaRecord osmid name_index nodecount).ferry_ = 0 ∧ 
    (osmwayValhallaRecord osmid name_index nodecount).rail_ = 0 ∧ 
    (osmwayValhallaRecord osmid name_index nodecount).surface_ = 3 ∧ 
    (osmwayValhallaRecord osmid name_index nodecount).tunnel_ = 0 ∧ 
    (osmwayValhallaRecord osmid name_index nodecount).toll_ = 0 ∧ 
    (osmwayValhallaRecord osmid name_index nodecount).bridge_ = 0 ∧ 
    (osmwayValhallaRecord osmid name_index nodecount).seasonal_ = 0 ∧ 
    (osmwayValhallaRecord osmid name_index nodecount).drive_on_right_ = 1 ∧ 
    (osmwayValhallaRecord osmid name_index nodecount).bike_network_ = 0 ∧ 
    (osmwayValhallaRecord osmid name_index nodecount).exit_ = 0 ∧ 
    (osmwayValhallaRecord osmid name_index nodecount).tagged_speed_ = 0 ∧ 
    (osmwayValhallaRecord osmid name_index nodecount).forward_tagged_speed_ = 0 ∧ 
    (osmwayValhallaRecord osmid name_index nodecount).backward_tagged_speed_ = 0 ∧ 
    (osmwayValhallaRecord osmid name_index nodecount).tagged_lanes_ = 0 ∧ 
    (osmwayValhallaRecord osmid name_index nodecount).forward_tagged_lanes_ = 0 ∧ 
    (osmwayValhallaRecord osmid name_index nodecount).backward_tagged_lanes_ = 0 ∧ 
    (osmwayValhallaRecord osmid name_index nodecount).truck_route_ = 0 ∧ 
    (osmwayValhallaRecord osmid name_index nodecount).sidewalk_right_ = 0 ∧ 
    (osmwayValhallaRecord osmid name_index nodecount).sidewalk_left_ = 0 ∧ 
    (osmwayValhallaRecord osmid name_index nodecount).sac_scale_ = 0 ∧ 
    (osmwayValhallaRecord osmid name_index nodecount).road_class_ = 7 ∧ 
    (osmwayValhallaRecord osmid name_index nodecount).link_ = 0 ∧ 
    (osmwayValhallaRecord osmid name_index nodecount).use_ = 25 ∧ 
    (osmwayValhallaRecord osmid name_index nodecount).lanes_ = 0 ∧ 
    (osmwayValhallaRecord osmid name_index nodecount).forward_lanes_ = 0 ∧ 
    (osmwayValhallaRecord osmid name_index nodecount).backward_lanes_ = 0 ∧ 
    (osmwayValhallaRecord osmid name_index nodecount).turn_channel_ = 0 ∧ 
    (osmwayValhallaRecord osmid name_index nodecount).wheelchair_ = 0 ∧ 
    (osmwayValhallaRecord osmid name_index nodecount).wheelchair_tag_ = 0 ∧ 
    (osmwayValhallaRecord osmid name_index nodecount).has_user_tags_ = 0 ∧ 
    (osmwayValhallaRecord osmid name_index nodecount).has_pronunciation_tags_ = 0 ∧ 
    (osmwayValhallaRecord osmid name_index nodecount).internal_ = 0 ∧ 
    (osmwayValhallaRecord osmid name_index nodecount).hov_type_ = 0 ∧ 
    (osmwayValhallaRecord osmid name_index nodecount).indoor_ = 0 ∧ 
    (osmwayValhallaRecord osmid name_index nodecount).pedestrian_forward_ = 1 ∧ 
    (osmwayValhallaRecord osmid name_index nodecount).pedestrian_backward_ = 1 ∧ 
    (osmwayValhallaRecord osmid name_index nodecount).auto_forward_ = 0 ∧ 
    (osmwayValhallaRecord osmid name_index nodecount).bus_forward_ = 0 ∧ 
    (osmwayValhallaRecord osmid name_index nodecount).taxi_forward_ = 0 ∧ 
    (osmwayValhallaRecord osmid name_index nodecount).truck_forward_ = 0 ∧ 
    (osmwayValhallaRecord osmid name_index nodecount).motorcycle_forward_ = 0 ∧ 
    (osmwayValhallaRecord osmid name_index nodecount).emergency_forward_ = 0 ∧ 
    (osmwayValhallaRecord osmid name_index nodecount).hov_forward_ = 0 ∧ 
    (osmwayValhallaRecord osmid name_index nodecount).moped_forward_ = 0 ∧ 
    (osmwayValhallaRecord osmid name_index nodecount).auto_backward_ = 0 ∧ 
    (osmwayValhallaRecord osmid name_index nodecount).bus_backward_ = 0 ∧ 
    (osmwayValhallaRecord osmid name_index nodecount).taxi_backward_ = 0 ∧ 
    (osmwayValhallaRecord osmid name_index nodecount).truck_backward_ = 0 ∧ 
    (osmwayValhallaRecord osmid name_index nodecount).motorcycle_backward_ = 0 ∧ 
    (osmwayValhallaRecord osmid name_index nodecount).emergency_backward_ = 0 ∧ 
    (osmwayValhallaRecord osmid name_index nodecount).hov_backward_ = 0 ∧ 
    (osmwayValhallaRecord osmid name_index nodecount).moped_backward_ = 0 ∧ 
    (osmwayValhallaRecord osmid name_index nodecount).cycle_lane_right_ = 0 ∧ 
    (osmwayValhallaRecord osmid name_index nodecount).cycle_lane_left_ = 0 ∧ 
    (osmwayValhallaRecord osmid name_index nodecount).cycle_lane_right_opposite_ = 0 ∧ 
    (osmwayValhallaRecord osmid name_index nodecount).cycle_lane_left_opposite_ = 0 ∧ 
    (osmwayValhallaRecord osmid name_index nodecount).shoulder_right_ = 0 ∧ 
    (osmwayValhallaRecord osmid name_index nodecount).shoulder_left_ = 0 ∧ 
    (osmwayValhallaRecord osmid name_index nodecount).dismount_ = 0 ∧ 
    (osmwayValhallaRecord osmid name_index nodecount).use_sidepath_ = 0 ∧ 
    (osmwayValhallaRecord osmid name_index nodecount).bike_forward_ = 0 ∧ 
    (osmwayValhallaRecord osmid name_index nodecount).bike_backward_ = 0 ∧ 
    (osmwayValhallaRecord osmid name_index nodecount).lit_ = 0 ∧ 
    (osmwayValhallaRecord osmid name_index nodecount).destination_only_hgv_ = 0 ∧ 
    (osmwayValhallaRecord osmid name_index nodecount).spare2_ = 0 ∧ 
    (osmwayValhallaRecord osmid name_index nodecount).nodecount_ = nodecount % 2 ^ 16 ∧ 
    (osmwayValhallaRecord osmid name_index nodecount).speed_limit_ = 0 ∧ 
    (osmwayValhallaRecord osmid name_index nodecount).speed_ = 25 ∧ 
    (osmwayValhallaRecord osmid name_index nodecount).backward_speed_ = 0 ∧ 
    (osmwayValhallaRecord osmid name_index nodecount).forward_speed_ = 0 ∧ 
    (osmwayValhallaRecord osmid name_index nodecount).truck_speed_ = 0 ∧ 
    (osmwayValhallaRecord osmid name_index nodecount).truck_speed_forward_ = 0 ∧ 
    (osmwayValhallaRecord osmid name_index nodecount).truck_speed_backward_ = 0 ∧ 
    (osmwayValhallaRecord osmid name_index nodecount).layer_ = 0 :=
  ⟨getD_set_self wayZero a index _ h, rfl, rfl, rfl, rfl, rfl, rfl, rfl, rfl, rfl, rfl, rfl, 
   rfl, rfl, rfl, rfl, rfl, rfl, rfl, rfl, rfl, rfl, rfl, rfl, rfl, rfl, rfl, rfl, rfl, rfl, 
   rfl, rfl, rfl, rfl, rfl, rfl, rfl, rfl, rfl, rfl, rfl, rfl, rfl, rfl, rfl, rfl, rfl, rfl, 
   rfl, rfl, rfl, rfl, rfl, rfl, rfl, rfl, rfl, rfl, rfl, rfl, rfl, rfl, rfl, rfl, rfl, rfl, 
   rfl, rfl, rfl, rfl, rfl, rfl, rfl, rfl, rfl, rfl, rfl, rfl, rfl, rfl, rfl, rfl, rfl, rfl, 
   rfl, rfl, rfl, rfl, rfl, rfl, rfl, rfl, rfl, rfl, rfl, rfl, rfl, rfl, rfl, rfl, rfl, rfl, 
   rfl, rfl, rfl, rfl, rfl, rfl, rfl, rfl, rfl, rfl, rfl, rfl, rfl, rfl, rfl, rfl, rfl, rfl, 
   rfl, rfl, rfl, rfl, rfl, rfl, rfl, rfl, rfl, rfl, rfl, rfl, rfl, rfl, rfl, rfl, rfl, rfl, 
   rfl, rfl, rfl, rfl, rfl, rfl, rfl, rfl, rfl, rfl, rfl, rfl, rfl, rfl⟩

/-- Witness for C4 at index 0 of a one-record array, identity 42, name
index 7, node count 3. -/
theorem set_to_valhalla_defaults_witness :
    (osmway_set_to_valhalla [wayZero] 0 42 7 3).getD 0 wayZero =
      osmwayValhallaRecord 42 7 3 :=
  (set_to_valhalla_defaults [wayZero] 0 42 7 3 (by decide)).1

/-- C4 counterexample: with node count input 65536 the stored record's node
count is 0, not 65536 — "node count equal to the input" fails as soon as
the input does not fit the 16-bit `nodecount_` field. -/
theorem set_to_valhalla_nodecount_cex :
    ¬ ((osmway_set_to_valhalla [wayZero] 0 42 7 65536).getD 0 wayZero).nodecount_ =
      65536 := by
  decide

/-- C5: every one of the first `count` slots of a freshly allocated array
(`osmway_new` / `osmwaynode_new`) or of an array cleared by `osmway_clear` /
`osmwaynode_clear` is the all-zero record, and the all-zero records have
every field — including every bit-packed sub-field — equal to zero. -/
theorem new_clear_all_zero (count i : Nat) (hi : i < count)
    (a : List OSMWay) (b : List OSMWayNode) :
    (osmway_new count).get? i = some wayZero ∧
    (osmway_clear a count).get? i = some wayZero ∧
    (osmwaynode_new count).get? i = some waynodeZero ∧
    (osmwaynode_clear b count).get? i = some waynodeZero ∧
    wayZero.osmwayid_ = 0 ∧ wayZero.ref_index_ = 0 ∧ wayZero.ref_lang_index_ = 0 ∧ 
    wayZero.ref_left_index_ = 0 ∧ wayZero.ref_left_lang_index_ = 0 ∧ 
    wayZero.ref_right_index_ = 0 ∧ wayZero.ref_right_lang_index_ = 0 ∧ 
    wayZero.int_ref_index_ = 0 ∧ wayZero.int_ref_lang_index_ = 0 ∧ 
    wayZero.int_ref_left_index_ = 0 ∧ wayZero.int_ref_left_lang_index_ = 0 ∧ 
    wayZero.int_ref_right_index_ = 0 ∧ wayZero.int_ref_right_lang_index_ = 0 ∧ 
    wayZero.name_index_ = 0 ∧ wayZero.name_lang_index_ = 0 ∧ wayZero.name_left_index_ = 0 ∧ 
    wayZero.name_left_lang_index_ = 0 ∧ wayZero.name_right_index_ = 0 ∧ 
    wayZero.name_right_lang_index_ = 0 ∧ wayZero.name_forward_index_ = 0 ∧ 
    wayZero.name_forward_lang_index_ = 0 ∧ wayZero.name_backward_index_ = 0 ∧ 
    wayZero.name_backward_lang_index_ = 0 ∧ wayZero.alt_name_index_ = 0 ∧ 
    wayZero.alt_name_lang_index_ = 0 ∧ wayZero.alt_name_left_index_ = 0 ∧ 
    wayZero.alt_name_left_lang_index_ = 0 ∧ wayZero.alt_name_right_index_ = 0 ∧ 
    wayZero.alt_name_right_lang_index_ = 0 ∧ wayZero.official_name_index_ = 0 ∧ 
    wayZero.official_name_lang_index_ = 0 ∧ wayZero.official_name_left_index_ = 0 ∧ 
    wayZero.official_name_left_lang_index_ = 0 ∧ wayZero.official_name_right_index_ = 0 ∧ 
    wayZero.official_name_right_lang_index_ = 0 ∧ wayZero.tunnel_name_index_ = 0 ∧ 
    wayZero.tunnel_name_lang_index_ = 0 ∧ wayZero.tunnel_name_left_index_ = 0 ∧ 
    wayZero.tunnel_name_left_lang_index_ = 0 ∧ wayZero.tunnel_name_right_index_ = 0 ∧ 
    wayZero.tunnel_name_right_lang_index_ = 0 ∧ wayZero.fwd_turn_lanes_index_ = 0 ∧ 
    wayZero.bwd_turn_lanes_index_ = 0 ∧ wayZero.fwd_jct_base_index_ = 0 ∧ 
    wayZero.bwd_jct_base_index_ = 0 ∧ wayZero.fwd_jct_overlay_index_ = 0 ∧ 
    wayZero.bwd_jct_overlay_index_ = 0 ∧ wayZero.fwd_signboard_base_index_ = 0 ∧ 
    wayZero.bwd_signboard_base_index_ = 0 ∧ wayZero.destination_index_ = 0 ∧ 
    wayZero.destination_lang_index_ = 0 ∧ wayZero.destination_forward_index_ = 0 ∧ 
    wayZero.destination_backward_index_ = 0 ∧ wayZero.destination_forward_lang_index_ = 0 ∧ 
    wayZero.destination_backward_lang_index_ = 0 ∧ wayZero.destination_ref_index_ = 0 ∧ 
    wayZero.destination_ref_lang_index_ = 0 ∧ wayZero.destination_ref_to_index_ = 0 ∧ 
    wayZero.destination_ref_to_lang_index_ = 0 ∧ wayZero.destination_int_ref_index_ = 0 ∧ 
    wayZero.destination_int_ref_to_index_ = 0 ∧ wayZero.destination_street_index_ = 0 ∧ 
    wayZero.destination_street_lang_index_ = 0 ∧ wayZero.destination_street_to_index_ = 0 ∧ 
    wayZero.destination_street_to_lang_index_ = 0 ∧ wayZero.junction_name_index_ = 0 ∧ 
    wayZero.junction_name_lang_index_ = 0 ∧ wayZero.junction_ref_index_ = 0 ∧ 
    wayZero.junction_ref_lang_index_ = 0 ∧ wayZero.level_index_ = 0 ∧ 
    wayZero.level_ref_index_ = 0 ∧ wayZero.duration_ = 0 ∧ wayZero.destination_only_ = 0 ∧ 
    wayZero.no_thru_traffic_ = 0 ∧ wayZero.oneway_ = 0 ∧ wayZero.oneway_reverse_ = 0 ∧ 
    wayZero.roundabout_ = 0 ∧ wayZero.ferry_ = 0 ∧ wayZero.rail_ = 0 ∧ wayZero.surface_ = 0 ∧ 
    wayZero.tunnel_ = 0 ∧ wayZero.toll_ = 0 ∧ wayZero.bridge_ = 0 ∧ wayZero.seasonal_ = 0 ∧ 
    wayZero.drive_on_right_ = 0 ∧ wayZero.bike_network_ = 0 ∧ wayZero.exit_ = 0 ∧ 
    wayZero.tagged_speed_ = 0 ∧ wayZero.forward_tagged_speed_ = 0 ∧ 
    wayZero.backward_tagged_speed_ = 0 ∧ wayZero.tagged_lanes_ = 0 ∧ 
    wayZero.forward_tagged_lanes_ = 0 ∧ wayZero.backward_tagged_lanes_ = 0 ∧ 
    wayZero.truck_route_ = 0 ∧ wayZero.sidewalk_right_ = 0 ∧ wayZero.sidewalk_left_ = 0 ∧ 
    wayZero.sac_scale_ = 0 ∧ wayZero.road_class_ = 0 ∧ wayZero.link_ = 0 ∧ wayZero.use_ = 0 ∧ 
    wayZero.lanes_ = 0 ∧ wayZero.forward_lanes_ = 0 ∧ wayZero.backward_lanes_ = 0 ∧ 
    wayZero.turn_channel_ = 0 ∧ wayZero.wheelchair_ = 0 ∧ wayZero.wheelchair_tag_ = 0 ∧ 
    wayZero.has_user_tags_ = 0 ∧ wayZero.has_pronunciation_tags_ = 0 ∧ wayZero.internal_ = 0 ∧ 
    wayZero.hov_type_ = 0 ∧ wayZero.indoor_ = 0 ∧ wayZero.pedestrian_forward_ = 0 ∧ 
    wayZero.pedestrian_backward_ = 0 ∧ wayZero.auto_forward_ = 0 ∧ wayZero.bus_forward_ = 0 ∧ 
    wayZero.taxi_forward_ = 0 ∧ wayZero.truck_forward_ = 0 ∧ wayZero.motorcycle_forward_ = 0 ∧ 
    wayZero.emergency_forward_ = 0 ∧ wayZero.hov_forward_ = 0 ∧ wayZero.moped_forward_ = 0 ∧ 
    wayZero.auto_backward_ = 0 ∧ wayZero.bus_backward_ = 0 ∧ wayZero.taxi_backward_ = 0 ∧ 
    wayZero.truck_backward_ = 0 ∧ wayZero.motorcycle_backward_ = 0 ∧ 
    wayZero.emergency_backward_ = 0 ∧ wayZero.hov_backward_ = 0 ∧ 
    wayZero.moped_backward_ = 0 ∧ wayZero.cycle_lane_right_ = 0 ∧ 
    wayZero.cycle_lane_left_ = 0 ∧ wayZero.cycle_lane_right_opposite_ = 0 ∧ 
    wayZero.cycle_lane_left_opposite_ = 0 ∧ wayZero.shoulder_right_ = 0 ∧ 
    wayZero.shoulder_left_ = 0 ∧ wayZero.dismount_ = 0 ∧ wayZero.use_sidepath_ = 0 ∧ 
    wayZero.bike_forward_ = 0 ∧ wayZero.bike_backward_ = 0 ∧ wayZero.lit_ = 0 ∧ 
    wayZero.destination_only_hgv_ = 0 ∧ wayZero.spare2_ = 0 ∧ wayZero.nodecount_ = 0 ∧ 
    wayZero.speed_limit_ = 0 ∧ wayZero.speed_ = 0 ∧ wayZero.backward_speed_ = 0 ∧ 
    wayZero.forward_speed_ = 0 ∧ wayZero.truck_speed_ = 0 ∧ wayZero.truck_speed_forward_ = 0 ∧ 
    wayZero.truck_speed_backward_ = 0 ∧ wayZero.layer_ = 0 ∧ waynodeZero.node.osmid_ = 0 ∧ 
    waynodeZero.node.name_index_ = 0 ∧ waynodeZero.node.ref_index_ = 0 ∧ 
    waynodeZero.node.exit_to_index_ = 0 ∧ waynodeZero.node.named_intersection_ = 0 ∧ 
    waynodeZero.node.country_iso_index_ = 0 ∧ waynodeZero.node.state_iso_index_ = 0 ∧ 
    waynodeZero.node.traffic_signal_ = 0 ∧ waynodeZero.node.forward_signal_ = 0 ∧ 
    waynodeZero.node.backward_signal_ = 0 ∧ waynodeZero.node.stop_sign_ = 0 ∧ 
    waynodeZero.node.forward_stop_ = 0 ∧ waynodeZero.node.backward_stop_ = 0 ∧ 
    waynodeZero.node.yield_sign_ = 0 ∧ waynodeZero.node.forward_yield_ = 0 ∧ 
    waynodeZero.node.backward_yield_ = 0 ∧ waynodeZero.node.minor_ = 0 ∧ 
    waynodeZero.node.direction_ = 0 ∧ waynodeZero.node.spare_ = 0 ∧ 
    waynodeZero.node.access_ = 0 ∧ waynodeZero.node.type_ = 0 ∧ 
    waynodeZero.node.intersection_ = 0 ∧ waynodeZero.node.non_link_edge_ = 0 ∧ 
    waynodeZero.node.link_edge_ = 0 ∧ waynodeZero.node.shortlink_ = 0 ∧ 
    waynodeZero.node.non_ferry_edge_ = 0 ∧ waynodeZero.node.ferry_edge_ = 0 ∧ 
    waynodeZero.node.flat_loop_ = 0 ∧ waynodeZero.node.urban_ = 0 ∧ 
    waynodeZero.node.tagged_access_ = 0 ∧ waynodeZero.node.private_access_ = 0 ∧ 
    waynodeZero.node.cash_only_toll_ = 0 ∧ waynodeZero.node.spare1_ = 0 ∧ 
    waynodeZero.node.bss_info_ = 0 ∧ waynodeZero.node.linguistic_info_index_ = 0 ∧ 
    waynodeZero.node.lng7_ = 0 ∧ waynodeZero.node.lat7_ = 0 ∧ waynodeZero.way_index = 0 ∧ 
    waynodeZero.way_shape_node_index = 0 :=
  ⟨get?_replicate wayZero count i hi, get?_replicate_append wayZero (a.drop count) count i hi, 
   get?_replicate waynodeZero count i hi, 
   get?_replicate_append waynodeZero (b.drop count) count i hi, rfl, rfl, rfl, rfl, rfl, rfl, 
   rfl, rfl, rfl, rfl, rfl, rfl, rfl, rfl, rfl, rfl, rfl, rfl, rfl, rfl, rfl, rfl, rfl, rfl, 
   rfl, rfl, rfl, rfl, rfl, rfl, rfl, rfl, rfl, rfl, rfl, rfl, rfl, rfl, rfl, rfl, rfl, rfl, 
   rfl, rfl, rfl, rfl, rfl, rfl, rfl, rfl, rfl, rfl, rfl, rfl, rfl, rfl, rfl, rfl, rfl, rfl, 
   rfl, rfl, rfl, rfl, rfl, rfl, rfl, rfl, rfl, rfl, rfl, rfl, rfl, rfl, rfl, rfl, rfl, rfl, 
   rfl, rfl, rfl, rfl, rfl, rfl, rfl, rfl, rfl, rfl, rfl, rfl, rfl, rfl, rfl, rfl, rfl, rfl, 
   rfl, rfl, rfl, rfl, rfl, rfl, rfl, rfl, rfl, rfl, rfl, rfl, rfl, rfl, rfl, rfl, rfl, rfl, 
   rfl, rfl, rfl, rfl, rfl, rfl, rfl, rfl, rfl, rfl, rfl, rfl, rfl, rfl, rfl, rfl, rfl, rfl, 
   rfl, rfl, rfl, rfl, rfl, rfl, rfl, rfl, rfl, rfl, rfl, rfl, rfl, rfl, rfl, rfl, rfl, rfl, 
   rfl, rfl, rfl, rfl, rfl, rfl, rfl, rfl, rfl, rfl, rfl, rfl, rfl, rfl, rfl, rfl, rfl, rfl, 
   rfl, rfl, rfl, rfl, rfl, rfl, rfl, rfl, rfl, rfl, rfl, rfl, rfl, rfl, rfl, rfl, rfl, rfl, 
   rfl, rfl, rfl, rfl⟩

/-- Witness for C5: one-record arrays, allocated fresh and cleared over
non-zero contents. -/
theorem new_clear_all_zero_witness :
    (osmway_new 1).get? 0 = some wayZero ∧
    (osmway_clear [osmwayValhallaRecord 1 2 3] 1).get? 0 = some wayZero ∧
    (osmwaynode_new 1).get? 0 = some waynodeZero ∧
    (osmwaynode_clear [⟨nodeZero, 5, 6⟩] 1).get? 0 = some waynodeZero :=
  have h := new_clear_all_zero 1 0 (by decide) [osmwayValhallaRecord 1 2 3]
    [⟨nodeZero, 5, 6⟩]
  ⟨h.1, h.2.1, h.2.2.1, h.2.2.2.1⟩
